import Mathlib

/-!
# Anchor binding proxy of the QML designer property editor

A shallow embedding of `qmlanchorbindingproxy.cpp`
(`src/plugins/qmldesigner/components/propertyeditor`).

* `qreal` values are exact rationals.
* The item model (`ModelNode`, `QmlItemNode`, `QmlAnchors`) is declared outside the
  translated file; it is modelled here as a store of nodes, each with raw properties,
  auxiliary data, one optional anchor per anchor line and its geometry. The node
  instance is read live: an `instance...` query sees the writes made before it.
* Signals and model writes are recorded in a ghost `trace`; every model write is
  recorded with the value of `m_locked` at the time of the write.
* A `RewriterTransaction` only groups writes for undo and has no effect on the state.
-/

namespace QmlDesigner

/-! ## Values and geometry -/

/-- Property names (`PropertyName`, a byte string). -/
abbrev PropertyName := String

/-- A `QVariant` holding nothing or a number. -/
inductive QVariant where
  | invalid : QVariant
  | real (d : ℚ) : QVariant
deriving DecidableEq

namespace QVariant

/-- Qt rounding of a real to the nearest integer (`qRound64`). -/
def qRound64 (d : ℚ) : Int := Int.floor (d + 1 / 2)

/-- Conversion `QVariant::toInt()`: an invalid variant gives 0, a real is rounded. -/
def toInt : QVariant → Int
  | invalid => 0
  | real d => qRound64 d

end QVariant

/-- A rectangle `QRectF`: top-left corner, width and height. -/
structure QRectF where
  xp : ℚ
  yp : ℚ
  w : ℚ
  h : ℚ
deriving DecidableEq

namespace QRectF

/-- The rectangle `QRect()` converted to `QRectF`. -/
def null : QRectF := ⟨0, 0, 0, 0⟩

def top (r : QRectF) : ℚ := r.yp

def bottom (r : QRectF) : ℚ := r.yp + r.h

def left (r : QRectF) : ℚ := r.xp

def right (r : QRectF) : ℚ := r.xp + r.w

def width (r : QRectF) : ℚ := r.w

def height (r : QRectF) : ℚ := r.h

/-- Validity `QRectF::isValid()`: positive width and height. -/
def isValid (r : QRectF) : Bool := decide (0 < r.w) && decide (0 < r.h)

def translated (r : QRectF) (dx dy : ℚ) : QRectF := ⟨r.xp + dx, r.yp + dy, r.w, r.h⟩

end QRectF

/-- A `QTransform`, taken through the only operation the proxy uses: `mapRect`. -/
structure QTransform where
  mapRect : QRectF → QRectF

namespace QTransform

/-- The identity transform. -/
def identity : QTransform := ⟨fun r => r⟩

/-- A pure translation: `mapRect` translates the rectangle. -/
def fromTranslate (dx dy : ℚ) : QTransform := ⟨fun r => r.translated dx dy⟩

end QTransform

/-! ## The item model -/

/-- A `ModelNode` handle: `none` is the invalid node `ModelNode()`. -/
abbrev ModelNode := Option Nat

/-- The six anchor lines of an item. -/
inductive AnchorLine where
  | Top
  | Bottom
  | Left
  | Right
  | VerticalCenter
  | HorizontalCenter
deriving DecidableEq

/-- The target of an anchor: an item and one of its lines. -/
structure Anchor where
  qmlItemNode : ModelNode
  type : AnchorLine
deriving DecidableEq

/-- A property of a node: a literal value, or a binding with its evaluated value. -/
inductive AbstractProperty where
  | variant (value : QVariant) : AbstractProperty
  | binding (expression : String) (evaluated : QVariant) : AbstractProperty
deriving DecidableEq

/-- One node of the model with its instance geometry. -/
structure Node where
  parent : ModelNode
  properties : PropertyName → Option AbstractProperty
  auxiliaryData : PropertyName → Option QVariant
  anchors : AnchorLine → Option Anchor
  instanceBoundingRect : QRectF
  instanceTransform : QTransform
  instanceTransformWithContentTransform : QTransform
  instanceContentItemBoundingRect : QRectF

/-- The model: the node behind every valid handle. -/
abbrev Model := Nat → Node

/-- Signals of the proxy. -/
inductive Signal where
  | itemNodeChanged
  | parentChanged
  | topAnchorChanged
  | bottomAnchorChanged
  | leftAnchorChanged
  | rightAnchorChanged
  | centeredVChanged
  | centeredHChanged
  | anchorsChanged
  | topTargetChanged
  | bottomTargetChanged
  | leftTargetChanged
  | rightTargetChanged
  | verticalTargetChanged
  | horizontalTargetChanged
deriving DecidableEq

/-- Ghost events: an emitted signal, or a model write with the guard at that time. -/
inductive Event where
  | emitted (sig : Signal) : Event
  | modelWrite (locked : Bool) : Event
deriving DecidableEq

/-- Prefix of the auxiliary-data keys that hold backups. -/
def auxDataString : PropertyName := "anchors_"

/-- Modelled from the spec: the name of the margin property of an anchor line
(`marginPropertyName` of the anchor model, read back by `isFilled`). -/
def marginPropertyName : AnchorLine → PropertyName
  | .Top => "anchors.topMargin"
  | .Bottom => "anchors.bottomMargin"
  | .Left => "anchors.leftMargin"
  | .Right => "anchors.rightMargin"
  | .VerticalCenter => "anchors.verticalCenterOffset"
  | .HorizontalCenter => "anchors.horizontalCenterOffset"

/-! ### Reads of the item model -/

/-- Modelled from the spec: `ModelNode::isValid`. -/
def isValid (n : ModelNode) : Bool := n.isSome

/-- Modelled from the spec: parent lookup
(`modelNode().parentProperty().parentModelNode()`), invalid when there is none. -/
def parentModelNode (m : Model) (n : ModelNode) : ModelNode :=
  match n with
  | none => none
  | some i => (m i).parent

/-- Modelled from the spec: `hasParentProperty` / `hasNodeParent`. -/
def hasNodeParent (m : Model) (n : ModelNode) : Bool := (parentModelNode m n).isSome

/-- Modelled from the spec: `hasInstanceParent`; the instance tree is the live model tree. -/
def hasInstanceParent (m : Model) (n : ModelNode) : Bool := (parentModelNode m n).isSome

/-- Modelled from the spec: `instanceParentItem`. -/
def instanceParentItem (m : Model) (n : ModelNode) : ModelNode := parentModelNode m n

/-- Modelled from the spec: raw attribute lookup. -/
def property (m : Model) (n : ModelNode) (p : PropertyName) : Option AbstractProperty :=
  match n with
  | none => none
  | some i => (m i).properties p

/-- Modelled from the spec: `ModelNode::hasVariantProperty`. -/
def hasVariantProperty (m : Model) (n : ModelNode) (p : PropertyName) : Bool :=
  match property m n p with
  | some (.variant _) => true
  | _ => false

/-- Modelled from the spec: `ModelNode::hasBindingProperty`. -/
def hasBindingProperty (m : Model) (n : ModelNode) (p : PropertyName) : Bool :=
  match property m n p with
  | some (.binding _ _) => true
  | _ => false

/-- Modelled from the spec: `variantProperty(p).value()`. -/
def variantValue (m : Model) (n : ModelNode) (p : PropertyName) : QVariant :=
  match property m n p with
  | some (.variant v) => v
  | _ => QVariant.invalid

/-- Modelled from the spec: `QmlItemNode::instanceValue`, the live value of a property. -/
def instanceValue (m : Model) (n : ModelNode) (p : PropertyName) : QVariant :=
  match property m n p with
  | some (.variant v) => v
  | some (.binding _ v) => v
  | none => QVariant.invalid

/-- Presence and value of a raw attribute, however it is written. -/
def rawAttribute (m : Model) (n : ModelNode) (p : PropertyName) : Option QVariant :=
  match property m n p with
  | some (.variant v) => some v
  | some (.binding _ v) => some v
  | none => none

/-- Modelled from the spec: `ModelNode::auxiliaryData`, as an optional value. -/
def auxiliaryData? (m : Model) (n : ModelNode) (k : PropertyName) : Option QVariant :=
  match n with
  | none => none
  | some i => (m i).auxiliaryData k

/-- Modelled from the spec: `ModelNode::hasAuxiliaryData`. -/
def hasAuxiliaryData (m : Model) (n : ModelNode) (k : PropertyName) : Bool :=
  (auxiliaryData? m n k).isSome

/-- Modelled from the spec: `ModelNode::auxiliaryData`. -/
def auxiliaryData (m : Model) (n : ModelNode) (k : PropertyName) : QVariant :=
  (auxiliaryData? m n k).getD QVariant.invalid

/-- Modelled from the spec: the anchor stored on a line (`instanceAnchor`). -/
def instanceAnchor (m : Model) (n : ModelNode) (l : AnchorLine) : Option Anchor :=
  match n with
  | none => none
  | some i => (m i).anchors l

/-- Modelled from the spec: has-anchor-per-side (`instanceHasAnchor`). -/
def instanceHasAnchor (m : Model) (n : ModelNode) (l : AnchorLine) : Bool :=
  (instanceAnchor m n l).isSome

/-- Modelled from the spec: has-any-anchor (`instanceHasAnchors`). -/
def instanceHasAnchors (m : Model) (n : ModelNode) : Bool :=
  instanceHasAnchor m n .Top || instanceHasAnchor m n .Bottom
    || instanceHasAnchor m n .Left || instanceHasAnchor m n .Right
    || instanceHasAnchor m n .VerticalCenter || instanceHasAnchor m n .HorizontalCenter

/-- Modelled from the spec: the item an anchor line is bound to
(`instanceAnchor(l).qmlItemNode()`), invalid when the line is free. -/
def instanceAnchorTarget (m : Model) (n : ModelNode) (l : AnchorLine) : ModelNode :=
  match instanceAnchor m n l with
  | some a => a.qmlItemNode
  | none => none

/-- Modelled from the spec: local bounding rectangle of an item. -/
def instanceBoundingRect (m : Model) (n : ModelNode) : QRectF :=
  match n with
  | none => QRectF.null
  | some i => (m i).instanceBoundingRect

/-- Modelled from the spec: content bounding rectangle of an item. -/
def instanceContentItemBoundingRect (m : Model) (n : ModelNode) : QRectF :=
  match n with
  | none => QRectF.null
  | some i => (m i).instanceContentItemBoundingRect

/-- Modelled from the spec: transform of an item to its parent. -/
def instanceTransform (m : Model) (n : ModelNode) : QTransform :=
  match n with
  | none => QTransform.identity
  | some i => (m i).instanceTransform

/-- Modelled from the spec: transform of an item including the content transform. -/
def instanceTransformWithContentTransform (m : Model) (n : ModelNode) : QTransform :=
  match n with
  | none => QTransform.identity
  | some i => (m i).instanceTransformWithContentTransform

/-! ## The proxy -/

/-- State of a `QmlAnchorBindingProxy`, with the model its item lives in and
the ghost trace of signals and model writes. -/
structure QmlAnchorBindingProxy where
  model : Model
  m_qmlItemNode : ModelNode
  m_verticalTarget : ModelNode
  m_horizontalTarget : ModelNode
  m_topTarget : ModelNode
  m_bottomTarget : ModelNode
  m_leftTarget : ModelNode
  m_rightTarget : ModelNode
  m_locked : Bool
  trace : List Event

namespace QmlAnchorBindingProxy

/-- Emission of a signal. -/
def emit (sig : Signal) (s : QmlAnchorBindingProxy) : QmlAnchorBindingProxy :=
  { s with trace := s.trace ++ [Event.emitted sig] }

/-- The signals emitted so far, in order. -/
def signals (s : QmlAnchorBindingProxy) : List Signal :=
  s.trace.filterMap fun e =>
    match e with
    | .emitted sig => some sig
    | .modelWrite _ => none

/-- The guard values under which the model writes so far were made, in order. -/
def writeGuards (s : QmlAnchorBindingProxy) : List Bool :=
  s.trace.filterMap fun e =>
    match e with
    | .emitted _ => none
    | .modelWrite b => some b

/-! ### Writes of the item model

Every write goes through `modify`, which also records the write in the trace.
A write through an invalid handle does nothing. -/

/-- One write to a node of the model. -/
def modify (n : ModelNode) (f : Node → Node) (s : QmlAnchorBindingProxy) :
    QmlAnchorBindingProxy :=
  match n with
  | none => s
  | some i =>
    { s with
      model := Function.update s.model i (f (s.model i))
      trace := s.trace ++ [Event.modelWrite s.m_locked] }

/-- Modelled from the spec: `ModelNode::removeProperty`. -/
def removeProperty (n : ModelNode) (p : PropertyName) (s : QmlAnchorBindingProxy) :
    QmlAnchorBindingProxy :=
  modify n (fun nd => { nd with properties := Function.update nd.properties p none }) s

/-- Modelled from the spec: `variantProperty(p).setValue(v)`. -/
def setVariantProperty (n : ModelNode) (p : PropertyName) (v : QVariant)
    (s : QmlAnchorBindingProxy) : QmlAnchorBindingProxy :=
  modify n (fun nd =>
    { nd with properties := Function.update nd.properties p (some (.variant v)) }) s

/-- Modelled from the spec: `ModelNode::setAuxiliaryData`. -/
def setAuxiliaryData (n : ModelNode) (k : PropertyName) (v : QVariant)
    (s : QmlAnchorBindingProxy) : QmlAnchorBindingProxy :=
  modify n (fun nd => { nd with auxiliaryData := Function.update nd.auxiliaryData k (some v) }) s

/-- Modelled from the spec: set-anchor of the anchor model (`QmlAnchors::setAnchor`). -/
def anchorsSetAnchor (n : ModelNode) (l : AnchorLine) (target : ModelNode)
    (targetLine : AnchorLine) (s : QmlAnchorBindingProxy) : QmlAnchorBindingProxy :=
  modify n (fun nd =>
    { nd with anchors := Function.update nd.anchors l (some ⟨target, targetLine⟩) }) s

/-- Modelled from the spec: the margin of an anchor line is stored as given
(`QmlAnchors::setMargin`). -/
def anchorsSetMargin (n : ModelNode) (l : AnchorLine) (margin : ℚ)
    (s : QmlAnchorBindingProxy) : QmlAnchorBindingProxy :=
  setVariantProperty n (marginPropertyName l) (QVariant.real margin) s

/-- Modelled from the spec: remove-anchor of the anchor model (`QmlAnchors::removeAnchor`). -/
def anchorsRemoveAnchor (n : ModelNode) (l : AnchorLine) (s : QmlAnchorBindingProxy) :
    QmlAnchorBindingProxy :=
  modify n (fun nd => { nd with anchors := Function.update nd.anchors l none }) s

/-- Modelled from the spec: `QmlAnchors::removeMargin`. -/
def anchorsRemoveMargin (n : ModelNode) (l : AnchorLine) (s : QmlAnchorBindingProxy) :
    QmlAnchorBindingProxy :=
  removeProperty n (marginPropertyName l) s

/-- Modelled from the spec: `QmlAnchors::removeAnchors`, no line stays anchored. -/
def anchorsRemoveAnchors (n : ModelNode) (s : QmlAnchorBindingProxy) : QmlAnchorBindingProxy :=
  modify n (fun nd => { nd with anchors := fun _ => none }) s

/-- Modelled from the spec: remove-all-margins (`QmlAnchors::removeMargins`). -/
def anchorsRemoveMargins (n : ModelNode) (s : QmlAnchorBindingProxy) : QmlAnchorBindingProxy :=
  anchorsRemoveMargin n .HorizontalCenter (anchorsRemoveMargin n .VerticalCenter
    (anchorsRemoveMargin n .Bottom (anchorsRemoveMargin n .Top
      (anchorsRemoveMargin n .Right (anchorsRemoveMargin n .Left s)))))

/-- Modelled from the spec: fill-all (`QmlAnchors::fill`), the four edges are
anchored to the same edges of the parent. -/
def anchorsFill (n : ModelNode) (s : QmlAnchorBindingProxy) : QmlAnchorBindingProxy :=
  modify n (fun nd =>
    { nd with
      anchors := fun l =>
        match l with
        | .Top => some ⟨nd.parent, .Top⟩
        | .Bottom => some ⟨nd.parent, .Bottom⟩
        | .Left => some ⟨nd.parent, .Left⟩
        | .Right => some ⟨nd.parent, .Right⟩
        | .VerticalCenter => nd.anchors .VerticalCenter
        | .HorizontalCenter => nd.anchors .HorizontalCenter }) s

/-! ### The translated functions -/

/-- Source `backupPropertyAndRemove`. -/
def backupPropertyAndRemove (node : ModelNode) (propertyName : PropertyName)
    (s : QmlAnchorBindingProxy) : QmlAnchorBindingProxy :=
  let s1 :=
    if hasVariantProperty s.model node propertyName then
      removeProperty node propertyName
        (setAuxiliaryData node (auxDataString ++ propertyName)
          (variantValue s.model node propertyName) s)
    else s
  if hasBindingProperty s1.model node propertyName then
    removeProperty node propertyName
      (setAuxiliaryData node (auxDataString ++ propertyName)
        (instanceValue s1.model node propertyName) s1)
  else s1

/-- Source `restoreProperty`. -/
def restoreProperty (node : ModelNode) (propertyName : PropertyName)
    (s : QmlAnchorBindingProxy) : QmlAnchorBindingProxy :=
  if hasAuxiliaryData s.model node (auxDataString ++ propertyName) then
    setVariantProperty node propertyName
      (auxiliaryData s.model node (auxDataString ++ propertyName)) s
  else s

/-- Source `QmlAnchorBindingProxy::modelNode`. -/
def modelNode (s : QmlAnchorBindingProxy) : ModelNode := s.m_qmlItemNode

/-- Source `QmlAnchorBindingProxy::hasParent`. -/
def hasParent (s : QmlAnchorBindingProxy) : Bool :=
  isValid s.m_qmlItemNode && hasNodeParent s.model s.m_qmlItemNode

/-- Source `QmlAnchorBindingProxy::topAnchored`. -/
def topAnchored (s : QmlAnchorBindingProxy) : Bool :=
  isValid s.m_qmlItemNode && instanceHasAnchor s.model s.m_qmlItemNode .Top

/-- Source `QmlAnchorBindingProxy::bottomAnchored`. -/
def bottomAnchored (s : QmlAnchorBindingProxy) : Bool :=
  isValid s.m_qmlItemNode && instanceHasAnchor s.model s.m_qmlItemNode .Bottom

/-- Source `QmlAnchorBindingProxy::leftAnchored`. -/
def leftAnchored (s : QmlAnchorBindingProxy) : Bool :=
  isValid s.m_qmlItemNode && instanceHasAnchor s.model s.m_qmlItemNode .Left

/-- Source `QmlAnchorBindingProxy::rightAnchored`. -/
def rightAnchored (s : QmlAnchorBindingProxy) : Bool :=
  isValid s.m_qmlItemNode && instanceHasAnchor s.model s.m_qmlItemNode .Right

/-- Source `QmlAnchorBindingProxy::verticalCentered`. -/
def verticalCentered (s : QmlAnchorBindingProxy) : Bool :=
  isValid s.m_qmlItemNode && instanceHasAnchor s.model s.m_qmlItemNode .VerticalCenter

/-- Source `QmlAnchorBindingProxy::horizontalCentered`. -/
def horizontalCentered (s : QmlAnchorBindingProxy) : Bool :=
  isValid s.m_qmlItemNode && instanceHasAnchor s.model s.m_qmlItemNode .HorizontalCenter

/-- Source `QmlAnchorBindingProxy::hasAnchors`. -/
def hasAnchors (s : QmlAnchorBindingProxy) : Bool :=
  isValid s.m_qmlItemNode && instanceHasAnchors s.model s.m_qmlItemNode

/-- Source `QmlAnchorBindingProxy::isFilled`. -/
def isFilled (s : QmlAnchorBindingProxy) : Bool :=
  isValid s.m_qmlItemNode && s.hasAnchors && s.topAnchored && s.bottomAnchored
    && s.leftAnchored && s.rightAnchored
    && decide ((instanceValue s.model s.m_qmlItemNode "anchors.topMargin").toInt = 0)
    && decide ((instanceValue s.model s.m_qmlItemNode "anchors.bottomMargin").toInt = 0)
    && decide ((instanceValue s.model s.m_qmlItemNode "anchors.leftMargin").toInt = 0)
    && decide ((instanceValue s.model s.m_qmlItemNode "anchors.rightMargin").toInt = 0)

/-- Source `QmlAnchorBindingProxy::parentBoundingBox`. -/
def parentBoundingBox (s : QmlAnchorBindingProxy) : QRectF :=
  if hasInstanceParent s.model s.m_qmlItemNode then
    if (instanceContentItemBoundingRect s.model
        (instanceParentItem s.model s.m_qmlItemNode)).isValid then
      instanceContentItemBoundingRect s.model (instanceParentItem s.model s.m_qmlItemNode)
    else instanceBoundingRect s.model (instanceParentItem s.model s.m_qmlItemNode)
  else QRectF.null

/-- Source `QmlAnchorBindingProxy::boundingBox`. -/
def boundingBox (s : QmlAnchorBindingProxy) (node : ModelNode) : QRectF :=
  if isValid node then
    (instanceTransform s.model node).mapRect (instanceBoundingRect s.model node)
  else QRectF.null

/-- Source `QmlAnchorBindingProxy::transformedBoundingBox`. -/
def transformedBoundingBox (s : QmlAnchorBindingProxy) : QRectF :=
  (instanceTransformWithContentTransform s.model s.m_qmlItemNode).mapRect
    (instanceBoundingRect s.model s.m_qmlItemNode)

/-- Source `QmlAnchorBindingProxy::calcTopMargin`. -/
def calcTopMargin (s : QmlAnchorBindingProxy) : QmlAnchorBindingProxy :=
  let s1 := { s with m_locked := true }
  let s2 :=
    if s1.m_topTarget = parentModelNode s1.model s1.m_qmlItemNode then
      let topMargin := s1.transformedBoundingBox.top - s1.parentBoundingBox.top
      anchorsSetAnchor s1.m_qmlItemNode .Top s1.m_topTarget .Top
        (anchorsSetMargin s1.m_qmlItemNode .Top topMargin s1)
    else
      let topMargin := (s1.boundingBox s1.m_qmlItemNode).top - (s1.boundingBox s1.m_topTarget).bottom
      anchorsSetAnchor s1.m_qmlItemNode .Top s1.m_topTarget .Bottom
        (anchorsSetMargin s1.m_qmlItemNode .Top topMargin s1)
  { s2 with m_locked := false }

/-- Source `QmlAnchorBindingProxy::calcBottomMargin`. -/
def calcBottomMargin (s : QmlAnchorBindingProxy) : QmlAnchorBindingProxy :=
  let s1 := { s with m_locked := true }
  let s2 :=
    if s1.m_bottomTarget = parentModelNode s1.model s1.m_qmlItemNode then
      let bottomMargin := s1.parentBoundingBox.bottom - s1.transformedBoundingBox.bottom
      anchorsSetAnchor s1.m_qmlItemNode .Bottom s1.m_bottomTarget .Bottom
        (anchorsSetMargin s1.m_qmlItemNode .Bottom bottomMargin s1)
    else
      let bottomMargin :=
        (s1.boundingBox s1.m_bottomTarget).top - (s1.boundingBox s1.m_qmlItemNode).bottom
      anchorsSetAnchor s1.m_qmlItemNode .Bottom s1.m_bottomTarget .Top
        (anchorsSetMargin s1.m_qmlItemNode .Bottom bottomMargin s1)
  { s2 with m_locked := false }

/-- Source `QmlAnchorBindingProxy::calcLeftMargin`. -/
def calcLeftMargin (s : QmlAnchorBindingProxy) : QmlAnchorBindingProxy :=
  let s1 := { s with m_locked := true }
  let s2 :=
    if s1.m_leftTarget = parentModelNode s1.model s1.m_qmlItemNode then
      let leftMargin := s1.transformedBoundingBox.left - s1.parentBoundingBox.left
      anchorsSetAnchor s1.m_qmlItemNode .Left s1.m_leftTarget .Left
        (anchorsSetMargin s1.m_qmlItemNode .Left leftMargin s1)
    else
      let leftMargin :=
        (s1.boundingBox s1.m_qmlItemNode).left - (s1.boundingBox s1.m_leftTarget).right
      anchorsSetAnchor s1.m_qmlItemNode .Left s1.m_leftTarget .Right
        (anchorsSetMargin s1.m_qmlItemNode .Left leftMargin s1)
  { s2 with m_locked := false }

/-- Source `QmlAnchorBindingProxy::calcRightMargin`. -/
def calcRightMargin (s : QmlAnchorBindingProxy) : QmlAnchorBindingProxy :=
  let s1 := { s with m_locked := true }
  let s2 :=
    if s1.m_rightTarget = parentModelNode s1.model s1.m_qmlItemNode then
      let rightMargin := s1.parentBoundingBox.right - s1.transformedBoundingBox.right
      anchorsSetAnchor s1.m_qmlItemNode .Right s1.m_rightTarget .Right
        (anchorsSetMargin s1.m_qmlItemNode .Right rightMargin s1)
    else
      let rightMargin :=
        (s1.boundingBox s1.m_rightTarget).left - (s1.boundingBox s1.m_qmlItemNode).right
      anchorsSetAnchor s1.m_qmlItemNode .Right s1.m_rightTarget .Left
        (anchorsSetMargin s1.m_qmlItemNode .Right rightMargin s1)
  { s2 with m_locked := false }

/-- Source `QmlAnchorBindingProxy::setDefaultAnchorTarget`. -/
def setDefaultAnchorTarget (modelNode : ModelNode) (s : QmlAnchorBindingProxy) :
    QmlAnchorBindingProxy :=
  { s with
    m_verticalTarget := modelNode
    m_horizontalTarget := modelNode
    m_topTarget := modelNode
    m_bottomTarget := modelNode
    m_leftTarget := modelNode
    m_rightTarget := modelNode }

/-- The Top block of `setup` and `invalidate`: when the line is anchored and the
item it is bound to is valid, that item becomes the cached target. -/
def cacheTopTarget (s : QmlAnchorBindingProxy) : QmlAnchorBindingProxy :=
  if s.topAnchored then
    let targetNode := instanceAnchorTarget s.model s.m_qmlItemNode .Top
    if isValid targetNode then { s with m_topTarget := targetNode } else s
  else s

/-- The Bottom block of `setup` and `invalidate`: when the line is anchored and the
item it is bound to is valid, that item becomes the cached target. -/
def cacheBottomTarget (s : QmlAnchorBindingProxy) : QmlAnchorBindingProxy :=
  if s.bottomAnchored then
    let targetNode := instanceAnchorTarget s.model s.m_qmlItemNode .Bottom
    if isValid targetNode then { s with m_bottomTarget := targetNode } else s
  else s

/-- The Left block of `setup` and `invalidate`: when the line is anchored and the
item it is bound to is valid, that item becomes the cached target. -/
def cacheLeftTarget (s : QmlAnchorBindingProxy) : QmlAnchorBindingProxy :=
  if s.leftAnchored then
    let targetNode := instanceAnchorTarget s.model s.m_qmlItemNode .Left
    if isValid targetNode then { s with m_leftTarget := targetNode } else s
  else s

/-- The Right block of `setup` and `invalidate`: when the line is anchored and the
item it is bound to is valid, that item becomes the cached target. -/
def cacheRightTarget (s : QmlAnchorBindingProxy) : QmlAnchorBindingProxy :=
  if s.rightAnchored then
    let targetNode := instanceAnchorTarget s.model s.m_qmlItemNode .Right
    if isValid targetNode then { s with m_rightTarget := targetNode } else s
  else s

/-- The VerticalCenter block of `setup` and `invalidate`: when the line is anchored and the
item it is bound to is valid, that item becomes the cached target. -/
def cacheVerticalTarget (s : QmlAnchorBindingProxy) : QmlAnchorBindingProxy :=
  if s.verticalCentered then
    let targetNode := instanceAnchorTarget s.model s.m_qmlItemNode .VerticalCenter
    if isValid targetNode then { s with m_verticalTarget := targetNode } else s
  else s

/-- The HorizontalCenter block of `setup` and `invalidate`: when the line is anchored and the
item it is bound to is valid, that item becomes the cached target. -/
def cacheHorizontalTarget (s : QmlAnchorBindingProxy) : QmlAnchorBindingProxy :=
  if s.horizontalCentered then
    let targetNode := instanceAnchorTarget s.model s.m_qmlItemNode .HorizontalCenter
    if isValid targetNode then { s with m_horizontalTarget := targetNode } else s
  else s

/-- The six target lookups shared by `setup` and `invalidate`, in the order of the
source: Top, Bottom, Left, Right, VerticalCenter, HorizontalCenter. -/
def cacheAnchorTargets (s : QmlAnchorBindingProxy) : QmlAnchorBindingProxy :=
  cacheHorizontalTarget (cacheVerticalTarget (cacheRightTarget (cacheLeftTarget
    (cacheBottomTarget (cacheTopTarget s)))))

/-- The closing signals shared by `setup` and `invalidate`: the target signals,
emitted when the item has a parent. -/
def emitTargetSignals (s : QmlAnchorBindingProxy) : QmlAnchorBindingProxy :=
  if hasNodeParent s.model s.m_qmlItemNode then
    emit .horizontalTargetChanged (emit .verticalTargetChanged (emit .rightTargetChanged
      (emit .leftTargetChanged (emit .bottomTargetChanged (emit .topTargetChanged
        (emit .itemNodeChanged s))))))
  else s

/-- Source `QmlAnchorBindingProxy::setup`. -/
def setup (fxItemNode : ModelNode) (s : QmlAnchorBindingProxy) : QmlAnchorBindingProxy :=
  let s0 := { s with m_qmlItemNode := fxItemNode }
  let s1 :=
    if hasNodeParent s0.model s0.m_qmlItemNode then
      setDefaultAnchorTarget (parentModelNode s0.model s0.m_qmlItemNode) s0
    else setDefaultAnchorTarget none s0
  let s2 := cacheAnchorTargets s1
  let s3 :=
    emit .anchorsChanged (emit .centeredVChanged (emit .centeredHChanged
      (emit .rightAnchorChanged (emit .leftAnchorChanged (emit .bottomAnchorChanged
        (emit .topAnchorChanged (emit .parentChanged (emit .itemNodeChanged s2))))))))
  emitTargetSignals s3

/-- Source `QmlAnchorBindingProxy::invalidate`. -/
def invalidate (fxItemNode : ModelNode) (s : QmlAnchorBindingProxy) : QmlAnchorBindingProxy :=
  if s.m_locked then s
  else
    let s0 := { s with m_qmlItemNode := fxItemNode }
    let s1 := setDefaultAnchorTarget (parentModelNode s0.model s0.m_qmlItemNode) s0
    let s2 := cacheAnchorTargets s1
    let s3 :=
      emit .anchorsChanged (emit .centeredVChanged (emit .centeredHChanged
        (emit .rightAnchorChanged (emit .leftAnchorChanged (emit .bottomAnchorChanged
          (emit .topAnchorChanged s2))))))
    emitTargetSignals s3

/-- Source `QmlAnchorBindingProxy::setTopTarget`. -/
def setTopTarget (newTarget : ModelNode) (s : QmlAnchorBindingProxy) : QmlAnchorBindingProxy :=
  if newTarget = s.m_topTarget then s
  else emit .topTargetChanged (calcTopMargin { s with m_topTarget := newTarget })

/-- Source `QmlAnchorBindingProxy::setBottomTarget`. -/
def setBottomTarget (newTarget : ModelNode) (s : QmlAnchorBindingProxy) :
    QmlAnchorBindingProxy :=
  if newTarget = s.m_bottomTarget then s
  else emit .bottomTargetChanged (calcBottomMargin { s with m_bottomTarget := newTarget })

/-- Source `QmlAnchorBindingProxy::setLeftTarget`. -/
def setLeftTarget (newTarget : ModelNode) (s : QmlAnchorBindingProxy) : QmlAnchorBindingProxy :=
  if newTarget = s.m_leftTarget then s
  else emit .leftTargetChanged (calcLeftMargin { s with m_leftTarget := newTarget })

/-- Source `QmlAnchorBindingProxy::setRightTarget`. -/
def setRightTarget (newTarget : ModelNode) (s : QmlAnchorBindingProxy) :
    QmlAnchorBindingProxy :=
  if newTarget = s.m_rightTarget then s
  else emit .rightTargetChanged (calcRightMargin { s with m_rightTarget := newTarget })

/-- Source `QmlAnchorBindingProxy::setVerticalTarget`. -/
def setVerticalTarget (newTarget : ModelNode) (s : QmlAnchorBindingProxy) :
    QmlAnchorBindingProxy :=
  if newTarget = s.m_verticalTarget then s
  else
    let s1 := { s with m_verticalTarget := newTarget }
    emit .verticalTargetChanged
      (anchorsSetAnchor s1.m_qmlItemNode .VerticalCenter s1.m_verticalTarget .VerticalCenter s1)

/-- Source `QmlAnchorBindingProxy::setHorizontalTarget`. -/
def setHorizontalTarget (newTarget : ModelNode) (s : QmlAnchorBindingProxy) :
    QmlAnchorBindingProxy :=
  if newTarget = s.m_horizontalTarget then s
  else
    let s1 := { s with m_horizontalTarget := newTarget }
    emit .horizontalTargetChanged
      (anchorsSetAnchor s1.m_qmlItemNode .HorizontalCenter s1.m_horizontalTarget
        .HorizontalCenter s1)

/-- Source `QmlAnchorBindingProxy::resetLayout`. -/
def resetLayout (s : QmlAnchorBindingProxy) : QmlAnchorBindingProxy :=
  let s1 := anchorsRemoveAnchors s.m_qmlItemNode s
  let s2 := anchorsRemoveMargins s1.m_qmlItemNode s1
  let s3 := restoreProperty s2.modelNode "x" s2
  let s4 := restoreProperty s3.modelNode "y" s3
  let s5 := restoreProperty s4.modelNode "width" s4
  let s6 := restoreProperty s5.modelNode "height" s5
  emit .anchorsChanged (emit .rightAnchorChanged (emit .leftAnchorChanged
    (emit .bottomAnchorChanged (emit .topAnchorChanged s6))))

/-- Source `QmlAnchorBindingProxy::removeTopAnchor`. -/
def removeTopAnchor (s : QmlAnchorBindingProxy) : QmlAnchorBindingProxy :=
  let s1 := anchorsRemoveAnchor s.m_qmlItemNode .Top s
  let s2 := anchorsRemoveMargin s1.m_qmlItemNode .Top s1
  let s3 := restoreProperty s2.modelNode "y" s2
  restoreProperty s3.modelNode "height" s3

/-- Source `QmlAnchorBindingProxy::removeBottomAnchor`. -/
def removeBottomAnchor (s : QmlAnchorBindingProxy) : QmlAnchorBindingProxy :=
  let s1 := anchorsRemoveAnchor s.m_qmlItemNode .Bottom s
  let s2 := anchorsRemoveMargin s1.m_qmlItemNode .Bottom s1
  restoreProperty s2.modelNode "height" s2

/-- Source `QmlAnchorBindingProxy::removeLeftAnchor`. -/
def removeLeftAnchor (s : QmlAnchorBindingProxy) : QmlAnchorBindingProxy :=
  let s1 := anchorsRemoveAnchor s.m_qmlItemNode .Left s
  let s2 := anchorsRemoveMargin s1.m_qmlItemNode .Left s1
  let s3 := restoreProperty s2.modelNode "x" s2
  restoreProperty s3.modelNode "width" s3

/-- Source `QmlAnchorBindingProxy::removeRightAnchor`. -/
def removeRightAnchor (s : QmlAnchorBindingProxy) : QmlAnchorBindingProxy :=
  let s1 := anchorsRemoveAnchor s.m_qmlItemNode .Right s
  let s2 := anchorsRemoveMargin s1.m_qmlItemNode .Right s1
  restoreProperty s2.modelNode "width" s2

/-- Source `QmlAnchorBindingProxy::setTopAnchor`. -/
def setTopAnchor (anchor : Bool) (s : QmlAnchorBindingProxy) : QmlAnchorBindingProxy :=
  if !hasNodeParent s.model s.m_qmlItemNode then s
  else if s.topAnchored = anchor then s
  else
    let s1 :=
      if !anchor then removeTopAnchor s
      else
        let a := calcTopMargin s
        let b := backupPropertyAndRemove a.modelNode "y" a
        if b.bottomAnchored then backupPropertyAndRemove b.modelNode "height" b else b
    let s2 := emit .topAnchorChanged s1
    if s2.hasAnchors != anchor then emit .anchorsChanged s2 else s2

/-- Source `QmlAnchorBindingProxy::setBottomAnchor`. -/
def setBottomAnchor (anchor : Bool) (s : QmlAnchorBindingProxy) : QmlAnchorBindingProxy :=
  if !hasNodeParent s.model s.m_qmlItemNode then s
  else if s.bottomAnchored = anchor then s
  else
    let s1 :=
      if !anchor then removeBottomAnchor s
      else
        let a := calcBottomMargin s
        if a.topAnchored then backupPropertyAndRemove a.modelNode "height" a else a
    let s2 := emit .bottomAnchorChanged s1
    if s2.hasAnchors != anchor then emit .anchorsChanged s2 else s2

/-- Source `QmlAnchorBindingProxy::setLeftAnchor`. -/
def setLeftAnchor (anchor : Bool) (s : QmlAnchorBindingProxy) : QmlAnchorBindingProxy :=
  if !hasNodeParent s.model s.m_qmlItemNode then s
  else if s.leftAnchored = anchor then s
  else
    let s1 :=
      if !anchor then removeLeftAnchor s
      else
        let a := calcLeftMargin s
        let b := backupPropertyAndRemove a.modelNode "x" a
        if b.rightAnchored then backupPropertyAndRemove b.modelNode "width" b else b
    let s2 := emit .leftAnchorChanged s1
    if s2.hasAnchors != anchor then emit .anchorsChanged s2 else s2

/-- Source `QmlAnchorBindingProxy::setRightAnchor`. -/
def setRightAnchor (anchor : Bool) (s : QmlAnchorBindingProxy) : QmlAnchorBindingProxy :=
  if !hasNodeParent s.model s.m_qmlItemNode then s
  else if s.rightAnchored = anchor then s
  else
    let s1 :=
      if !anchor then removeRightAnchor s
      else
        let a := calcRightMargin s
        if a.leftAnchored then backupPropertyAndRemove a.modelNode "width" a else a
    let s2 := emit .rightAnchorChanged s1
    if s2.hasAnchors != anchor then emit .anchorsChanged s2 else s2

/-- Source `QmlAnchorBindingProxy::setVerticalCentered`. -/
def setVerticalCentered (centered : Bool) (s : QmlAnchorBindingProxy) :
    QmlAnchorBindingProxy :=
  if !hasNodeParent s.model s.m_qmlItemNode then s
  else if s.verticalCentered = centered then s
  else
    let s1 := { s with m_locked := true }
    let s2 :=
      if !centered then
        anchorsRemoveMargin s1.m_qmlItemNode .VerticalCenter
          (anchorsRemoveAnchor s1.m_qmlItemNode .VerticalCenter s1)
      else
        anchorsSetAnchor s1.m_qmlItemNode .VerticalCenter
          (parentModelNode s1.model s1.m_qmlItemNode) .VerticalCenter s1
    emit .centeredVChanged { s2 with m_locked := false }

/-- Source `QmlAnchorBindingProxy::setHorizontalCentered`. -/
def setHorizontalCentered (centered : Bool) (s : QmlAnchorBindingProxy) :
    QmlAnchorBindingProxy :=
  if !hasNodeParent s.model s.m_qmlItemNode then s
  else if s.horizontalCentered = centered then s
  else
    let s1 := { s with m_locked := true }
    let s2 :=
      if !centered then
        anchorsRemoveMargin s1.m_qmlItemNode .HorizontalCenter
          (anchorsRemoveAnchor s1.m_qmlItemNode .HorizontalCenter s1)
      else
        anchorsSetAnchor s1.m_qmlItemNode .HorizontalCenter
          (parentModelNode s1.model s1.m_qmlItemNode) .HorizontalCenter s1
    emit .centeredHChanged { s2 with m_locked := false }

/-- Source `QmlAnchorBindingProxy::fill`. -/
def fill (s : QmlAnchorBindingProxy) : QmlAnchorBindingProxy :=
  let s1 := backupPropertyAndRemove s.modelNode "x" s
  let s2 := backupPropertyAndRemove s1.modelNode "y" s1
  let s3 := backupPropertyAndRemove s2.modelNode "width" s2
  let s4 := backupPropertyAndRemove s3.modelNode "height" s3
  let s5 := anchorsFill s4.m_qmlItemNode s4
  let s6 := setHorizontalCentered false s5
  let s7 := setVerticalCentered false s6
  let s8 := anchorsRemoveMargin s7.m_qmlItemNode .Right s7
  let s9 := anchorsRemoveMargin s8.m_qmlItemNode .Left s8
  let s10 := anchorsRemoveMargin s9.m_qmlItemNode .Top s9
  let s11 := anchorsRemoveMargin s10.m_qmlItemNode .Bottom s10
  emit .anchorsChanged (emit .rightAnchorChanged (emit .leftAnchorChanged
    (emit .bottomAnchorChanged (emit .topAnchorChanged s11))))

end QmlAnchorBindingProxy

/-! ## The operations of the proxy -/

/-- The public operations of the proxy. -/
inductive Operation where
  | setup (fxItemNode : ModelNode)
  | invalidate (fxItemNode : ModelNode)
  | setTopAnchor (anchor : Bool)
  | setBottomAnchor (anchor : Bool)
  | setLeftAnchor (anchor : Bool)
  | setRightAnchor (anchor : Bool)
  | setVerticalCentered (centered : Bool)
  | setHorizontalCentered (centered : Bool)
  | setTopTarget (target : ModelNode)
  | setBottomTarget (target : ModelNode)
  | setLeftTarget (target : ModelNode)
  | setRightTarget (target : ModelNode)
  | setVerticalTarget (target : ModelNode)
  | setHorizontalTarget (target : ModelNode)
  | fill
  | resetLayout
deriving DecidableEq

/-- One operation applied to the proxy. -/
def Operation.apply (o : Operation) (s : QmlAnchorBindingProxy) : QmlAnchorBindingProxy :=
  match o with
  | .setup n => s.setup n
  | .invalidate n => s.invalidate n
  | .setTopAnchor b => s.setTopAnchor b
  | .setBottomAnchor b => s.setBottomAnchor b
  | .setLeftAnchor b => s.setLeftAnchor b
  | .setRightAnchor b => s.setRightAnchor b
  | .setVerticalCentered b => s.setVerticalCentered b
  | .setHorizontalCentered b => s.setHorizontalCentered b
  | .setTopTarget t => s.setTopTarget t
  | .setBottomTarget t => s.setBottomTarget t
  | .setLeftTarget t => s.setLeftTarget t
  | .setRightTarget t => s.setRightTarget t
  | .setVerticalTarget t => s.setVerticalTarget t
  | .setHorizontalTarget t => s.setHorizontalTarget t
  | .fill => s.fill
  | .resetLayout => s.resetLayout

/-- A sequence of operations applied in order. -/
def run (ops : List Operation) (s : QmlAnchorBindingProxy) : QmlAnchorBindingProxy :=
  ops.foldl (fun st o => o.apply st) s

/-! ## Consistency of the backup slots -/

/-- The backup slot of a raw attribute is not stale: when the slot exists, the
attribute is present and holds the value of the slot. -/
def backupAgrees (m : Model) (n : ModelNode) (p : PropertyName) : Bool :=
  match auxiliaryData? m n (auxDataString ++ p) with
  | none => true
  | some v => decide (rawAttribute m n p = some v)

/-- A backup followed by a restore gives the raw attribute back as it was: the attribute
is present, so that the backup rewrites its slot, or it has no slot to come back from. -/
def backupRestores (m : Model) (n : ModelNode) (p : PropertyName) : Bool :=
  (rawAttribute m n p).isSome || (auxiliaryData? m n (auxDataString ++ p)).isNone

/-! ## A concrete document

Node 0 is the parent, with content rectangle (0,0,300,200). Node 1 is the item,
with local rectangle (0,0,100,50) positioned at (20,20) and no other transform.
Node 2 is a sibling with local rectangle (0,0,100,10) positioned at (20,5). -/

/-- A node with no parent, no property, no backup, no anchor and empty geometry. -/
def emptyNode : Node where
  parent := none
  properties := fun _ => none
  auxiliaryData := fun _ => none
  anchors := fun _ => none
  instanceBoundingRect := QRectF.null
  instanceTransform := QTransform.identity
  instanceTransformWithContentTransform := QTransform.identity
  instanceContentItemBoundingRect := QRectF.null

/-- The parent of the scenario. -/
def scenarioParent : Node :=
  { emptyNode with
    instanceBoundingRect := ⟨0, 0, 300, 200⟩
    instanceContentItemBoundingRect := ⟨0, 0, 300, 200⟩ }

/-- The item of the scenario, written with literal x, y, width and height. -/
def scenarioItem : Node :=
  { emptyNode with
    parent := some 0
    properties := fun p =>
      if p = "x" then some (.variant (.real 20))
      else if p = "y" then some (.variant (.real 20))
      else if p = "width" then some (.variant (.real 100))
      else if p = "height" then some (.variant (.real 50))
      else none
    instanceBoundingRect := ⟨0, 0, 100, 50⟩
    instanceTransform := QTransform.fromTranslate 20 20
    instanceTransformWithContentTransform := QTransform.fromTranslate 20 20 }

/-- A sibling of the item, above it. -/
def scenarioSibling : Node :=
  { emptyNode with
    parent := some 0
    instanceBoundingRect := ⟨0, 0, 100, 10⟩
    instanceTransform := QTransform.fromTranslate 20 5
    instanceTransformWithContentTransform := QTransform.fromTranslate 20 5 }

/-- The document of the scenario. -/
def scenarioModel : Model := fun i =>
  match i with
  | 0 => scenarioParent
  | 1 => scenarioItem
  | 2 => scenarioSibling
  | _ => emptyNode

/-- A fresh proxy over a model: no item, no target, guard cleared. -/
def freshProxy (m : Model) : QmlAnchorBindingProxy :=
  ⟨m, none, none, none, none, none, none, none, false, []⟩

/-- The proxy bound to the item of the scenario, with an empty trace. -/
def scenario : QmlAnchorBindingProxy :=
  { QmlAnchorBindingProxy.setup (some 1) (freshProxy scenarioModel) with trace := [] }

/-- The scenario with the sibling picked as the Top target. -/
def scenarioSiblingTarget : QmlAnchorBindingProxy :=
  { scenario with m_topTarget := some 2 }

/-- The scenario while a margin computation holds the guard. -/
def scenarioLocked : QmlAnchorBindingProxy :=
  { scenario with m_locked := true }

/-- The scenario after `fill()`, with the top margin then set to 2/5. -/
def scenarioFilledFractional : QmlAnchorBindingProxy :=
  QmlAnchorBindingProxy.anchorsSetMargin (some 1) .Top (2 / 5)
    (QmlAnchorBindingProxy.fill scenario)

/-- The scenario with the Bottom edge anchored. -/
def scenarioBottomAnchored : QmlAnchorBindingProxy :=
  QmlAnchorBindingProxy.setBottomAnchor true scenario

/-- The scenario after `fill()` and `resetLayout()`, with the height then edited from
outside the proxy from 50 to 80: the backup slot of `height` still holds 50. -/
def scenarioStaleBackup : QmlAnchorBindingProxy :=
  QmlAnchorBindingProxy.setVariantProperty (some 1) "height" (QVariant.real 80)
    (QmlAnchorBindingProxy.resetLayout (QmlAnchorBindingProxy.fill scenario))

/-- The scenario after `fill()` and `resetLayout()`, with `y` then edited from outside
the proxy from 20 to 30: the backup slot of `y` still holds 20. -/
def scenarioStaleY : QmlAnchorBindingProxy :=
  QmlAnchorBindingProxy.setVariantProperty (some 1) "y" (QVariant.real 30)
    (QmlAnchorBindingProxy.resetLayout (QmlAnchorBindingProxy.fill scenario))

/-- The scenario after `fill()` and `resetLayout()`: every raw attribute is back and has
a backup slot with the same value. -/
def scenarioAfterReset : QmlAnchorBindingProxy :=
  QmlAnchorBindingProxy.resetLayout (QmlAnchorBindingProxy.fill scenario)

/-- The scenario with the Top edge anchored: `y` is removed and backed up. -/
def scenarioTopAnchored : QmlAnchorBindingProxy :=
  QmlAnchorBindingProxy.setTopAnchor true scenario

/-- The proxy bound to the root of the scenario, an item without a parent. -/
def scenarioRoot : QmlAnchorBindingProxy :=
  { QmlAnchorBindingProxy.setup (some 0) (freshProxy scenarioModel) with trace := [] }

/-- The root of the scenario after `fill()`: a parentless item with anchored edges. -/
def scenarioRootFilled : QmlAnchorBindingProxy :=
  QmlAnchorBindingProxy.fill scenarioRoot

/-- The scenario with the sibling cached as vertical target and no centre anchor. -/
def scenarioVerticalTarget : QmlAnchorBindingProxy :=
  { scenario with m_verticalTarget := some 2 }

/-! ## A second document, for the margin rule

Node 0 is the parent, with plain rectangle (0,0,400,300) and content rectangle
(5,10,390,280). Node 1 is the item, with local rectangle (0,0,100,50), positioned at
(30,20) by its transform and at (35,28) by its transform with the content transform.
Node 2 is a neighbour with local rectangle (0,0,40,30) positioned at (160,95). -/

/-- The parent of the second document. -/
def layoutParent : Node :=
  { emptyNode with
    instanceBoundingRect := ⟨0, 0, 400, 300⟩
    instanceContentItemBoundingRect := ⟨5, 10, 390, 280⟩ }

/-- The item of the second document. -/
def layoutItem : Node :=
  { emptyNode with
    parent := some 0
    instanceBoundingRect := ⟨0, 0, 100, 50⟩
    instanceTransform := QTransform.fromTranslate 30 20
    instanceTransformWithContentTransform := QTransform.fromTranslate 35 28 }

/-- The neighbour of the item in the second document. -/
def layoutNeighbour : Node :=
  { emptyNode with
    parent := some 0
    instanceBoundingRect := ⟨0, 0, 40, 30⟩
    instanceTransform := QTransform.fromTranslate 160 95
    instanceTransformWithContentTransform := QTransform.fromTranslate 160 95 }

/-- The second document. -/
def layoutModel : Model := fun i =>
  match i with
  | 0 => layoutParent
  | 1 => layoutItem
  | 2 => layoutNeighbour
  | _ => emptyNode

/-- The proxy bound to the item of the second document: the parent is the cached target
of every side. -/
def layout : QmlAnchorBindingProxy :=
  { QmlAnchorBindingProxy.setup (some 1) (freshProxy layoutModel) with trace := [] }

/-- The second document with the neighbour picked as target of the four edges. -/
def layoutNeighbourTargets : QmlAnchorBindingProxy :=
  { layout with
    m_topTarget := some 2
    m_bottomTarget := some 2
    m_leftTarget := some 2
    m_rightTarget := some 2 }

/-! ## The overlap tests of the form editor (`formeditoritem.cpp`) -/

/-- Source `verticalOverlap`. -/
def verticalOverlap (a b : QRectF) : Bool :=
  if a.top < b.bottom ∧ (a.top + a.height) > b.top then true
  else if b.top < a.bottom ∧ (b.top + b.height) > a.top then true
  else false

/-- Source `horizontalOverlap`. -/
def horizontalOverlap (a b : QRectF) : Bool :=
  if a.left < b.right ∧ (a.left + a.width) > b.left then true
  else if b.left < a.right ∧ (b.left + b.width) > a.left then true
  else false
/-! ## Auxiliary notions for the proofs -/

/-- The part of a node no write of the proxy changes: its parent and its geometry. -/
def nodeShape (nd : Node) : ModelNode × QRectF × QRectF × QTransform × QTransform :=
  (nd.parent, nd.instanceBoundingRect, nd.instanceContentItemBoundingRect,
    nd.instanceTransform, nd.instanceTransformWithContentTransform)

/-- The tree and the geometry of a model. -/
def shapeOf (m : Model) : Nat → ModelNode × QRectF × QRectF × QTransform × QTransform :=
  fun j => nodeShape (m j)

/-- A backup slot `k` of node `n` holding `w` was created between `s` and `t`: it is
the slot of one of the four raw attributes of the current item of `s`, the attribute
had the value `w` in `s`, and it is absent in `t`. -/
def SlotCreated (s t : QmlAnchorBindingProxy) (n : ModelNode) (k : PropertyName)
    (w : QVariant) : Prop :=
  ∃ p, (p = "x" ∨ p = "y" ∨ p = "width" ∨ p = "height") ∧ k = auxDataString ++ p
    ∧ n = s.m_qmlItemNode ∧ rawAttribute s.model n p = some w
    ∧ rawAttribute t.model n p = none


/-- Between `s` and `t` model writes were only added, and each of them was made while
the guard had the value `g`. -/
def WritesUnder (g : Bool) (s t : QmlAnchorBindingProxy) : Prop :=
  ∃ rest : List Bool, t.writeGuards = s.writeGuards ++ rest ∧ ∀ b ∈ rest, b = g

/-- The ways an operation between `s` and `t` may leave the raw attribute `p` of node
`n`: unchanged, absent, or written as a literal from its backup slot. -/
def AttributeStep (s t : QmlAnchorBindingProxy) (n : ModelNode) (p : PropertyName) : Prop :=
  property t.model n p = property s.model n p ∨ property t.model n p = none
    ∨ ∃ w, auxiliaryData? s.model n (auxDataString ++ p) = some w
        ∧ property t.model n p = some (.variant w)

/-- Backup consistency of node `n` in a model: each of the raw attributes x, y, width
and height that is present and has a backup slot is the literal of the backed-up
value. -/
def BackupConsistent (m : Model) (n : ModelNode) : Prop :=
  ∀ p, (p = "x" ∨ p = "y" ∨ p = "width" ∨ p = "height") →
    ∀ w, auxiliaryData? m n (auxDataString ++ p) = some w →
      ∀ a, property m n p = some a → a = .variant w
end QmlDesigner

namespace QmlDesigner

/-! ## Reading the model after a write -/

namespace QmlAnchorBindingProxy

section Frame

variable (n : ModelNode) (f : Node → Node) (s : QmlAnchorBindingProxy)

@[simp] theorem modify_item : (modify n f s).m_qmlItemNode = s.m_qmlItemNode := by
  cases n <;> rfl

@[simp] theorem modify_verticalTarget : (modify n f s).m_verticalTarget = s.m_verticalTarget := by
  cases n <;> rfl

@[simp] theorem modify_horizontalTarget :
    (modify n f s).m_horizontalTarget = s.m_horizontalTarget := by
  cases n <;> rfl

@[simp] theorem modify_topTarget : (modify n f s).m_topTarget = s.m_topTarget := by
  cases n <;> rfl

@[simp] theorem modify_bottomTarget : (modify n f s).m_bottomTarget = s.m_bottomTarget := by
  cases n <;> rfl

@[simp] theorem modify_leftTarget : (modify n f s).m_leftTarget = s.m_leftTarget := by
  cases n <;> rfl

@[simp] theorem modify_rightTarget : (modify n f s).m_rightTarget = s.m_rightTarget := by
  cases n <;> rfl

@[simp] theorem modify_locked : (modify n f s).m_locked = s.m_locked := by
  cases n <;> rfl

@[simp] theorem modify_none : modify none f s = s := rfl

@[simp] theorem emit_model (sig : Signal) : (emit sig s).model = s.model := rfl

@[simp] theorem emit_item (sig : Signal) : (emit sig s).m_qmlItemNode = s.m_qmlItemNode := rfl

@[simp] theorem emit_locked (sig : Signal) : (emit sig s).m_locked = s.m_locked := rfl

@[simp] theorem emit_trace (sig : Signal) :
    (emit sig s).trace = s.trace ++ [Event.emitted sig] := rfl

end Frame

/-- A read that looks at one node only. -/
theorem read_modify {α : Type} (g : Node → α) (d : α) (i : Nat) (f : Node → Node)
    (s : QmlAnchorBindingProxy) (n : ModelNode) :
    (match n with
      | none => d
      | some j => g ((modify (some i) f s).model j))
      = if n = some i then g (f (s.model i))
        else (match n with
          | none => d
          | some j => g (s.model j)) := by
  cases n with
  | none => simp
  | some j =>
    by_cases h : j = i
    · subst h; simp [modify]
    · simp [modify, Function.update_apply, h]

theorem property_modify (i : Nat) (f : Node → Node) (s : QmlAnchorBindingProxy)
    (n : ModelNode) (q : PropertyName) :
    property (modify (some i) f s).model n q
      = if n = some i then (f (s.model i)).properties q else property s.model n q :=
  read_modify (fun nd => nd.properties q) none i f s n

theorem auxiliaryData?_modify (i : Nat) (f : Node → Node) (s : QmlAnchorBindingProxy)
    (n : ModelNode) (k : PropertyName) :
    auxiliaryData? (modify (some i) f s).model n k
      = if n = some i then (f (s.model i)).auxiliaryData k else auxiliaryData? s.model n k :=
  read_modify (fun nd => nd.auxiliaryData k) none i f s n

theorem instanceAnchor_modify (i : Nat) (f : Node → Node) (s : QmlAnchorBindingProxy)
    (n : ModelNode) (l : AnchorLine) :
    instanceAnchor (modify (some i) f s).model n l
      = if n = some i then (f (s.model i)).anchors l else instanceAnchor s.model n l :=
  read_modify (fun nd => nd.anchors l) none i f s n

theorem parentModelNode_modify (i : Nat) (f : Node → Node) (s : QmlAnchorBindingProxy)
    (n : ModelNode) :
    parentModelNode (modify (some i) f s).model n
      = if n = some i then (f (s.model i)).parent else parentModelNode s.model n :=
  read_modify (fun nd => nd.parent) none i f s n

theorem instanceBoundingRect_modify (i : Nat) (f : Node → Node) (s : QmlAnchorBindingProxy)
    (n : ModelNode) :
    instanceBoundingRect (modify (some i) f s).model n
      = if n = some i then (f (s.model i)).instanceBoundingRect
        else instanceBoundingRect s.model n :=
  read_modify (fun nd => nd.instanceBoundingRect) QRectF.null i f s n

theorem instanceContentItemBoundingRect_modify (i : Nat) (f : Node → Node)
    (s : QmlAnchorBindingProxy) (n : ModelNode) :
    instanceContentItemBoundingRect (modify (some i) f s).model n
      = if n = some i then (f (s.model i)).instanceContentItemBoundingRect
        else instanceContentItemBoundingRect s.model n :=
  read_modify (fun nd => nd.instanceContentItemBoundingRect) QRectF.null i f s n

theorem instanceTransform_modify (i : Nat) (f : Node → Node) (s : QmlAnchorBindingProxy)
    (n : ModelNode) :
    instanceTransform (modify (some i) f s).model n
      = if n = some i then (f (s.model i)).instanceTransform
        else instanceTransform s.model n :=
  read_modify (fun nd => nd.instanceTransform) QTransform.identity i f s n

theorem instanceTransformWithContentTransform_modify (i : Nat) (f : Node → Node)
    (s : QmlAnchorBindingProxy) (n : ModelNode) :
    instanceTransformWithContentTransform (modify (some i) f s).model n
      = if n = some i then (f (s.model i)).instanceTransformWithContentTransform
        else instanceTransformWithContentTransform s.model n :=
  read_modify (fun nd => nd.instanceTransformWithContentTransform) QTransform.identity i f s n

/-! ### Writes that leave a part of the node alone -/

theorem property_modify_of (n : ModelNode) (f : Node → Node) (s : QmlAnchorBindingProxy)
    (hf : ∀ nd, (f nd).properties = nd.properties) :
    property (modify n f s).model = property s.model := by
  funext n1 q
  cases n with
  | none => rfl
  | some i =>
    rw [property_modify]
    split
    · next h => subst h; simp [hf, property]
    · rfl

theorem auxiliaryData?_modify_of (n : ModelNode) (f : Node → Node) (s : QmlAnchorBindingProxy)
    (hf : ∀ nd, (f nd).auxiliaryData = nd.auxiliaryData) :
    auxiliaryData? (modify n f s).model = auxiliaryData? s.model := by
  funext n1 k
  cases n with
  | none => rfl
  | some i =>
    rw [auxiliaryData?_modify]
    split
    · next h => subst h; simp [hf, auxiliaryData?]
    · rfl

theorem instanceAnchor_modify_of (n : ModelNode) (f : Node → Node) (s : QmlAnchorBindingProxy)
    (hf : ∀ nd, (f nd).anchors = nd.anchors) :
    instanceAnchor (modify n f s).model = instanceAnchor s.model := by
  funext n1 l
  cases n with
  | none => rfl
  | some i =>
    rw [instanceAnchor_modify]
    split
    · next h => subst h; simp [hf, instanceAnchor]
    · rfl

theorem shapeOf_modify_of (n : ModelNode) (f : Node → Node) (s : QmlAnchorBindingProxy)
    (hf : ∀ nd, nodeShape (f nd) = nodeShape nd) :
    shapeOf (modify n f s).model = shapeOf s.model := by
  funext j
  cases n with
  | none => rfl
  | some i =>
    by_cases h : j = i
    · subst h; simp [shapeOf, modify, hf]
    · simp [shapeOf, modify, Function.update_apply, h]

/-! ### Models of the same shape read the same tree and geometry -/

theorem parentModelNode_of_shape {m1 m2 : Model} (h : shapeOf m2 = shapeOf m1) : parentModelNode m2 = parentModelNode m1 := by
  funext n
  cases n with
  | none => rfl
  | some j => exact congrArg (fun t => t.1) (congrFun h j)

theorem instanceBoundingRect_of_shape {m1 m2 : Model} (h : shapeOf m2 = shapeOf m1) : instanceBoundingRect m2 = instanceBoundingRect m1 := by
  funext n
  cases n with
  | none => rfl
  | some j => exact congrArg (fun t => t.2.1) (congrFun h j)

theorem instanceContentItemBoundingRect_of_shape {m1 m2 : Model} (h : shapeOf m2 = shapeOf m1) :
    instanceContentItemBoundingRect m2 = instanceContentItemBoundingRect m1 := by
  funext n
  cases n with
  | none => rfl
  | some j => exact congrArg (fun t => t.2.2.1) (congrFun h j)

theorem instanceTransform_of_shape {m1 m2 : Model} (h : shapeOf m2 = shapeOf m1) : instanceTransform m2 = instanceTransform m1 := by
  funext n
  cases n with
  | none => rfl
  | some j => exact congrArg (fun t => t.2.2.2.1) (congrFun h j)

theorem instanceTransformWithContentTransform_of_shape {m1 m2 : Model} (h : shapeOf m2 = shapeOf m1) :
    instanceTransformWithContentTransform m2 = instanceTransformWithContentTransform m1 := by
  funext n
  cases n with
  | none => rfl
  | some j => exact congrArg (fun t => t.2.2.2.2) (congrFun h j)

theorem hasNodeParent_of_shape {m1 m2 : Model} (h : shapeOf m2 = shapeOf m1) : hasNodeParent m2 = hasNodeParent m1 := by
  funext n
  simp [hasNodeParent, parentModelNode_of_shape h]

theorem isSome_of_hasNodeParent {m : Model} {n : ModelNode} (h : hasNodeParent m n = true) :
    n.isSome = true := by
  cases n with
  | none => simp [hasNodeParent, parentModelNode] at h
  | some i => rfl

/-! ### The primitive writes -/

section Primitives

variable (n : ModelNode) (s : QmlAnchorBindingProxy)

@[simp] theorem removeProperty_item (p : PropertyName) :
    (removeProperty n p s).m_qmlItemNode = s.m_qmlItemNode :=
  modify_item _ _ _

@[simp] theorem removeProperty_verticalTarget (p : PropertyName) :
    (removeProperty n p s).m_verticalTarget = s.m_verticalTarget :=
  modify_verticalTarget _ _ _

@[simp] theorem removeProperty_horizontalTarget (p : PropertyName) :
    (removeProperty n p s).m_horizontalTarget = s.m_horizontalTarget :=
  modify_horizontalTarget _ _ _

@[simp] theorem removeProperty_topTarget (p : PropertyName) :
    (removeProperty n p s).m_topTarget = s.m_topTarget :=
  modify_topTarget _ _ _

@[simp] theorem removeProperty_bottomTarget (p : PropertyName) :
    (removeProperty n p s).m_bottomTarget = s.m_bottomTarget :=
  modify_bottomTarget _ _ _

@[simp] theorem removeProperty_leftTarget (p : PropertyName) :
    (removeProperty n p s).m_leftTarget = s.m_leftTarget :=
  modify_leftTarget _ _ _

@[simp] theorem removeProperty_rightTarget (p : PropertyName) :
    (removeProperty n p s).m_rightTarget = s.m_rightTarget :=
  modify_rightTarget _ _ _

@[simp] theorem removeProperty_locked (p : PropertyName) :
    (removeProperty n p s).m_locked = s.m_locked :=
  modify_locked _ _ _

@[simp] theorem auxiliaryData?_removeProperty (p : PropertyName) :
    auxiliaryData? (removeProperty n p s).model = auxiliaryData? s.model :=
  auxiliaryData?_modify_of _ _ _ (fun _ => rfl)

@[simp] theorem instanceAnchor_removeProperty (p : PropertyName) :
    instanceAnchor (removeProperty n p s).model = instanceAnchor s.model :=
  instanceAnchor_modify_of _ _ _ (fun _ => rfl)

@[simp] theorem shapeOf_removeProperty (p : PropertyName) :
    shapeOf (removeProperty n p s).model = shapeOf s.model :=
  shapeOf_modify_of _ _ _ (fun _ => rfl)

@[simp] theorem removeProperty_trace (p : PropertyName) (i : Nat) :
    (removeProperty (some i) p s).trace = s.trace ++ [Event.modelWrite s.m_locked] := rfl

@[simp] theorem setVariantProperty_item (p : PropertyName) (v : QVariant) :
    (setVariantProperty n p v s).m_qmlItemNode = s.m_qmlItemNode :=
  modify_item _ _ _

@[simp] theorem setVariantProperty_verticalTarget (p : PropertyName) (v : QVariant) :
    (setVariantProperty n p v s).m_verticalTarget = s.m_verticalTarget :=
  modify_verticalTarget _ _ _

@[simp] theorem setVariantProperty_horizontalTarget (p : PropertyName) (v : QVariant) :
    (setVariantProperty n p v s).m_horizontalTarget = s.m_horizontalTarget :=
  modify_horizontalTarget _ _ _

@[simp] theorem setVariantProperty_topTarget (p : PropertyName) (v : QVariant) :
    (setVariantProperty n p v s).m_topTarget = s.m_topTarget :=
  modify_topTarget _ _ _

@[simp] theorem setVariantProperty_bottomTarget (p : PropertyName) (v : QVariant) :
    (setVariantProperty n p v s).m_bottomTarget = s.m_bottomTarget :=
  modify_bottomTarget _ _ _

@[simp] theorem setVariantProperty_leftTarget (p : PropertyName) (v : QVariant) :
    (setVariantProperty n p v s).m_leftTarget = s.m_leftTarget :=
  modify_leftTarget _ _ _

@[simp] theorem setVariantProperty_rightTarget (p : PropertyName) (v : QVariant) :
    (setVariantProperty n p v s).m_rightTarget = s.m_rightTarget :=
  modify_rightTarget _ _ _

@[simp] theorem setVariantProperty_locked (p : PropertyName) (v : QVariant) :
    (setVariantProperty n p v s).m_locked = s.m_locked :=
  modify_locked _ _ _

@[simp] theorem auxiliaryData?_setVariantProperty (p : PropertyName) (v : QVariant) :
    auxiliaryData? (setVariantProperty n p v s).model = auxiliaryData? s.model :=
  auxiliaryData?_modify_of _ _ _ (fun _ => rfl)

@[simp] theorem instanceAnchor_setVariantProperty (p : PropertyName) (v : QVariant) :
    instanceAnchor (setVariantProperty n p v s).model = instanceAnchor s.model :=
  instanceAnchor_modify_of _ _ _ (fun _ => rfl)

@[simp] theorem shapeOf_setVariantProperty (p : PropertyName) (v : QVariant) :
    shapeOf (setVariantProperty n p v s).model = shapeOf s.model :=
  shapeOf_modify_of _ _ _ (fun _ => rfl)

@[simp] theorem setVariantProperty_trace (p : PropertyName) (v : QVariant) (i : Nat) :
    (setVariantProperty (some i) p v s).trace = s.trace ++ [Event.modelWrite s.m_locked] := rfl

@[simp] theorem setAuxiliaryData_item (k : PropertyName) (v : QVariant) :
    (setAuxiliaryData n k v s).m_qmlItemNode = s.m_qmlItemNode :=
  modify_item _ _ _

@[simp] theorem setAuxiliaryData_verticalTarget (k : PropertyName) (v : QVariant) :
    (setAuxiliaryData n k v s).m_verticalTarget = s.m_verticalTarget :=
  modify_verticalTarget _ _ _

@[simp] theorem setAuxiliaryData_horizontalTarget (k : PropertyName) (v : QVariant) :
    (setAuxiliaryData n k v s).m_horizontalTarget = s.m_horizontalTarget :=
  modify_horizontalTarget _ _ _

@[simp] theorem setAuxiliaryData_topTarget (k : PropertyName) (v : QVariant) :
    (setAuxiliaryData n k v s).m_topTarget = s.m_topTarget :=
  modify_topTarget _ _ _

@[simp] theorem setAuxiliaryData_bottomTarget (k : PropertyName) (v : QVariant) :
    (setAuxiliaryData n k v s).m_bottomTarget = s.m_bottomTarget :=
  modify_bottomTarget _ _ _

@[simp] theorem setAuxiliaryData_leftTarget (k : PropertyName) (v : QVariant) :
    (setAuxiliaryData n k v s).m_leftTarget = s.m_leftTarget :=
  modify_leftTarget _ _ _

@[simp] theorem setAuxiliaryData_rightTarget (k : PropertyName) (v : QVariant) :
    (setAuxiliaryData n k v s).m_rightTarget = s.m_rightTarget :=
  modify_rightTarget _ _ _

@[simp] theorem setAuxiliaryData_locked (k : PropertyName) (v : QVariant) :
    (setAuxiliaryData n k v s).m_locked = s.m_locked :=
  modify_locked _ _ _

@[simp] theorem property_setAuxiliaryData (k : PropertyName) (v : QVariant) :
    property (setAuxiliaryData n k v s).model = property s.model :=
  property_modify_of _ _ _ (fun _ => rfl)

@[simp] theorem instanceAnchor_setAuxiliaryData (k : PropertyName) (v : QVariant) :
    instanceAnchor (setAuxiliaryData n k v s).model = instanceAnchor s.model :=
  instanceAnchor_modify_of _ _ _ (fun _ => rfl)

@[simp] theorem shapeOf_setAuxiliaryData (k : PropertyName) (v : QVariant) :
    shapeOf (setAuxiliaryData n k v s).model = shapeOf s.model :=
  shapeOf_modify_of _ _ _ (fun _ => rfl)

@[simp] theorem setAuxiliaryData_trace (k : PropertyName) (v : QVariant) (i : Nat) :
    (setAuxiliaryData (some i) k v s).trace = s.trace ++ [Event.modelWrite s.m_locked] := rfl

@[simp] theorem anchorsSetAnchor_item (l : AnchorLine) (t : ModelNode) (tl : AnchorLine) :
    (anchorsSetAnchor n l t tl s).m_qmlItemNode = s.m_qmlItemNode :=
  modify_item _ _ _

@[simp] theorem anchorsSetAnchor_verticalTarget (l : AnchorLine) (t : ModelNode) (tl : AnchorLine) :
    (anchorsSetAnchor n l t tl s).m_verticalTarget = s.m_verticalTarget :=
  modify_verticalTarget _ _ _

@[simp] theorem anchorsSetAnchor_horizontalTarget (l : AnchorLine) (t : ModelNode) (tl : AnchorLine) :
    (anchorsSetAnchor n l t tl s).m_horizontalTarget = s.m_horizontalTarget :=
  modify_horizontalTarget _ _ _

@[simp] theorem anchorsSetAnchor_topTarget (l : AnchorLine) (t : ModelNode) (tl : AnchorLine) :
    (anchorsSetAnchor n l t tl s).m_topTarget = s.m_topTarget :=
  modify_topTarget _ _ _

@[simp] theorem anchorsSetAnchor_bottomTarget (l : AnchorLine) (t : ModelNode) (tl : AnchorLine) :
    (anchorsSetAnchor n l t tl s).m_bottomTarget = s.m_bottomTarget :=
  modify_bottomTarget _ _ _

@[simp] theorem anchorsSetAnchor_leftTarget (l : AnchorLine) (t : ModelNode) (tl : AnchorLine) :
    (anchorsSetAnchor n l t tl s).m_leftTarget = s.m_leftTarget :=
  modify_leftTarget _ _ _

@[simp] theorem anchorsSetAnchor_rightTarget (l : AnchorLine) (t : ModelNode) (tl : AnchorLine) :
    (anchorsSetAnchor n l t tl s).m_rightTarget = s.m_rightTarget :=
  modify_rightTarget _ _ _

@[simp] theorem anchorsSetAnchor_locked (l : AnchorLine) (t : ModelNode) (tl : AnchorLine) :
    (anchorsSetAnchor n l t tl s).m_locked = s.m_locked :=
  modify_locked _ _ _

@[simp] theorem property_anchorsSetAnchor (l : AnchorLine) (t : ModelNode) (tl : AnchorLine) :
    property (anchorsSetAnchor n l t tl s).model = property s.model :=
  property_modify_of _ _ _ (fun _ => rfl)

@[simp] theorem auxiliaryData?_anchorsSetAnchor (l : AnchorLine) (t : ModelNode) (tl : AnchorLine) :
    auxiliaryData? (anchorsSetAnchor n l t tl s).model = auxiliaryData? s.model :=
  auxiliaryData?_modify_of _ _ _ (fun _ => rfl)

@[simp] theorem shapeOf_anchorsSetAnchor (l : AnchorLine) (t : ModelNode) (tl : AnchorLine) :
    shapeOf (anchorsSetAnchor n l t tl s).model = shapeOf s.model :=
  shapeOf_modify_of _ _ _ (fun _ => rfl)

@[simp] theorem anchorsSetAnchor_trace (l : AnchorLine) (t : ModelNode) (tl : AnchorLine) (i : Nat) :
    (anchorsSetAnchor (some i) l t tl s).trace = s.trace ++ [Event.modelWrite s.m_locked] := rfl

@[simp] theorem anchorsRemoveAnchor_item (l : AnchorLine) :
    (anchorsRemoveAnchor n l s).m_qmlItemNode = s.m_qmlItemNode :=
  modify_item _ _ _

@[simp] theorem anchorsRemoveAnchor_verticalTarget (l : AnchorLine) :
    (anchorsRemoveAnchor n l s).m_verticalTarget = s.m_verticalTarget :=
  modify_verticalTarget _ _ _

@[simp] theorem anchorsRemoveAnchor_horizontalTarget (l : AnchorLine) :
    (anchorsRemoveAnchor n l s).m_horizontalTarget = s.m_horizontalTarget :=
  modify_horizontalTarget _ _ _

@[simp] theorem anchorsRemoveAnchor_topTarget (l : AnchorLine) :
    (anchorsRemoveAnchor n l s).m_topTarget = s.m_topTarget :=
  modify_topTarget _ _ _

@[simp] theorem anchorsRemoveAnchor_bottomTarget (l : AnchorLine) :
    (anchorsRemoveAnchor n l s).m_bottomTarget = s.m_bottomTarget :=
  modify_bottomTarget _ _ _

@[simp] theorem anchorsRemoveAnchor_leftTarget (l : AnchorLine) :
    (anchorsRemoveAnchor n l s).m_leftTarget = s.m_leftTarget :=
  modify_leftTarget _ _ _

@[simp] theorem anchorsRemoveAnchor_rightTarget (l : AnchorLine) :
    (anchorsRemoveAnchor n l s).m_rightTarget = s.m_rightTarget :=
  modify_rightTarget _ _ _

@[simp] theorem anchorsRemoveAnchor_locked (l : AnchorLine) :
    (anchorsRemoveAnchor n l s).m_locked = s.m_locked :=
  modify_locked _ _ _

@[simp] theorem property_anchorsRemoveAnchor (l : AnchorLine) :
    property (anchorsRemoveAnchor n l s).model = property s.model :=
  property_modify_of _ _ _ (fun _ => rfl)

@[simp] theorem auxiliaryData?_anchorsRemoveAnchor (l : AnchorLine) :
    auxiliaryData? (anchorsRemoveAnchor n l s).model = auxiliaryData? s.model :=
  auxiliaryData?_modify_of _ _ _ (fun _ => rfl)

@[simp] theorem shapeOf_anchorsRemoveAnchor (l : AnchorLine) :
    shapeOf (anchorsRemoveAnchor n l s).model = shapeOf s.model :=
  shapeOf_modify_of _ _ _ (fun _ => rfl)

@[simp] theorem anchorsRemoveAnchor_trace (l : AnchorLine) (i : Nat) :
    (anchorsRemoveAnchor (some i) l s).trace = s.trace ++ [Event.modelWrite s.m_locked] := rfl

@[simp] theorem anchorsRemoveAnchors_item :
    (anchorsRemoveAnchors n s).m_qmlItemNode = s.m_qmlItemNode :=
  modify_item _ _ _

@[simp] theorem anchorsRemoveAnchors_verticalTarget :
    (anchorsRemoveAnchors n s).m_verticalTarget = s.m_verticalTarget :=
  modify_verticalTarget _ _ _

@[simp] theorem anchorsRemoveAnchors_horizontalTarget :
    (anchorsRemoveAnchors n s).m_horizontalTarget = s.m_horizontalTarget :=
  modify_horizontalTarget _ _ _

@[simp] theorem anchorsRemoveAnchors_topTarget :
    (anchorsRemoveAnchors n s).m_topTarget = s.m_topTarget :=
  modify_topTarget _ _ _

@[simp] theorem anchorsRemoveAnchors_bottomTarget :
    (anchorsRemoveAnchors n s).m_bottomTarget = s.m_bottomTarget :=
  modify_bottomTarget _ _ _

@[simp] theorem anchorsRemoveAnchors_leftTarget :
    (anchorsRemoveAnchors n s).m_leftTarget = s.m_leftTarget :=
  modify_leftTarget _ _ _

@[simp] theorem anchorsRemoveAnchors_rightTarget :
    (anchorsRemoveAnchors n s).m_rightTarget = s.m_rightTarget :=
  modify_rightTarget _ _ _

@[simp] theorem anchorsRemoveAnchors_locked :
    (anchorsRemoveAnchors n s).m_locked = s.m_locked :=
  modify_locked _ _ _

@[simp] theorem property_anchorsRemoveAnchors :
    property (anchorsRemoveAnchors n s).model = property s.model :=
  property_modify_of _ _ _ (fun _ => rfl)

@[simp] theorem auxiliaryData?_anchorsRemoveAnchors :
    auxiliaryData? (anchorsRemoveAnchors n s).model = auxiliaryData? s.model :=
  auxiliaryData?_modify_of _ _ _ (fun _ => rfl)

@[simp] theorem shapeOf_anchorsRemoveAnchors :
    shapeOf (anchorsRemoveAnchors n s).model = shapeOf s.model :=
  shapeOf_modify_of _ _ _ (fun _ => rfl)

@[simp] theorem anchorsRemoveAnchors_trace (i : Nat) :
    (anchorsRemoveAnchors (some i) s).trace = s.trace ++ [Event.modelWrite s.m_locked] := rfl

@[simp] theorem anchorsFill_item :
    (anchorsFill n s).m_qmlItemNode = s.m_qmlItemNode :=
  modify_item _ _ _

@[simp] theorem anchorsFill_verticalTarget :
    (anchorsFill n s).m_verticalTarget = s.m_verticalTarget :=
  modify_verticalTarget _ _ _

@[simp] theorem anchorsFill_horizontalTarget :
    (anchorsFill n s).m_horizontalTarget = s.m_horizontalTarget :=
  modify_horizontalTarget _ _ _

@[simp] theorem anchorsFill_topTarget :
    (anchorsFill n s).m_topTarget = s.m_topTarget :=
  modify_topTarget _ _ _

@[simp] theorem anchorsFill_bottomTarget :
    (anchorsFill n s).m_bottomTarget = s.m_bottomTarget :=
  modify_bottomTarget _ _ _

@[simp] theorem anchorsFill_leftTarget :
    (anchorsFill n s).m_leftTarget = s.m_leftTarget :=
  modify_leftTarget _ _ _

@[simp] theorem anchorsFill_rightTarget :
    (anchorsFill n s).m_rightTarget = s.m_rightTarget :=
  modify_rightTarget _ _ _

@[simp] theorem anchorsFill_locked :
    (anchorsFill n s).m_locked = s.m_locked :=
  modify_locked _ _ _

@[simp] theorem property_anchorsFill :
    property (anchorsFill n s).model = property s.model :=
  property_modify_of _ _ _ (fun _ => rfl)

@[simp] theorem auxiliaryData?_anchorsFill :
    auxiliaryData? (anchorsFill n s).model = auxiliaryData? s.model :=
  auxiliaryData?_modify_of _ _ _ (fun _ => rfl)

@[simp] theorem shapeOf_anchorsFill :
    shapeOf (anchorsFill n s).model = shapeOf s.model :=
  shapeOf_modify_of _ _ _ (fun _ => rfl)

@[simp] theorem anchorsFill_trace (i : Nat) :
    (anchorsFill (some i) s).trace = s.trace ++ [Event.modelWrite s.m_locked] := rfl

@[simp] theorem property_removeProperty (p q : PropertyName) (n1 : ModelNode) :
    property (removeProperty n p s).model n1 q
      = if n1 = n ∧ q = p then none else property s.model n1 q := by
  cases n with
  | none =>
    by_cases h1 : n1 = none
    · subst h1; simp [removeProperty, property]
    · simp [removeProperty, h1]
  | some i =>
    unfold removeProperty
    rw [property_modify]
    by_cases h1 : n1 = some i
    · subst h1
      by_cases h2 : q = p <;> simp [h2, property, Function.update_apply]
    · simp [h1]

@[simp] theorem property_setVariantProperty (p q : PropertyName) (v : QVariant)
    (n1 : ModelNode) :
    property (setVariantProperty n p v s).model n1 q
      = if n1 = n ∧ n.isSome ∧ q = p then some (.variant v) else property s.model n1 q := by
  cases n with
  | none => simp [setVariantProperty]
  | some i =>
    unfold setVariantProperty
    rw [property_modify]
    by_cases h1 : n1 = some i
    · subst h1
      by_cases h2 : q = p <;> simp [h2, property, Function.update_apply]
    · simp [h1]

@[simp] theorem auxiliaryData?_setAuxiliaryData (k k1 : PropertyName) (v : QVariant)
    (n1 : ModelNode) :
    auxiliaryData? (setAuxiliaryData n k v s).model n1 k1
      = if n1 = n ∧ n.isSome ∧ k1 = k then some v else auxiliaryData? s.model n1 k1 := by
  cases n with
  | none => simp [setAuxiliaryData]
  | some i =>
    unfold setAuxiliaryData
    rw [auxiliaryData?_modify]
    by_cases h1 : n1 = some i
    · subst h1
      by_cases h2 : k1 = k <;> simp [h2, auxiliaryData?, Function.update_apply]
    · simp [h1]

@[simp] theorem instanceAnchor_anchorsSetAnchor (l l1 : AnchorLine) (t : ModelNode)
    (tl : AnchorLine) (n1 : ModelNode) :
    instanceAnchor (anchorsSetAnchor n l t tl s).model n1 l1
      = if n1 = n ∧ n.isSome ∧ l1 = l then some ⟨t, tl⟩ else instanceAnchor s.model n1 l1 := by
  cases n with
  | none => simp [anchorsSetAnchor]
  | some i =>
    unfold anchorsSetAnchor
    rw [instanceAnchor_modify]
    by_cases h1 : n1 = some i
    · subst h1
      by_cases h2 : l1 = l <;> simp [h2, instanceAnchor, Function.update_apply]
    · simp [h1]

@[simp] theorem instanceAnchor_anchorsRemoveAnchor (l l1 : AnchorLine) (n1 : ModelNode) :
    instanceAnchor (anchorsRemoveAnchor n l s).model n1 l1
      = if n1 = n ∧ l1 = l then none else instanceAnchor s.model n1 l1 := by
  cases n with
  | none =>
    by_cases h1 : n1 = none
    · subst h1; simp [anchorsRemoveAnchor, instanceAnchor]
    · simp [anchorsRemoveAnchor, h1]
  | some i =>
    unfold anchorsRemoveAnchor
    rw [instanceAnchor_modify]
    by_cases h1 : n1 = some i
    · subst h1
      by_cases h2 : l1 = l <;> simp [h2, instanceAnchor, Function.update_apply]
    · simp [h1]

@[simp] theorem instanceAnchor_anchorsRemoveAnchors (l1 : AnchorLine) (n1 : ModelNode) :
    instanceAnchor (anchorsRemoveAnchors n s).model n1 l1
      = if n1 = n then none else instanceAnchor s.model n1 l1 := by
  cases n with
  | none =>
    by_cases h1 : n1 = none
    · subst h1; simp [anchorsRemoveAnchors, instanceAnchor]
    · simp [anchorsRemoveAnchors, h1]
  | some i =>
    unfold anchorsRemoveAnchors
    rw [instanceAnchor_modify]

@[simp] theorem instanceAnchor_anchorsFill (l1 : AnchorLine) (n1 : ModelNode) :
    instanceAnchor (anchorsFill n s).model n1 l1
      = if n1 = n ∧ n.isSome then
          (match l1 with
            | .Top => some ⟨parentModelNode s.model n, .Top⟩
            | .Bottom => some ⟨parentModelNode s.model n, .Bottom⟩
            | .Left => some ⟨parentModelNode s.model n, .Left⟩
            | .Right => some ⟨parentModelNode s.model n, .Right⟩
            | .VerticalCenter => instanceAnchor s.model n .VerticalCenter
            | .HorizontalCenter => instanceAnchor s.model n .HorizontalCenter)
        else instanceAnchor s.model n1 l1 := by
  cases n with
  | none => simp [anchorsFill]
  | some i =>
    unfold anchorsFill
    rw [instanceAnchor_modify]
    by_cases h1 : n1 = some i
    · subst h1
      cases l1 <;> simp [parentModelNode, instanceAnchor]
    · simp [h1]

end Primitives

/-! ### Backup and restore of a raw attribute -/

section BackupRestore

variable (n : ModelNode) (p : PropertyName) (s : QmlAnchorBindingProxy)

@[simp] theorem backupPropertyAndRemove_item :
    (backupPropertyAndRemove n p s).m_qmlItemNode = s.m_qmlItemNode := by
  unfold backupPropertyAndRemove
  dsimp only
  split_ifs <;> simp

@[simp] theorem restoreProperty_item :
    (restoreProperty n p s).m_qmlItemNode = s.m_qmlItemNode := by
  unfold restoreProperty
  split_ifs <;> simp

@[simp] theorem backupPropertyAndRemove_verticalTarget :
    (backupPropertyAndRemove n p s).m_verticalTarget = s.m_verticalTarget := by
  unfold backupPropertyAndRemove
  dsimp only
  split_ifs <;> simp

@[simp] theorem restoreProperty_verticalTarget :
    (restoreProperty n p s).m_verticalTarget = s.m_verticalTarget := by
  unfold restoreProperty
  split_ifs <;> simp

@[simp] theorem backupPropertyAndRemove_horizontalTarget :
    (backupPropertyAndRemove n p s).m_horizontalTarget = s.m_horizontalTarget := by
  unfold backupPropertyAndRemove
  dsimp only
  split_ifs <;> simp

@[simp] theorem restoreProperty_horizontalTarget :
    (restoreProperty n p s).m_horizontalTarget = s.m_horizontalTarget := by
  unfold restoreProperty
  split_ifs <;> simp

@[simp] theorem backupPropertyAndRemove_topTarget :
    (backupPropertyAndRemove n p s).m_topTarget = s.m_topTarget := by
  unfold backupPropertyAndRemove
  dsimp only
  split_ifs <;> simp

@[simp] theorem restoreProperty_topTarget :
    (restoreProperty n p s).m_topTarget = s.m_topTarget := by
  unfold restoreProperty
  split_ifs <;> simp

@[simp] theorem backupPropertyAndRemove_bottomTarget :
    (backupPropertyAndRemove n p s).m_bottomTarget = s.m_bottomTarget := by
  unfold backupPropertyAndRemove
  dsimp only
  split_ifs <;> simp

@[simp] theorem restoreProperty_bottomTarget :
    (restoreProperty n p s).m_bottomTarget = s.m_bottomTarget := by
  unfold restoreProperty
  split_ifs <;> simp

@[simp] theorem backupPropertyAndRemove_leftTarget :
    (backupPropertyAndRemove n p s).m_leftTarget = s.m_leftTarget := by
  unfold backupPropertyAndRemove
  dsimp only
  split_ifs <;> simp

@[simp] theorem restoreProperty_leftTarget :
    (restoreProperty n p s).m_leftTarget = s.m_leftTarget := by
  unfold restoreProperty
  split_ifs <;> simp

@[simp] theorem backupPropertyAndRemove_rightTarget :
    (backupPropertyAndRemove n p s).m_rightTarget = s.m_rightTarget := by
  unfold backupPropertyAndRemove
  dsimp only
  split_ifs <;> simp

@[simp] theorem restoreProperty_rightTarget :
    (restoreProperty n p s).m_rightTarget = s.m_rightTarget := by
  unfold restoreProperty
  split_ifs <;> simp

@[simp] theorem backupPropertyAndRemove_locked :
    (backupPropertyAndRemove n p s).m_locked = s.m_locked := by
  unfold backupPropertyAndRemove
  dsimp only
  split_ifs <;> simp

@[simp] theorem restoreProperty_locked :
    (restoreProperty n p s).m_locked = s.m_locked := by
  unfold restoreProperty
  split_ifs <;> simp

@[simp] theorem instanceAnchor_backupPropertyAndRemove :
    instanceAnchor (backupPropertyAndRemove n p s).model = instanceAnchor s.model := by
  unfold backupPropertyAndRemove
  dsimp only
  split_ifs <;> simp

@[simp] theorem instanceAnchor_restoreProperty :
    instanceAnchor (restoreProperty n p s).model = instanceAnchor s.model := by
  unfold restoreProperty
  split_ifs <;> simp

@[simp] theorem auxiliaryData?_restoreProperty :
    auxiliaryData? (restoreProperty n p s).model = auxiliaryData? s.model := by
  unfold restoreProperty
  split_ifs <;> simp

@[simp] theorem shapeOf_backupPropertyAndRemove :
    shapeOf (backupPropertyAndRemove n p s).model = shapeOf s.model := by
  unfold backupPropertyAndRemove
  dsimp only
  split_ifs <;> simp

@[simp] theorem shapeOf_restoreProperty :
    shapeOf (restoreProperty n p s).model = shapeOf s.model := by
  unfold restoreProperty
  split_ifs <;> simp

@[simp] theorem property_backupPropertyAndRemove (q : PropertyName) (n1 : ModelNode) :
    property (backupPropertyAndRemove n p s).model n1 q
      = if n1 = n ∧ q = p then none else property s.model n1 q := by
  unfold backupPropertyAndRemove
  by_cases h1 : n1 = n ∧ q = p
  · obtain ⟨rfl, rfl⟩ := h1
    rcases h : property s.model n1 q with _ | ⟨v⟩ | ⟨e, v⟩ <;>
      simp [hasVariantProperty, hasBindingProperty, h]
  · rcases h : property s.model n p with _ | ⟨v⟩ | ⟨e, v⟩ <;>
      simp [hasVariantProperty, hasBindingProperty, h, h1]

@[simp] theorem auxiliaryData?_backupPropertyAndRemove (k : PropertyName) (n1 : ModelNode) :
    auxiliaryData? (backupPropertyAndRemove n p s).model n1 k
      = if n1 = n ∧ k = auxDataString ++ p then
          (match rawAttribute s.model n p with
            | some v => some v
            | none => auxiliaryData? s.model n1 k)
        else auxiliaryData? s.model n1 k := by
  have hn : property s.model n p ≠ none → n.isSome = true := by
    cases n <;> simp [property]
  unfold backupPropertyAndRemove
  by_cases h1 : n1 = n ∧ k = auxDataString ++ p
  · obtain ⟨rfl, rfl⟩ := h1
    rcases h : property s.model n1 p with _ | ⟨v⟩ | ⟨e, v⟩ <;>
      simp [hasVariantProperty, hasBindingProperty, rawAttribute, variantValue,
        instanceValue, h, hn]
  · have h2 : n1 = n → ¬ k = auxDataString ++ p := fun a b => h1 ⟨a, b⟩
    rcases h : property s.model n p with _ | ⟨v⟩ | ⟨e, v⟩ <;>
      simp [hasVariantProperty, hasBindingProperty, rawAttribute, variantValue,
        instanceValue, h, h1] <;> intro a _ b <;> exact absurd b (h2 a)

@[simp] theorem property_restoreProperty (q : PropertyName) (n1 : ModelNode) :
    property (restoreProperty n p s).model n1 q
      = if n1 = n ∧ q = p then
          (match auxiliaryData? s.model n (auxDataString ++ p) with
            | some v => some (.variant v)
            | none => property s.model n1 q)
        else property s.model n1 q := by
  have hn : auxiliaryData? s.model n (auxDataString ++ p) ≠ none → n.isSome = true := by
    cases n <;> simp [auxiliaryData?]
  unfold restoreProperty
  by_cases h1 : n1 = n ∧ q = p
  · obtain ⟨rfl, rfl⟩ := h1
    rcases h : auxiliaryData? s.model n1 (auxDataString ++ q) with _ | v <;>
      simp [hasAuxiliaryData, auxiliaryData, h, hn]
  · have h2 : n1 = n → ¬ q = p := fun a b => h1 ⟨a, b⟩
    rcases h : auxiliaryData? s.model n (auxDataString ++ p) with _ | v
    · simp [hasAuxiliaryData, auxiliaryData, h, h1]
    · simp [hasAuxiliaryData, auxiliaryData, h, h1]
      intro a _ b
      exact absurd b (h2 a)

end BackupRestore

/-! ### The margin computations -/

section Margins

variable (s : QmlAnchorBindingProxy)

@[simp] theorem calcTopMargin_item : (calcTopMargin s).m_qmlItemNode = s.m_qmlItemNode := by
  unfold calcTopMargin
  dsimp only
  split_ifs <;> simp [anchorsSetMargin]

@[simp] theorem calcTopMargin_verticalTarget : (calcTopMargin s).m_verticalTarget = s.m_verticalTarget := by
  unfold calcTopMargin
  dsimp only
  split_ifs <;> simp [anchorsSetMargin]

@[simp] theorem calcTopMargin_horizontalTarget : (calcTopMargin s).m_horizontalTarget = s.m_horizontalTarget := by
  unfold calcTopMargin
  dsimp only
  split_ifs <;> simp [anchorsSetMargin]

@[simp] theorem calcTopMargin_topTarget : (calcTopMargin s).m_topTarget = s.m_topTarget := by
  unfold calcTopMargin
  dsimp only
  split_ifs <;> simp [anchorsSetMargin]

@[simp] theorem calcTopMargin_bottomTarget : (calcTopMargin s).m_bottomTarget = s.m_bottomTarget := by
  unfold calcTopMargin
  dsimp only
  split_ifs <;> simp [anchorsSetMargin]

@[simp] theorem calcTopMargin_leftTarget : (calcTopMargin s).m_leftTarget = s.m_leftTarget := by
  unfold calcTopMargin
  dsimp only
  split_ifs <;> simp [anchorsSetMargin]

@[simp] theorem calcTopMargin_rightTarget : (calcTopMargin s).m_rightTarget = s.m_rightTarget := by
  unfold calcTopMargin
  dsimp only
  split_ifs <;> simp [anchorsSetMargin]

@[simp] theorem calcTopMargin_locked : (calcTopMargin s).m_locked = false := rfl

@[simp] theorem auxiliaryData?_calcTopMargin :
    auxiliaryData? (calcTopMargin s).model = auxiliaryData? s.model := by
  unfold calcTopMargin
  dsimp only
  split_ifs <;> simp [anchorsSetMargin]

@[simp] theorem shapeOf_calcTopMargin : shapeOf (calcTopMargin s).model = shapeOf s.model := by
  unfold calcTopMargin
  dsimp only
  split_ifs <;> simp [anchorsSetMargin]

@[simp] theorem property_calcTopMargin (n1 : ModelNode) (q : PropertyName) :
    property (calcTopMargin s).model n1 q
      = if n1 = s.m_qmlItemNode ∧ s.m_qmlItemNode.isSome ∧ q = "anchors.topMargin" then
          some (.variant (.real
            (if s.m_topTarget = parentModelNode s.model s.m_qmlItemNode then
              s.transformedBoundingBox.top - s.parentBoundingBox.top
            else (s.boundingBox s.m_qmlItemNode).top - (s.boundingBox s.m_topTarget).bottom)))
        else property s.model n1 q := by
  unfold calcTopMargin
  dsimp only
  split_ifs <;>
    simp_all [anchorsSetMargin, marginPropertyName, transformedBoundingBox, parentBoundingBox,
      boundingBox]

@[simp] theorem instanceAnchor_calcTopMargin (n1 : ModelNode) (l : AnchorLine) :
    instanceAnchor (calcTopMargin s).model n1 l
      = if n1 = s.m_qmlItemNode ∧ s.m_qmlItemNode.isSome ∧ l = .Top then
          some ⟨s.m_topTarget,
            if s.m_topTarget = parentModelNode s.model s.m_qmlItemNode then .Top else .Bottom⟩
        else instanceAnchor s.model n1 l := by
  unfold calcTopMargin
  dsimp only
  split_ifs <;> simp_all [anchorsSetMargin]

theorem calcTopMargin_trace (i : Nat) (h : s.m_qmlItemNode = some i) :
    (calcTopMargin s).trace = s.trace ++ [Event.modelWrite true, Event.modelWrite true] := by
  unfold calcTopMargin
  dsimp only
  split_ifs <;> simp [h, anchorsSetMargin]

@[simp] theorem calcBottomMargin_item : (calcBottomMargin s).m_qmlItemNode = s.m_qmlItemNode := by
  unfold calcBottomMargin
  dsimp only
  split_ifs <;> simp [anchorsSetMargin]

@[simp] theorem calcBottomMargin_verticalTarget : (calcBottomMargin s).m_verticalTarget = s.m_verticalTarget := by
  unfold calcBottomMargin
  dsimp only
  split_ifs <;> simp [anchorsSetMargin]

@[simp] theorem calcBottomMargin_horizontalTarget : (calcBottomMargin s).m_horizontalTarget = s.m_horizontalTarget := by
  unfold calcBottomMargin
  dsimp only
  split_ifs <;> simp [anchorsSetMargin]

@[simp] theorem calcBottomMargin_topTarget : (calcBottomMargin s).m_topTarget = s.m_topTarget := by
  unfold calcBottomMargin
  dsimp only
  split_ifs <;> simp [anchorsSetMargin]

@[simp] theorem calcBottomMargin_bottomTarget : (calcBottomMargin s).m_bottomTarget = s.m_bottomTarget := by
  unfold calcBottomMargin
  dsimp only
  split_ifs <;> simp [anchorsSetMargin]

@[simp] theorem calcBottomMargin_leftTarget : (calcBottomMargin s).m_leftTarget = s.m_leftTarget := by
  unfold calcBottomMargin
  dsimp only
  split_ifs <;> simp [anchorsSetMargin]

@[simp] theorem calcBottomMargin_rightTarget : (calcBottomMargin s).m_rightTarget = s.m_rightTarget := by
  unfold calcBottomMargin
  dsimp only
  split_ifs <;> simp [anchorsSetMargin]

@[simp] theorem calcBottomMargin_locked : (calcBottomMargin s).m_locked = false := rfl

@[simp] theorem auxiliaryData?_calcBottomMargin :
    auxiliaryData? (calcBottomMargin s).model = auxiliaryData? s.model := by
  unfold calcBottomMargin
  dsimp only
  split_ifs <;> simp [anchorsSetMargin]

@[simp] theorem shapeOf_calcBottomMargin : shapeOf (calcBottomMargin s).model = shapeOf s.model := by
  unfold calcBottomMargin
  dsimp only
  split_ifs <;> simp [anchorsSetMargin]

@[simp] theorem property_calcBottomMargin (n1 : ModelNode) (q : PropertyName) :
    property (calcBottomMargin s).model n1 q
      = if n1 = s.m_qmlItemNode ∧ s.m_qmlItemNode.isSome ∧ q = "anchors.bottomMargin" then
          some (.variant (.real
            (if s.m_bottomTarget = parentModelNode s.model s.m_qmlItemNode then
              s.parentBoundingBox.bottom - s.transformedBoundingBox.bottom
            else (s.boundingBox s.m_bottomTarget).top - (s.boundingBox s.m_qmlItemNode).bottom)))
        else property s.model n1 q := by
  unfold calcBottomMargin
  dsimp only
  split_ifs <;>
    simp_all [anchorsSetMargin, marginPropertyName, transformedBoundingBox, parentBoundingBox,
      boundingBox]

@[simp] theorem instanceAnchor_calcBottomMargin (n1 : ModelNode) (l : AnchorLine) :
    instanceAnchor (calcBottomMargin s).model n1 l
      = if n1 = s.m_qmlItemNode ∧ s.m_qmlItemNode.isSome ∧ l = .Bottom then
          some ⟨s.m_bottomTarget,
            if s.m_bottomTarget = parentModelNode s.model s.m_qmlItemNode then .Bottom else .Top⟩
        else instanceAnchor s.model n1 l := by
  unfold calcBottomMargin
  dsimp only
  split_ifs <;> simp_all [anchorsSetMargin]

theorem calcBottomMargin_trace (i : Nat) (h : s.m_qmlItemNode = some i) :
    (calcBottomMargin s).trace = s.trace ++ [Event.modelWrite true, Event.modelWrite true] := by
  unfold calcBottomMargin
  dsimp only
  split_ifs <;> simp [h, anchorsSetMargin]

@[simp] theorem calcLeftMargin_item : (calcLeftMargin s).m_qmlItemNode = s.m_qmlItemNode := by
  unfold calcLeftMargin
  dsimp only
  split_ifs <;> simp [anchorsSetMargin]

@[simp] theorem calcLeftMargin_verticalTarget : (calcLeftMargin s).m_verticalTarget = s.m_verticalTarget := by
  unfold calcLeftMargin
  dsimp only
  split_ifs <;> simp [anchorsSetMargin]

@[simp] theorem calcLeftMargin_horizontalTarget : (calcLeftMargin s).m_horizontalTarget = s.m_horizontalTarget := by
  unfold calcLeftMargin
  dsimp only
  split_ifs <;> simp [anchorsSetMargin]

@[simp] theorem calcLeftMargin_topTarget : (calcLeftMargin s).m_topTarget = s.m_topTarget := by
  unfold calcLeftMargin
  dsimp only
  split_ifs <;> simp [anchorsSetMargin]

@[simp] theorem calcLeftMargin_bottomTarget : (calcLeftMargin s).m_bottomTarget = s.m_bottomTarget := by
  unfold calcLeftMargin
  dsimp only
  split_ifs <;> simp [anchorsSetMargin]

@[simp] theorem calcLeftMargin_leftTarget : (calcLeftMargin s).m_leftTarget = s.m_leftTarget := by
  unfold calcLeftMargin
  dsimp only
  split_ifs <;> simp [anchorsSetMargin]

@[simp] theorem calcLeftMargin_rightTarget : (calcLeftMargin s).m_rightTarget = s.m_rightTarget := by
  unfold calcLeftMargin
  dsimp only
  split_ifs <;> simp [anchorsSetMargin]

@[simp] theorem calcLeftMargin_locked : (calcLeftMargin s).m_locked = false := rfl

@[simp] theorem auxiliaryData?_calcLeftMargin :
    auxiliaryData? (calcLeftMargin s).model = auxiliaryData? s.model := by
  unfold calcLeftMargin
  dsimp only
  split_ifs <;> simp [anchorsSetMargin]

@[simp] theorem shapeOf_calcLeftMargin : shapeOf (calcLeftMargin s).model = shapeOf s.model := by
  unfold calcLeftMargin
  dsimp only
  split_ifs <;> simp [anchorsSetMargin]

@[simp] theorem property_calcLeftMargin (n1 : ModelNode) (q : PropertyName) :
    property (calcLeftMargin s).model n1 q
      = if n1 = s.m_qmlItemNode ∧ s.m_qmlItemNode.isSome ∧ q = "anchors.leftMargin" then
          some (.variant (.real
            (if s.m_leftTarget = parentModelNode s.model s.m_qmlItemNode then
              s.transformedBoundingBox.left - s.parentBoundingBox.left
            else (s.boundingBox s.m_qmlItemNode).left - (s.boundingBox s.m_leftTarget).right)))
        else property s.model n1 q := by
  unfold calcLeftMargin
  dsimp only
  split_ifs <;>
    simp_all [anchorsSetMargin, marginPropertyName, transformedBoundingBox, parentBoundingBox,
      boundingBox]

@[simp] theorem instanceAnchor_calcLeftMargin (n1 : ModelNode) (l : AnchorLine) :
    instanceAnchor (calcLeftMargin s).model n1 l
      = if n1 = s.m_qmlItemNode ∧ s.m_qmlItemNode.isSome ∧ l = .Left then
          some ⟨s.m_leftTarget,
            if s.m_leftTarget = parentModelNode s.model s.m_qmlItemNode then .Left else .Right⟩
        else instanceAnchor s.model n1 l := by
  unfold calcLeftMargin
  dsimp only
  split_ifs <;> simp_all [anchorsSetMargin]

theorem calcLeftMargin_trace (i : Nat) (h : s.m_qmlItemNode = some i) :
    (calcLeftMargin s).trace = s.trace ++ [Event.modelWrite true, Event.modelWrite true] := by
  unfold calcLeftMargin
  dsimp only
  split_ifs <;> simp [h, anchorsSetMargin]

@[simp] theorem calcRightMargin_item : (calcRightMargin s).m_qmlItemNode = s.m_qmlItemNode := by
  unfold calcRightMargin
  dsimp only
  split_ifs <;> simp [anchorsSetMargin]

@[simp] theorem calcRightMargin_verticalTarget : (calcRightMargin s).m_verticalTarget = s.m_verticalTarget := by
  unfold calcRightMargin
  dsimp only
  split_ifs <;> simp [anchorsSetMargin]

@[simp] theorem calcRightMargin_horizontalTarget : (calcRightMargin s).m_horizontalTarget = s.m_horizontalTarget := by
  unfold calcRightMargin
  dsimp only
  split_ifs <;> simp [anchorsSetMargin]

@[simp] theorem calcRightMargin_topTarget : (calcRightMargin s).m_topTarget = s.m_topTarget := by
  unfold calcRightMargin
  dsimp only
  split_ifs <;> simp [anchorsSetMargin]

@[simp] theorem calcRightMargin_bottomTarget : (calcRightMargin s).m_bottomTarget = s.m_bottomTarget := by
  unfold calcRightMargin
  dsimp only
  split_ifs <;> simp [anchorsSetMargin]

@[simp] theorem calcRightMargin_leftTarget : (calcRightMargin s).m_leftTarget = s.m_leftTarget := by
  unfold calcRightMargin
  dsimp only
  split_ifs <;> simp [anchorsSetMargin]

@[simp] theorem calcRightMargin_rightTarget : (calcRightMargin s).m_rightTarget = s.m_rightTarget := by
  unfold calcRightMargin
  dsimp only
  split_ifs <;> simp [anchorsSetMargin]

@[simp] theorem calcRightMargin_locked : (calcRightMargin s).m_locked = false := rfl

@[simp] theorem auxiliaryData?_calcRightMargin :
    auxiliaryData? (calcRightMargin s).model = auxiliaryData? s.model := by
  unfold calcRightMargin
  dsimp only
  split_ifs <;> simp [anchorsSetMargin]

@[simp] theorem shapeOf_calcRightMargin : shapeOf (calcRightMargin s).model = shapeOf s.model := by
  unfold calcRightMargin
  dsimp only
  split_ifs <;> simp [anchorsSetMargin]

@[simp] theorem property_calcRightMargin (n1 : ModelNode) (q : PropertyName) :
    property (calcRightMargin s).model n1 q
      = if n1 = s.m_qmlItemNode ∧ s.m_qmlItemNode.isSome ∧ q = "anchors.rightMargin" then
          some (.variant (.real
            (if s.m_rightTarget = parentModelNode s.model s.m_qmlItemNode then
              s.parentBoundingBox.right - s.transformedBoundingBox.right
            else (s.boundingBox s.m_rightTarget).left - (s.boundingBox s.m_qmlItemNode).right)))
        else property s.model n1 q := by
  unfold calcRightMargin
  dsimp only
  split_ifs <;>
    simp_all [anchorsSetMargin, marginPropertyName, transformedBoundingBox, parentBoundingBox,
      boundingBox]

@[simp] theorem instanceAnchor_calcRightMargin (n1 : ModelNode) (l : AnchorLine) :
    instanceAnchor (calcRightMargin s).model n1 l
      = if n1 = s.m_qmlItemNode ∧ s.m_qmlItemNode.isSome ∧ l = .Right then
          some ⟨s.m_rightTarget,
            if s.m_rightTarget = parentModelNode s.model s.m_qmlItemNode then .Right else .Left⟩
        else instanceAnchor s.model n1 l := by
  unfold calcRightMargin
  dsimp only
  split_ifs <;> simp_all [anchorsSetMargin]

theorem calcRightMargin_trace (i : Nat) (h : s.m_qmlItemNode = some i) :
    (calcRightMargin s).trace = s.trace ++ [Event.modelWrite true, Event.modelWrite true] := by
  unfold calcRightMargin
  dsimp only
  split_ifs <;> simp [h, anchorsSetMargin]

end Margins

/-! ### Toggling an edge anchor -/

section Toggle

variable (s : QmlAnchorBindingProxy)

@[simp] theorem removeTopAnchor_item : (removeTopAnchor s).m_qmlItemNode = s.m_qmlItemNode := by
  simp [removeTopAnchor, anchorsRemoveMargin]

@[simp] theorem removeTopAnchor_verticalTarget : (removeTopAnchor s).m_verticalTarget = s.m_verticalTarget := by
  simp [removeTopAnchor, anchorsRemoveMargin]

@[simp] theorem removeTopAnchor_horizontalTarget : (removeTopAnchor s).m_horizontalTarget = s.m_horizontalTarget := by
  simp [removeTopAnchor, anchorsRemoveMargin]

@[simp] theorem removeTopAnchor_topTarget : (removeTopAnchor s).m_topTarget = s.m_topTarget := by
  simp [removeTopAnchor, anchorsRemoveMargin]

@[simp] theorem removeTopAnchor_bottomTarget : (removeTopAnchor s).m_bottomTarget = s.m_bottomTarget := by
  simp [removeTopAnchor, anchorsRemoveMargin]

@[simp] theorem removeTopAnchor_leftTarget : (removeTopAnchor s).m_leftTarget = s.m_leftTarget := by
  simp [removeTopAnchor, anchorsRemoveMargin]

@[simp] theorem removeTopAnchor_rightTarget : (removeTopAnchor s).m_rightTarget = s.m_rightTarget := by
  simp [removeTopAnchor, anchorsRemoveMargin]

@[simp] theorem removeTopAnchor_locked : (removeTopAnchor s).m_locked = s.m_locked := by
  simp [removeTopAnchor, anchorsRemoveMargin]

@[simp] theorem auxiliaryData?_removeTopAnchor :
    auxiliaryData? (removeTopAnchor s).model = auxiliaryData? s.model := by
  simp [removeTopAnchor, anchorsRemoveMargin]

@[simp] theorem shapeOf_removeTopAnchor : shapeOf (removeTopAnchor s).model = shapeOf s.model := by
  simp [removeTopAnchor, anchorsRemoveMargin]

@[simp] theorem instanceAnchor_removeTopAnchor (n1 : ModelNode) (l : AnchorLine) :
    instanceAnchor (removeTopAnchor s).model n1 l
      = if n1 = s.m_qmlItemNode ∧ l = .Top then none else instanceAnchor s.model n1 l := by
  simp [removeTopAnchor, anchorsRemoveMargin]

@[simp] theorem removeBottomAnchor_item : (removeBottomAnchor s).m_qmlItemNode = s.m_qmlItemNode := by
  simp [removeBottomAnchor, anchorsRemoveMargin]

@[simp] theorem removeBottomAnchor_verticalTarget : (removeBottomAnchor s).m_verticalTarget = s.m_verticalTarget := by
  simp [removeBottomAnchor, anchorsRemoveMargin]

@[simp] theorem removeBottomAnchor_horizontalTarget : (removeBottomAnchor s).m_horizontalTarget = s.m_horizontalTarget := by
  simp [removeBottomAnchor, anchorsRemoveMargin]

@[simp] theorem removeBottomAnchor_topTarget : (removeBottomAnchor s).m_topTarget = s.m_topTarget := by
  simp [removeBottomAnchor, anchorsRemoveMargin]

@[simp] theorem removeBottomAnchor_bottomTarget : (removeBottomAnchor s).m_bottomTarget = s.m_bottomTarget := by
  simp [removeBottomAnchor, anchorsRemoveMargin]

@[simp] theorem removeBottomAnchor_leftTarget : (removeBottomAnchor s).m_leftTarget = s.m_leftTarget := by
  simp [removeBottomAnchor, anchorsRemoveMargin]

@[simp] theorem removeBottomAnchor_rightTarget : (removeBottomAnchor s).m_rightTarget = s.m_rightTarget := by
  simp [removeBottomAnchor, anchorsRemoveMargin]

@[simp] theorem removeBottomAnchor_locked : (removeBottomAnchor s).m_locked = s.m_locked := by
  simp [removeBottomAnchor, anchorsRemoveMargin]

@[simp] theorem auxiliaryData?_removeBottomAnchor :
    auxiliaryData? (removeBottomAnchor s).model = auxiliaryData? s.model := by
  simp [removeBottomAnchor, anchorsRemoveMargin]

@[simp] theorem shapeOf_removeBottomAnchor : shapeOf (removeBottomAnchor s).model = shapeOf s.model := by
  simp [removeBottomAnchor, anchorsRemoveMargin]

@[simp] theorem instanceAnchor_removeBottomAnchor (n1 : ModelNode) (l : AnchorLine) :
    instanceAnchor (removeBottomAnchor s).model n1 l
      = if n1 = s.m_qmlItemNode ∧ l = .Bottom then none else instanceAnchor s.model n1 l := by
  simp [removeBottomAnchor, anchorsRemoveMargin]

@[simp] theorem removeLeftAnchor_item : (removeLeftAnchor s).m_qmlItemNode = s.m_qmlItemNode := by
  simp [removeLeftAnchor, anchorsRemoveMargin]

@[simp] theorem removeLeftAnchor_verticalTarget : (removeLeftAnchor s).m_verticalTarget = s.m_verticalTarget := by
  simp [removeLeftAnchor, anchorsRemoveMargin]

@[simp] theorem removeLeftAnchor_horizontalTarget : (removeLeftAnchor s).m_horizontalTarget = s.m_horizontalTarget := by
  simp [removeLeftAnchor, anchorsRemoveMargin]

@[simp] theorem removeLeftAnchor_topTarget : (removeLeftAnchor s).m_topTarget = s.m_topTarget := by
  simp [removeLeftAnchor, anchorsRemoveMargin]

@[simp] theorem removeLeftAnchor_bottomTarget : (removeLeftAnchor s).m_bottomTarget = s.m_bottomTarget := by
  simp [removeLeftAnchor, anchorsRemoveMargin]

@[simp] theorem removeLeftAnchor_leftTarget : (removeLeftAnchor s).m_leftTarget = s.m_leftTarget := by
  simp [removeLeftAnchor, anchorsRemoveMargin]

@[simp] theorem removeLeftAnchor_rightTarget : (removeLeftAnchor s).m_rightTarget = s.m_rightTarget := by
  simp [removeLeftAnchor, anchorsRemoveMargin]

@[simp] theorem removeLeftAnchor_locked : (removeLeftAnchor s).m_locked = s.m_locked := by
  simp [removeLeftAnchor, anchorsRemoveMargin]

@[simp] theorem auxiliaryData?_removeLeftAnchor :
    auxiliaryData? (removeLeftAnchor s).model = auxiliaryData? s.model := by
  simp [removeLeftAnchor, anchorsRemoveMargin]

@[simp] theorem shapeOf_removeLeftAnchor : shapeOf (removeLeftAnchor s).model = shapeOf s.model := by
  simp [removeLeftAnchor, anchorsRemoveMargin]

@[simp] theorem instanceAnchor_removeLeftAnchor (n1 : ModelNode) (l : AnchorLine) :
    instanceAnchor (removeLeftAnchor s).model n1 l
      = if n1 = s.m_qmlItemNode ∧ l = .Left then none else instanceAnchor s.model n1 l := by
  simp [removeLeftAnchor, anchorsRemoveMargin]

@[simp] theorem removeRightAnchor_item : (removeRightAnchor s).m_qmlItemNode = s.m_qmlItemNode := by
  simp [removeRightAnchor, anchorsRemoveMargin]

@[simp] theorem removeRightAnchor_verticalTarget : (removeRightAnchor s).m_verticalTarget = s.m_verticalTarget := by
  simp [removeRightAnchor, anchorsRemoveMargin]

@[simp] theorem removeRightAnchor_horizontalTarget : (removeRightAnchor s).m_horizontalTarget = s.m_horizontalTarget := by
  simp [removeRightAnchor, anchorsRemoveMargin]

@[simp] theorem removeRightAnchor_topTarget : (removeRightAnchor s).m_topTarget = s.m_topTarget := by
  simp [removeRightAnchor, anchorsRemoveMargin]

@[simp] theorem removeRightAnchor_bottomTarget : (removeRightAnchor s).m_bottomTarget = s.m_bottomTarget := by
  simp [removeRightAnchor, anchorsRemoveMargin]

@[simp] theorem removeRightAnchor_leftTarget : (removeRightAnchor s).m_leftTarget = s.m_leftTarget := by
  simp [removeRightAnchor, anchorsRemoveMargin]

@[simp] theorem removeRightAnchor_rightTarget : (removeRightAnchor s).m_rightTarget = s.m_rightTarget := by
  simp [removeRightAnchor, anchorsRemoveMargin]

@[simp] theorem removeRightAnchor_locked : (removeRightAnchor s).m_locked = s.m_locked := by
  simp [removeRightAnchor, anchorsRemoveMargin]

@[simp] theorem auxiliaryData?_removeRightAnchor :
    auxiliaryData? (removeRightAnchor s).model = auxiliaryData? s.model := by
  simp [removeRightAnchor, anchorsRemoveMargin]

@[simp] theorem shapeOf_removeRightAnchor : shapeOf (removeRightAnchor s).model = shapeOf s.model := by
  simp [removeRightAnchor, anchorsRemoveMargin]

@[simp] theorem instanceAnchor_removeRightAnchor (n1 : ModelNode) (l : AnchorLine) :
    instanceAnchor (removeRightAnchor s).model n1 l
      = if n1 = s.m_qmlItemNode ∧ l = .Right then none else instanceAnchor s.model n1 l := by
  simp [removeRightAnchor, anchorsRemoveMargin]

@[simp] theorem setTopAnchor_item (anchor : Bool) : (setTopAnchor anchor s).m_qmlItemNode = s.m_qmlItemNode := by
  unfold setTopAnchor
  dsimp only
  split_ifs <;> simp [modelNode, emit]

@[simp] theorem setTopAnchor_verticalTarget (anchor : Bool) : (setTopAnchor anchor s).m_verticalTarget = s.m_verticalTarget := by
  unfold setTopAnchor
  dsimp only
  split_ifs <;> simp [modelNode, emit]

@[simp] theorem setTopAnchor_horizontalTarget (anchor : Bool) : (setTopAnchor anchor s).m_horizontalTarget = s.m_horizontalTarget := by
  unfold setTopAnchor
  dsimp only
  split_ifs <;> simp [modelNode, emit]

@[simp] theorem setTopAnchor_topTarget (anchor : Bool) : (setTopAnchor anchor s).m_topTarget = s.m_topTarget := by
  unfold setTopAnchor
  dsimp only
  split_ifs <;> simp [modelNode, emit]

@[simp] theorem setTopAnchor_bottomTarget (anchor : Bool) : (setTopAnchor anchor s).m_bottomTarget = s.m_bottomTarget := by
  unfold setTopAnchor
  dsimp only
  split_ifs <;> simp [modelNode, emit]

@[simp] theorem setTopAnchor_leftTarget (anchor : Bool) : (setTopAnchor anchor s).m_leftTarget = s.m_leftTarget := by
  unfold setTopAnchor
  dsimp only
  split_ifs <;> simp [modelNode, emit]

@[simp] theorem setTopAnchor_rightTarget (anchor : Bool) : (setTopAnchor anchor s).m_rightTarget = s.m_rightTarget := by
  unfold setTopAnchor
  dsimp only
  split_ifs <;> simp [modelNode, emit]

@[simp] theorem shapeOf_setTopAnchor (anchor : Bool) :
    shapeOf (setTopAnchor anchor s).model = shapeOf s.model := by
  unfold setTopAnchor
  dsimp only
  split_ifs <;> simp [modelNode]

theorem setTopAnchor_of_noParent (anchor : Bool) (h : hasNodeParent s.model s.m_qmlItemNode = false) :
    setTopAnchor anchor s = s := by
  simp [setTopAnchor, h]

theorem setTopAnchor_of_same (anchor : Bool) (h : s.topAnchored = anchor) : setTopAnchor anchor s = s := by
  unfold setTopAnchor
  split_ifs <;> simp_all

@[simp] theorem setBottomAnchor_item (anchor : Bool) : (setBottomAnchor anchor s).m_qmlItemNode = s.m_qmlItemNode := by
  unfold setBottomAnchor
  dsimp only
  split_ifs <;> simp [modelNode, emit]

@[simp] theorem setBottomAnchor_verticalTarget (anchor : Bool) : (setBottomAnchor anchor s).m_verticalTarget = s.m_verticalTarget := by
  unfold setBottomAnchor
  dsimp only
  split_ifs <;> simp [modelNode, emit]

@[simp] theorem setBottomAnchor_horizontalTarget (anchor : Bool) : (setBottomAnchor anchor s).m_horizontalTarget = s.m_horizontalTarget := by
  unfold setBottomAnchor
  dsimp only
  split_ifs <;> simp [modelNode, emit]

@[simp] theorem setBottomAnchor_topTarget (anchor : Bool) : (setBottomAnchor anchor s).m_topTarget = s.m_topTarget := by
  unfold setBottomAnchor
  dsimp only
  split_ifs <;> simp [modelNode, emit]

@[simp] theorem setBottomAnchor_bottomTarget (anchor : Bool) : (setBottomAnchor anchor s).m_bottomTarget = s.m_bottomTarget := by
  unfold setBottomAnchor
  dsimp only
  split_ifs <;> simp [modelNode, emit]

@[simp] theorem setBottomAnchor_leftTarget (anchor : Bool) : (setBottomAnchor anchor s).m_leftTarget = s.m_leftTarget := by
  unfold setBottomAnchor
  dsimp only
  split_ifs <;> simp [modelNode, emit]

@[simp] theorem setBottomAnchor_rightTarget (anchor : Bool) : (setBottomAnchor anchor s).m_rightTarget = s.m_rightTarget := by
  unfold setBottomAnchor
  dsimp only
  split_ifs <;> simp [modelNode, emit]

@[simp] theorem shapeOf_setBottomAnchor (anchor : Bool) :
    shapeOf (setBottomAnchor anchor s).model = shapeOf s.model := by
  unfold setBottomAnchor
  dsimp only
  split_ifs <;> simp [modelNode]

theorem setBottomAnchor_of_noParent (anchor : Bool) (h : hasNodeParent s.model s.m_qmlItemNode = false) :
    setBottomAnchor anchor s = s := by
  simp [setBottomAnchor, h]

theorem setBottomAnchor_of_same (anchor : Bool) (h : s.bottomAnchored = anchor) : setBottomAnchor anchor s = s := by
  unfold setBottomAnchor
  split_ifs <;> simp_all

@[simp] theorem setLeftAnchor_item (anchor : Bool) : (setLeftAnchor anchor s).m_qmlItemNode = s.m_qmlItemNode := by
  unfold setLeftAnchor
  dsimp only
  split_ifs <;> simp [modelNode, emit]

@[simp] theorem setLeftAnchor_verticalTarget (anchor : Bool) : (setLeftAnchor anchor s).m_verticalTarget = s.m_verticalTarget := by
  unfold setLeftAnchor
  dsimp only
  split_ifs <;> simp [modelNode, emit]

@[simp] theorem setLeftAnchor_horizontalTarget (anchor : Bool) : (setLeftAnchor anchor s).m_horizontalTarget = s.m_horizontalTarget := by
  unfold setLeftAnchor
  dsimp only
  split_ifs <;> simp [modelNode, emit]

@[simp] theorem setLeftAnchor_topTarget (anchor : Bool) : (setLeftAnchor anchor s).m_topTarget = s.m_topTarget := by
  unfold setLeftAnchor
  dsimp only
  split_ifs <;> simp [modelNode, emit]

@[simp] theorem setLeftAnchor_bottomTarget (anchor : Bool) : (setLeftAnchor anchor s).m_bottomTarget = s.m_bottomTarget := by
  unfold setLeftAnchor
  dsimp only
  split_ifs <;> simp [modelNode, emit]

@[simp] theorem setLeftAnchor_leftTarget (anchor : Bool) : (setLeftAnchor anchor s).m_leftTarget = s.m_leftTarget := by
  unfold setLeftAnchor
  dsimp only
  split_ifs <;> simp [modelNode, emit]

@[simp] theorem setLeftAnchor_rightTarget (anchor : Bool) : (setLeftAnchor anchor s).m_rightTarget = s.m_rightTarget := by
  unfold setLeftAnchor
  dsimp only
  split_ifs <;> simp [modelNode, emit]

@[simp] theorem shapeOf_setLeftAnchor (anchor : Bool) :
    shapeOf (setLeftAnchor anchor s).model = shapeOf s.model := by
  unfold setLeftAnchor
  dsimp only
  split_ifs <;> simp [modelNode]

theorem setLeftAnchor_of_noParent (anchor : Bool) (h : hasNodeParent s.model s.m_qmlItemNode = false) :
    setLeftAnchor anchor s = s := by
  simp [setLeftAnchor, h]

theorem setLeftAnchor_of_same (anchor : Bool) (h : s.leftAnchored = anchor) : setLeftAnchor anchor s = s := by
  unfold setLeftAnchor
  split_ifs <;> simp_all

@[simp] theorem setRightAnchor_item (anchor : Bool) : (setRightAnchor anchor s).m_qmlItemNode = s.m_qmlItemNode := by
  unfold setRightAnchor
  dsimp only
  split_ifs <;> simp [modelNode, emit]

@[simp] theorem setRightAnchor_verticalTarget (anchor : Bool) : (setRightAnchor anchor s).m_verticalTarget = s.m_verticalTarget := by
  unfold setRightAnchor
  dsimp only
  split_ifs <;> simp [modelNode, emit]

@[simp] theorem setRightAnchor_horizontalTarget (anchor : Bool) : (setRightAnchor anchor s).m_horizontalTarget = s.m_horizontalTarget := by
  unfold setRightAnchor
  dsimp only
  split_ifs <;> simp [modelNode, emit]

@[simp] theorem setRightAnchor_topTarget (anchor : Bool) : (setRightAnchor anchor s).m_topTarget = s.m_topTarget := by
  unfold setRightAnchor
  dsimp only
  split_ifs <;> simp [modelNode, emit]

@[simp] theorem setRightAnchor_bottomTarget (anchor : Bool) : (setRightAnchor anchor s).m_bottomTarget = s.m_bottomTarget := by
  unfold setRightAnchor
  dsimp only
  split_ifs <;> simp [modelNode, emit]

@[simp] theorem setRightAnchor_leftTarget (anchor : Bool) : (setRightAnchor anchor s).m_leftTarget = s.m_leftTarget := by
  unfold setRightAnchor
  dsimp only
  split_ifs <;> simp [modelNode, emit]

@[simp] theorem setRightAnchor_rightTarget (anchor : Bool) : (setRightAnchor anchor s).m_rightTarget = s.m_rightTarget := by
  unfold setRightAnchor
  dsimp only
  split_ifs <;> simp [modelNode, emit]

@[simp] theorem shapeOf_setRightAnchor (anchor : Bool) :
    shapeOf (setRightAnchor anchor s).model = shapeOf s.model := by
  unfold setRightAnchor
  dsimp only
  split_ifs <;> simp [modelNode]

theorem setRightAnchor_of_noParent (anchor : Bool) (h : hasNodeParent s.model s.m_qmlItemNode = false) :
    setRightAnchor anchor s = s := by
  simp [setRightAnchor, h]

theorem setRightAnchor_of_same (anchor : Bool) (h : s.rightAnchored = anchor) : setRightAnchor anchor s = s := by
  unfold setRightAnchor
  split_ifs <;> simp_all

theorem setTopAnchor_false_model (hparent : hasNodeParent s.model s.m_qmlItemNode = true)
    (hset : s.topAnchored = true) :
    (setTopAnchor false s).model = (removeTopAnchor s).model := by
  unfold setTopAnchor
  simp only [hparent, hset]
  simp only [Bool.not_true, Bool.not_false, Bool.false_eq_true, Bool.true_eq_false, ↓reduceIte]
  split_ifs <;> rfl

theorem setTopAnchor_true_model (hparent : hasNodeParent s.model s.m_qmlItemNode = true)
    (hfree : s.topAnchored = false) :
    (setTopAnchor true s).model
      = (if s.bottomAnchored then
          backupPropertyAndRemove s.m_qmlItemNode "height" (backupPropertyAndRemove s.m_qmlItemNode "y" (calcTopMargin s))
        else backupPropertyAndRemove s.m_qmlItemNode "y" (calcTopMargin s)).model := by
  have hsome := isSome_of_hasNodeParent hparent
  have ho : (backupPropertyAndRemove s.m_qmlItemNode "y" (calcTopMargin s)).bottomAnchored = s.bottomAnchored := by
    simp [bottomAnchored, instanceHasAnchor, hsome]
  unfold setTopAnchor
  simp only [hparent, hfree, modelNode]
  simp only [Bool.not_true, Bool.false_eq_true, ↓reduceIte]
  split_ifs <;> simp_all

theorem setTopAnchor_true_anchored (hparent : hasNodeParent s.model s.m_qmlItemNode = true)
    (hfree : s.topAnchored = false) : (setTopAnchor true s).topAnchored = true := by
  have hsome := isSome_of_hasNodeParent hparent
  have hm := setTopAnchor_true_model s hparent hfree
  simp only [topAnchored, instanceHasAnchor, setTopAnchor_item, hm, isValid, hsome]
  split_ifs <;> simp [hsome]

theorem setLeftAnchor_false_model (hparent : hasNodeParent s.model s.m_qmlItemNode = true)
    (hset : s.leftAnchored = true) :
    (setLeftAnchor false s).model = (removeLeftAnchor s).model := by
  unfold setLeftAnchor
  simp only [hparent, hset]
  simp only [Bool.not_true, Bool.not_false, Bool.false_eq_true, Bool.true_eq_false, ↓reduceIte]
  split_ifs <;> rfl

theorem setLeftAnchor_true_model (hparent : hasNodeParent s.model s.m_qmlItemNode = true)
    (hfree : s.leftAnchored = false) :
    (setLeftAnchor true s).model
      = (if s.rightAnchored then
          backupPropertyAndRemove s.m_qmlItemNode "width" (backupPropertyAndRemove s.m_qmlItemNode "x" (calcLeftMargin s))
        else backupPropertyAndRemove s.m_qmlItemNode "x" (calcLeftMargin s)).model := by
  have hsome := isSome_of_hasNodeParent hparent
  have ho : (backupPropertyAndRemove s.m_qmlItemNode "x" (calcLeftMargin s)).rightAnchored = s.rightAnchored := by
    simp [rightAnchored, instanceHasAnchor, hsome]
  unfold setLeftAnchor
  simp only [hparent, hfree, modelNode]
  simp only [Bool.not_true, Bool.false_eq_true, ↓reduceIte]
  split_ifs <;> simp_all

theorem setLeftAnchor_true_anchored (hparent : hasNodeParent s.model s.m_qmlItemNode = true)
    (hfree : s.leftAnchored = false) : (setLeftAnchor true s).leftAnchored = true := by
  have hsome := isSome_of_hasNodeParent hparent
  have hm := setLeftAnchor_true_model s hparent hfree
  simp only [leftAnchored, instanceHasAnchor, setLeftAnchor_item, hm, isValid, hsome]
  split_ifs <;> simp [hsome]

theorem setBottomAnchor_false_model (hparent : hasNodeParent s.model s.m_qmlItemNode = true)
    (hset : s.bottomAnchored = true) :
    (setBottomAnchor false s).model = (removeBottomAnchor s).model := by
  unfold setBottomAnchor
  simp only [hparent, hset]
  simp only [Bool.not_true, Bool.not_false, Bool.false_eq_true, Bool.true_eq_false, ↓reduceIte]
  split_ifs <;> rfl

theorem setBottomAnchor_true_model (hparent : hasNodeParent s.model s.m_qmlItemNode = true)
    (hfree : s.bottomAnchored = false) :
    (setBottomAnchor true s).model
      = (if s.topAnchored then
          backupPropertyAndRemove s.m_qmlItemNode "height" (calcBottomMargin s)
        else calcBottomMargin s).model := by
  have hsome := isSome_of_hasNodeParent hparent
  have ho : (calcBottomMargin s).topAnchored = s.topAnchored := by
    simp [topAnchored, instanceHasAnchor, hsome]
  unfold setBottomAnchor
  simp only [hparent, hfree, modelNode]
  simp only [Bool.not_true, Bool.false_eq_true, ↓reduceIte]
  split_ifs <;> simp_all

theorem setBottomAnchor_true_anchored (hparent : hasNodeParent s.model s.m_qmlItemNode = true)
    (hfree : s.bottomAnchored = false) : (setBottomAnchor true s).bottomAnchored = true := by
  have hsome := isSome_of_hasNodeParent hparent
  have hm := setBottomAnchor_true_model s hparent hfree
  simp only [bottomAnchored, instanceHasAnchor, setBottomAnchor_item, hm, isValid, hsome]
  split_ifs <;> simp [hsome]

theorem setRightAnchor_false_model (hparent : hasNodeParent s.model s.m_qmlItemNode = true)
    (hset : s.rightAnchored = true) :
    (setRightAnchor false s).model = (removeRightAnchor s).model := by
  unfold setRightAnchor
  simp only [hparent, hset]
  simp only [Bool.not_true, Bool.not_false, Bool.false_eq_true, Bool.true_eq_false, ↓reduceIte]
  split_ifs <;> rfl

theorem setRightAnchor_true_model (hparent : hasNodeParent s.model s.m_qmlItemNode = true)
    (hfree : s.rightAnchored = false) :
    (setRightAnchor true s).model
      = (if s.leftAnchored then
          backupPropertyAndRemove s.m_qmlItemNode "width" (calcRightMargin s)
        else calcRightMargin s).model := by
  have hsome := isSome_of_hasNodeParent hparent
  have ho : (calcRightMargin s).leftAnchored = s.leftAnchored := by
    simp [leftAnchored, instanceHasAnchor, hsome]
  unfold setRightAnchor
  simp only [hparent, hfree, modelNode]
  simp only [Bool.not_true, Bool.false_eq_true, ↓reduceIte]
  split_ifs <;> simp_all

theorem setRightAnchor_true_anchored (hparent : hasNodeParent s.model s.m_qmlItemNode = true)
    (hfree : s.rightAnchored = false) : (setRightAnchor true s).rightAnchored = true := by
  have hsome := isSome_of_hasNodeParent hparent
  have hm := setRightAnchor_true_model s hparent hfree
  simp only [rightAnchored, instanceHasAnchor, setRightAnchor_item, hm, isValid, hsome]
  split_ifs <;> simp [hsome]

end Toggle

/-! ### Centering, fill and reset -/

section Batch

variable (s : QmlAnchorBindingProxy)

@[simp] theorem setVerticalCentered_item (centered : Bool) : (setVerticalCentered centered s).m_qmlItemNode = s.m_qmlItemNode := by
  unfold setVerticalCentered
  dsimp only
  split_ifs <;> simp [emit, anchorsRemoveMargin]

@[simp] theorem setVerticalCentered_verticalTarget (centered : Bool) : (setVerticalCentered centered s).m_verticalTarget = s.m_verticalTarget := by
  unfold setVerticalCentered
  dsimp only
  split_ifs <;> simp [emit, anchorsRemoveMargin]

@[simp] theorem setVerticalCentered_horizontalTarget (centered : Bool) : (setVerticalCentered centered s).m_horizontalTarget = s.m_horizontalTarget := by
  unfold setVerticalCentered
  dsimp only
  split_ifs <;> simp [emit, anchorsRemoveMargin]

@[simp] theorem setVerticalCentered_topTarget (centered : Bool) : (setVerticalCentered centered s).m_topTarget = s.m_topTarget := by
  unfold setVerticalCentered
  dsimp only
  split_ifs <;> simp [emit, anchorsRemoveMargin]

@[simp] theorem setVerticalCentered_bottomTarget (centered : Bool) : (setVerticalCentered centered s).m_bottomTarget = s.m_bottomTarget := by
  unfold setVerticalCentered
  dsimp only
  split_ifs <;> simp [emit, anchorsRemoveMargin]

@[simp] theorem setVerticalCentered_leftTarget (centered : Bool) : (setVerticalCentered centered s).m_leftTarget = s.m_leftTarget := by
  unfold setVerticalCentered
  dsimp only
  split_ifs <;> simp [emit, anchorsRemoveMargin]

@[simp] theorem setVerticalCentered_rightTarget (centered : Bool) : (setVerticalCentered centered s).m_rightTarget = s.m_rightTarget := by
  unfold setVerticalCentered
  dsimp only
  split_ifs <;> simp [emit, anchorsRemoveMargin]

@[simp] theorem auxiliaryData?_setVerticalCentered (centered : Bool) :
    auxiliaryData? (setVerticalCentered centered s).model = auxiliaryData? s.model := by
  unfold setVerticalCentered
  dsimp only
  split_ifs <;> simp [anchorsRemoveMargin]

@[simp] theorem shapeOf_setVerticalCentered (centered : Bool) :
    shapeOf (setVerticalCentered centered s).model = shapeOf s.model := by
  unfold setVerticalCentered
  dsimp only
  split_ifs <;> simp [anchorsRemoveMargin]

theorem property_setVerticalCentered_of_ne (centered : Bool) (n1 : ModelNode) (q : PropertyName)
    (hq : q ≠ "anchors.verticalCenterOffset") :
    property (setVerticalCentered centered s).model n1 q = property s.model n1 q := by
  unfold setVerticalCentered
  dsimp only
  split_ifs <;> simp [anchorsRemoveMargin, marginPropertyName, hq]

theorem instanceAnchor_setVerticalCentered_of_ne (centered : Bool) (n1 : ModelNode) (l : AnchorLine)
    (hl : l ≠ .VerticalCenter) :
    instanceAnchor (setVerticalCentered centered s).model n1 l = instanceAnchor s.model n1 l := by
  unfold setVerticalCentered
  dsimp only
  split_ifs <;> simp [anchorsRemoveMargin, hl]

theorem setVerticalCentered_locked_eq (centered : Bool) (h : s.m_locked = false) :
    (setVerticalCentered centered s).m_locked = false := by
  unfold setVerticalCentered
  dsimp only
  split_ifs <;> simp [emit, h]

@[simp] theorem setHorizontalCentered_item (centered : Bool) : (setHorizontalCentered centered s).m_qmlItemNode = s.m_qmlItemNode := by
  unfold setHorizontalCentered
  dsimp only
  split_ifs <;> simp [emit, anchorsRemoveMargin]

@[simp] theorem setHorizontalCentered_verticalTarget (centered : Bool) : (setHorizontalCentered centered s).m_verticalTarget = s.m_verticalTarget := by
  unfold setHorizontalCentered
  dsimp only
  split_ifs <;> simp [emit, anchorsRemoveMargin]

@[simp] theorem setHorizontalCentered_horizontalTarget (centered : Bool) : (setHorizontalCentered centered s).m_horizontalTarget = s.m_horizontalTarget := by
  unfold setHorizontalCentered
  dsimp only
  split_ifs <;> simp [emit, anchorsRemoveMargin]

@[simp] theorem setHorizontalCentered_topTarget (centered : Bool) : (setHorizontalCentered centered s).m_topTarget = s.m_topTarget := by
  unfold setHorizontalCentered
  dsimp only
  split_ifs <;> simp [emit, anchorsRemoveMargin]

@[simp] theorem setHorizontalCentered_bottomTarget (centered : Bool) : (setHorizontalCentered centered s).m_bottomTarget = s.m_bottomTarget := by
  unfold setHorizontalCentered
  dsimp only
  split_ifs <;> simp [emit, anchorsRemoveMargin]

@[simp] theorem setHorizontalCentered_leftTarget (centered : Bool) : (setHorizontalCentered centered s).m_leftTarget = s.m_leftTarget := by
  unfold setHorizontalCentered
  dsimp only
  split_ifs <;> simp [emit, anchorsRemoveMargin]

@[simp] theorem setHorizontalCentered_rightTarget (centered : Bool) : (setHorizontalCentered centered s).m_rightTarget = s.m_rightTarget := by
  unfold setHorizontalCentered
  dsimp only
  split_ifs <;> simp [emit, anchorsRemoveMargin]

@[simp] theorem auxiliaryData?_setHorizontalCentered (centered : Bool) :
    auxiliaryData? (setHorizontalCentered centered s).model = auxiliaryData? s.model := by
  unfold setHorizontalCentered
  dsimp only
  split_ifs <;> simp [anchorsRemoveMargin]

@[simp] theorem shapeOf_setHorizontalCentered (centered : Bool) :
    shapeOf (setHorizontalCentered centered s).model = shapeOf s.model := by
  unfold setHorizontalCentered
  dsimp only
  split_ifs <;> simp [anchorsRemoveMargin]

theorem property_setHorizontalCentered_of_ne (centered : Bool) (n1 : ModelNode) (q : PropertyName)
    (hq : q ≠ "anchors.horizontalCenterOffset") :
    property (setHorizontalCentered centered s).model n1 q = property s.model n1 q := by
  unfold setHorizontalCentered
  dsimp only
  split_ifs <;> simp [anchorsRemoveMargin, marginPropertyName, hq]

theorem instanceAnchor_setHorizontalCentered_of_ne (centered : Bool) (n1 : ModelNode) (l : AnchorLine)
    (hl : l ≠ .HorizontalCenter) :
    instanceAnchor (setHorizontalCentered centered s).model n1 l = instanceAnchor s.model n1 l := by
  unfold setHorizontalCentered
  dsimp only
  split_ifs <;> simp [anchorsRemoveMargin, hl]

theorem setHorizontalCentered_locked_eq (centered : Bool) (h : s.m_locked = false) :
    (setHorizontalCentered centered s).m_locked = false := by
  unfold setHorizontalCentered
  dsimp only
  split_ifs <;> simp [emit, h]

@[simp] theorem fill_item : (fill s).m_qmlItemNode = s.m_qmlItemNode := by
  simp [fill, modelNode, anchorsRemoveMargin, anchorsRemoveMargins, emit]

@[simp] theorem fill_verticalTarget : (fill s).m_verticalTarget = s.m_verticalTarget := by
  simp [fill, modelNode, anchorsRemoveMargin, anchorsRemoveMargins, emit]

@[simp] theorem fill_horizontalTarget : (fill s).m_horizontalTarget = s.m_horizontalTarget := by
  simp [fill, modelNode, anchorsRemoveMargin, anchorsRemoveMargins, emit]

@[simp] theorem fill_topTarget : (fill s).m_topTarget = s.m_topTarget := by
  simp [fill, modelNode, anchorsRemoveMargin, anchorsRemoveMargins, emit]

@[simp] theorem fill_bottomTarget : (fill s).m_bottomTarget = s.m_bottomTarget := by
  simp [fill, modelNode, anchorsRemoveMargin, anchorsRemoveMargins, emit]

@[simp] theorem fill_leftTarget : (fill s).m_leftTarget = s.m_leftTarget := by
  simp [fill, modelNode, anchorsRemoveMargin, anchorsRemoveMargins, emit]

@[simp] theorem fill_rightTarget : (fill s).m_rightTarget = s.m_rightTarget := by
  simp [fill, modelNode, anchorsRemoveMargin, anchorsRemoveMargins, emit]

@[simp] theorem shapeOf_fill : shapeOf (fill s).model = shapeOf s.model := by
  simp [fill, modelNode, anchorsRemoveMargin, anchorsRemoveMargins]

@[simp] theorem resetLayout_item : (resetLayout s).m_qmlItemNode = s.m_qmlItemNode := by
  simp [resetLayout, modelNode, anchorsRemoveMargin, anchorsRemoveMargins, emit]

@[simp] theorem resetLayout_verticalTarget : (resetLayout s).m_verticalTarget = s.m_verticalTarget := by
  simp [resetLayout, modelNode, anchorsRemoveMargin, anchorsRemoveMargins, emit]

@[simp] theorem resetLayout_horizontalTarget : (resetLayout s).m_horizontalTarget = s.m_horizontalTarget := by
  simp [resetLayout, modelNode, anchorsRemoveMargin, anchorsRemoveMargins, emit]

@[simp] theorem resetLayout_topTarget : (resetLayout s).m_topTarget = s.m_topTarget := by
  simp [resetLayout, modelNode, anchorsRemoveMargin, anchorsRemoveMargins, emit]

@[simp] theorem resetLayout_bottomTarget : (resetLayout s).m_bottomTarget = s.m_bottomTarget := by
  simp [resetLayout, modelNode, anchorsRemoveMargin, anchorsRemoveMargins, emit]

@[simp] theorem resetLayout_leftTarget : (resetLayout s).m_leftTarget = s.m_leftTarget := by
  simp [resetLayout, modelNode, anchorsRemoveMargin, anchorsRemoveMargins, emit]

@[simp] theorem resetLayout_rightTarget : (resetLayout s).m_rightTarget = s.m_rightTarget := by
  simp [resetLayout, modelNode, anchorsRemoveMargin, anchorsRemoveMargins, emit]

@[simp] theorem shapeOf_resetLayout : shapeOf (resetLayout s).model = shapeOf s.model := by
  simp [resetLayout, modelNode, anchorsRemoveMargin, anchorsRemoveMargins]

@[simp] theorem auxiliaryData?_resetLayout :
    auxiliaryData? (resetLayout s).model = auxiliaryData? s.model := by
  simp [resetLayout, modelNode, anchorsRemoveMargin, anchorsRemoveMargins]

end Batch

/-! ### The fill predicate -/

theorem toInt_real_two_fifths : (QVariant.real (2 / 5)).toInt = 0 := by
  show Int.floor ((2 / 5 : ℚ) + 1 / 2) = 0
  rw [Int.floor_eq_iff]
  norm_num

theorem isFilled_iff (s : QmlAnchorBindingProxy) :
    s.isFilled = true ↔
      s.topAnchored = true ∧ s.bottomAnchored = true ∧ s.leftAnchored = true
        ∧ s.rightAnchored = true
        ∧ (instanceValue s.model s.m_qmlItemNode "anchors.topMargin").toInt = 0
        ∧ (instanceValue s.model s.m_qmlItemNode "anchors.bottomMargin").toInt = 0
        ∧ (instanceValue s.model s.m_qmlItemNode "anchors.leftMargin").toInt = 0
        ∧ (instanceValue s.model s.m_qmlItemNode "anchors.rightMargin").toInt = 0 := by
  simp only [isFilled, hasAnchors, instanceHasAnchors, topAnchored, bottomAnchored, leftAnchored,
    rightAnchored, Bool.and_eq_true, Bool.or_eq_true, decide_eq_true_eq]
  tauto

theorem instanceValue_anchorsSetMargin (s : QmlAnchorBindingProxy) (l : AnchorLine) (d : ℚ)
    (h : s.m_qmlItemNode.isSome = true) :
    instanceValue (anchorsSetMargin s.m_qmlItemNode l d s).model s.m_qmlItemNode
      (marginPropertyName l) = QVariant.real d := by
  simp [instanceValue, anchorsSetMargin, h]

/-! ### Stale backups -/

theorem backupAgrees_iff (m : Model) (n : ModelNode) (p : PropertyName) :
    backupAgrees m n p = true ↔
      ∀ v, auxiliaryData? m n (auxDataString ++ p) = some v → rawAttribute m n p = some v := by
  unfold backupAgrees
  cases auxiliaryData? m n (auxDataString ++ p) <;> simp

/-! ### Where backup slots come from -/

section Slots

variable (s : QmlAnchorBindingProxy)

theorem rawAttribute_backupPropertyAndRemove (n n1 : ModelNode) (p q : PropertyName) :
    rawAttribute (backupPropertyAndRemove n p s).model n1 q
      = if n1 = n ∧ q = p then none else rawAttribute s.model n1 q := by
  simp only [rawAttribute, property_backupPropertyAndRemove]
  split_ifs <;> rfl

theorem aux_backup_cases (n0 n : ModelNode) (p k : PropertyName) (w : QVariant)
    (h : auxiliaryData? (backupPropertyAndRemove n0 p s).model n k = some w) :
    auxiliaryData? s.model n k = some w
      ∨ (k = auxDataString ++ p ∧ n = n0 ∧ rawAttribute s.model n0 p = some w) := by
  rw [auxiliaryData?_backupPropertyAndRemove] at h
  split_ifs at h with hc
  · obtain ⟨rfl, rfl⟩ := hc
    rcases hr : rawAttribute s.model n p with _ | v
    · rw [hr] at h
      exact Or.inl h
    · rw [hr] at h
      exact Or.inr ⟨rfl, rfl, by simpa using h⟩
  · exact Or.inl h

theorem aux_backup_mono (n0 n : ModelNode) (p k : PropertyName)
    (h : (auxiliaryData? s.model n k).isSome = true) :
    (auxiliaryData? (backupPropertyAndRemove n0 p s).model n k).isSome = true := by
  rw [auxiliaryData?_backupPropertyAndRemove]
  split_ifs with hc
  · rcases hr : rawAttribute s.model n0 p with _ | v
    · exact h
    · rfl
  · exact h

theorem property_fill_attribute (q : PropertyName)
    (hq : q = "x" ∨ q = "y" ∨ q = "width" ∨ q = "height") :
    property (fill s).model s.m_qmlItemNode q = none := by
  rcases hq with rfl | rfl | rfl | rfl <;>
    simp [fill, modelNode, anchorsRemoveMargin, marginPropertyName,
      property_setVerticalCentered_of_ne, property_setHorizontalCentered_of_ne]

theorem auxiliaryData?_fill :
    auxiliaryData? (fill s).model
      = auxiliaryData? (backupPropertyAndRemove s.m_qmlItemNode "height"
          (backupPropertyAndRemove s.m_qmlItemNode "width"
            (backupPropertyAndRemove s.m_qmlItemNode "y"
              (backupPropertyAndRemove s.m_qmlItemNode "x" s)))).model := by
  simp [fill, modelNode, anchorsRemoveMargin]

@[simp] theorem cacheTopTarget_model : (cacheTopTarget s).model = s.model := by
  unfold cacheTopTarget
  dsimp only
  split_ifs <;> rfl

@[simp] theorem cacheTopTarget_item : (cacheTopTarget s).m_qmlItemNode = s.m_qmlItemNode := by
  unfold cacheTopTarget
  dsimp only
  split_ifs <;> rfl

@[simp] theorem cacheTopTarget_locked : (cacheTopTarget s).m_locked = s.m_locked := by
  unfold cacheTopTarget
  dsimp only
  split_ifs <;> rfl

@[simp] theorem cacheTopTarget_trace : (cacheTopTarget s).trace = s.trace := by
  unfold cacheTopTarget
  dsimp only
  split_ifs <;> rfl

@[simp] theorem cacheBottomTarget_model : (cacheBottomTarget s).model = s.model := by
  unfold cacheBottomTarget
  dsimp only
  split_ifs <;> rfl

@[simp] theorem cacheBottomTarget_item : (cacheBottomTarget s).m_qmlItemNode = s.m_qmlItemNode := by
  unfold cacheBottomTarget
  dsimp only
  split_ifs <;> rfl

@[simp] theorem cacheBottomTarget_locked : (cacheBottomTarget s).m_locked = s.m_locked := by
  unfold cacheBottomTarget
  dsimp only
  split_ifs <;> rfl

@[simp] theorem cacheBottomTarget_trace : (cacheBottomTarget s).trace = s.trace := by
  unfold cacheBottomTarget
  dsimp only
  split_ifs <;> rfl

@[simp] theorem cacheLeftTarget_model : (cacheLeftTarget s).model = s.model := by
  unfold cacheLeftTarget
  dsimp only
  split_ifs <;> rfl

@[simp] theorem cacheLeftTarget_item : (cacheLeftTarget s).m_qmlItemNode = s.m_qmlItemNode := by
  unfold cacheLeftTarget
  dsimp only
  split_ifs <;> rfl

@[simp] theorem cacheLeftTarget_locked : (cacheLeftTarget s).m_locked = s.m_locked := by
  unfold cacheLeftTarget
  dsimp only
  split_ifs <;> rfl

@[simp] theorem cacheLeftTarget_trace : (cacheLeftTarget s).trace = s.trace := by
  unfold cacheLeftTarget
  dsimp only
  split_ifs <;> rfl

@[simp] theorem cacheRightTarget_model : (cacheRightTarget s).model = s.model := by
  unfold cacheRightTarget
  dsimp only
  split_ifs <;> rfl

@[simp] theorem cacheRightTarget_item : (cacheRightTarget s).m_qmlItemNode = s.m_qmlItemNode := by
  unfold cacheRightTarget
  dsimp only
  split_ifs <;> rfl

@[simp] theorem cacheRightTarget_locked : (cacheRightTarget s).m_locked = s.m_locked := by
  unfold cacheRightTarget
  dsimp only
  split_ifs <;> rfl

@[simp] theorem cacheRightTarget_trace : (cacheRightTarget s).trace = s.trace := by
  unfold cacheRightTarget
  dsimp only
  split_ifs <;> rfl

@[simp] theorem cacheVerticalTarget_model : (cacheVerticalTarget s).model = s.model := by
  unfold cacheVerticalTarget
  dsimp only
  split_ifs <;> rfl

@[simp] theorem cacheVerticalTarget_item : (cacheVerticalTarget s).m_qmlItemNode = s.m_qmlItemNode := by
  unfold cacheVerticalTarget
  dsimp only
  split_ifs <;> rfl

@[simp] theorem cacheVerticalTarget_locked : (cacheVerticalTarget s).m_locked = s.m_locked := by
  unfold cacheVerticalTarget
  dsimp only
  split_ifs <;> rfl

@[simp] theorem cacheVerticalTarget_trace : (cacheVerticalTarget s).trace = s.trace := by
  unfold cacheVerticalTarget
  dsimp only
  split_ifs <;> rfl

@[simp] theorem cacheHorizontalTarget_model : (cacheHorizontalTarget s).model = s.model := by
  unfold cacheHorizontalTarget
  dsimp only
  split_ifs <;> rfl

@[simp] theorem cacheHorizontalTarget_item : (cacheHorizontalTarget s).m_qmlItemNode = s.m_qmlItemNode := by
  unfold cacheHorizontalTarget
  dsimp only
  split_ifs <;> rfl

@[simp] theorem cacheHorizontalTarget_locked : (cacheHorizontalTarget s).m_locked = s.m_locked := by
  unfold cacheHorizontalTarget
  dsimp only
  split_ifs <;> rfl

@[simp] theorem cacheHorizontalTarget_trace : (cacheHorizontalTarget s).trace = s.trace := by
  unfold cacheHorizontalTarget
  dsimp only
  split_ifs <;> rfl

@[simp] theorem cacheAnchorTargets_model : (cacheAnchorTargets s).model = s.model := by
  simp [cacheAnchorTargets]

@[simp] theorem cacheAnchorTargets_item :
    (cacheAnchorTargets s).m_qmlItemNode = s.m_qmlItemNode := by
  simp [cacheAnchorTargets]

@[simp] theorem emitTargetSignals_model : (emitTargetSignals s).model = s.model := by
  unfold emitTargetSignals
  split_ifs <;> simp

@[simp] theorem setup_model (n : ModelNode) : (setup n s).model = s.model := by
  unfold setup
  dsimp only
  split_ifs <;> simp [setDefaultAnchorTarget]

@[simp] theorem invalidate_model (n : ModelNode) : (invalidate n s).model = s.model := by
  unfold invalidate
  dsimp only
  split_ifs <;> simp [setDefaultAnchorTarget]

@[simp] theorem auxiliaryData?_setTopTarget (t : ModelNode) :
    auxiliaryData? (setTopTarget t s).model = auxiliaryData? s.model := by
  unfold setTopTarget
  split_ifs <;> simp

@[simp] theorem auxiliaryData?_setBottomTarget (t : ModelNode) :
    auxiliaryData? (setBottomTarget t s).model = auxiliaryData? s.model := by
  unfold setBottomTarget
  split_ifs <;> simp

@[simp] theorem auxiliaryData?_setLeftTarget (t : ModelNode) :
    auxiliaryData? (setLeftTarget t s).model = auxiliaryData? s.model := by
  unfold setLeftTarget
  split_ifs <;> simp

@[simp] theorem auxiliaryData?_setRightTarget (t : ModelNode) :
    auxiliaryData? (setRightTarget t s).model = auxiliaryData? s.model := by
  unfold setRightTarget
  split_ifs <;> simp

@[simp] theorem auxiliaryData?_setVerticalTarget (t : ModelNode) :
    auxiliaryData? (setVerticalTarget t s).model = auxiliaryData? s.model := by
  unfold setVerticalTarget
  dsimp only
  split_ifs <;> simp

@[simp] theorem auxiliaryData?_setHorizontalTarget (t : ModelNode) :
    auxiliaryData? (setHorizontalTarget t s).model = auxiliaryData? s.model := by
  unfold setHorizontalTarget
  dsimp only
  split_ifs <;> simp

theorem rawAttribute_calcTopMargin (n1 : ModelNode) (q : PropertyName)
    (hq : q ≠ "anchors.topMargin") :
    rawAttribute (calcTopMargin s).model n1 q = rawAttribute s.model n1 q := by
  simp [rawAttribute, hq]

theorem aux_step_setTopAnchor (anchor : Bool) (n : ModelNode) (k : PropertyName) (w : QVariant)
    (h : auxiliaryData? (setTopAnchor anchor s).model n k = some w) :
    auxiliaryData? s.model n k = some w ∨ SlotCreated s (setTopAnchor anchor s) n k w := by
  by_cases hparent : hasNodeParent s.model s.m_qmlItemNode = true
  swap
  · rw [setTopAnchor_of_noParent s anchor (by simpa using hparent)] at h
    exact Or.inl h
  by_cases hsame : s.topAnchored = anchor
  · rw [setTopAnchor_of_same s anchor hsame] at h
    exact Or.inl h
  cases anchor with
  | false =>
    rw [setTopAnchor_false_model s hparent (by simpa using hsame)] at h
    exact Or.inl (by simpa using h)
  | true =>
    have hfree : s.topAnchored = false := by simpa using hsame
    have hm := setTopAnchor_true_model s hparent hfree
    unfold SlotCreated
    rw [hm] at h ⊢
    by_cases hb : s.bottomAnchored = true
    · simp only [hb, if_true] at h ⊢
      rcases aux_backup_cases _ _ _ _ _ _ h with h1 | ⟨rfl, rfl, h1⟩
      · rcases aux_backup_cases _ _ _ _ _ _ h1 with h2 | ⟨rfl, rfl, h2⟩
        · exact Or.inl (by simpa using h2)
        · refine Or.inr ⟨"y", by simp, rfl, rfl, ?_, ?_⟩
          · rwa [rawAttribute_calcTopMargin _ _ _ (by decide)] at h2
          · simp [rawAttribute_backupPropertyAndRemove]
      · refine Or.inr ⟨"height", by simp, rfl, rfl, ?_, ?_⟩
        · rw [rawAttribute_backupPropertyAndRemove,
            rawAttribute_calcTopMargin _ _ _ (by decide)] at h1
          simpa using h1
        · simp [rawAttribute_backupPropertyAndRemove]
    · simp only [hb, Bool.false_eq_true, if_false] at h ⊢
      rcases aux_backup_cases _ _ _ _ _ _ h with h2 | ⟨rfl, rfl, h2⟩
      · exact Or.inl (by simpa using h2)
      · refine Or.inr ⟨"y", by simp, rfl, rfl, ?_, ?_⟩
        · rwa [rawAttribute_calcTopMargin _ _ _ (by decide)] at h2
        · simp [rawAttribute_backupPropertyAndRemove]

theorem aux_mono_setTopAnchor (anchor : Bool) (n : ModelNode) (k : PropertyName)
    (h : (auxiliaryData? s.model n k).isSome = true) :
    (auxiliaryData? (setTopAnchor anchor s).model n k).isSome = true := by
  by_cases hparent : hasNodeParent s.model s.m_qmlItemNode = true
  swap
  · rw [setTopAnchor_of_noParent s anchor (by simpa using hparent)]
    exact h
  by_cases hsame : s.topAnchored = anchor
  · rw [setTopAnchor_of_same s anchor hsame]
    exact h
  cases anchor with
  | false =>
    rw [setTopAnchor_false_model s hparent (by simpa using hsame)]
    simpa using h
  | true =>
    have hfree : s.topAnchored = false := by simpa using hsame
    rw [setTopAnchor_true_model s hparent hfree]
    by_cases hb : s.bottomAnchored = true
    · simp only [hb, if_true]
      exact aux_backup_mono _ _ _ _ _ (aux_backup_mono _ _ _ _ _ (by simpa using h))
    · simp only [hb, Bool.false_eq_true, if_false]
      exact aux_backup_mono _ _ _ _ _ (by simpa using h)

theorem rawAttribute_calcLeftMargin (n1 : ModelNode) (q : PropertyName)
    (hq : q ≠ "anchors.leftMargin") :
    rawAttribute (calcLeftMargin s).model n1 q = rawAttribute s.model n1 q := by
  simp [rawAttribute, hq]

theorem aux_step_setLeftAnchor (anchor : Bool) (n : ModelNode) (k : PropertyName) (w : QVariant)
    (h : auxiliaryData? (setLeftAnchor anchor s).model n k = some w) :
    auxiliaryData? s.model n k = some w ∨ SlotCreated s (setLeftAnchor anchor s) n k w := by
  by_cases hparent : hasNodeParent s.model s.m_qmlItemNode = true
  swap
  · rw [setLeftAnchor_of_noParent s anchor (by simpa using hparent)] at h
    exact Or.inl h
  by_cases hsame : s.leftAnchored = anchor
  · rw [setLeftAnchor_of_same s anchor hsame] at h
    exact Or.inl h
  cases anchor with
  | false =>
    rw [setLeftAnchor_false_model s hparent (by simpa using hsame)] at h
    exact Or.inl (by simpa using h)
  | true =>
    have hfree : s.leftAnchored = false := by simpa using hsame
    have hm := setLeftAnchor_true_model s hparent hfree
    unfold SlotCreated
    rw [hm] at h ⊢
    by_cases hb : s.rightAnchored = true
    · simp only [hb, if_true] at h ⊢
      rcases aux_backup_cases _ _ _ _ _ _ h with h1 | ⟨rfl, rfl, h1⟩
      · rcases aux_backup_cases _ _ _ _ _ _ h1 with h2 | ⟨rfl, rfl, h2⟩
        · exact Or.inl (by simpa using h2)
        · refine Or.inr ⟨"x", by simp, rfl, rfl, ?_, ?_⟩
          · rwa [rawAttribute_calcLeftMargin _ _ _ (by decide)] at h2
          · simp [rawAttribute_backupPropertyAndRemove]
      · refine Or.inr ⟨"width", by simp, rfl, rfl, ?_, ?_⟩
        · rw [rawAttribute_backupPropertyAndRemove,
            rawAttribute_calcLeftMargin _ _ _ (by decide)] at h1
          simpa using h1
        · simp [rawAttribute_backupPropertyAndRemove]
    · simp only [hb, Bool.false_eq_true, if_false] at h ⊢
      rcases aux_backup_cases _ _ _ _ _ _ h with h2 | ⟨rfl, rfl, h2⟩
      · exact Or.inl (by simpa using h2)
      · refine Or.inr ⟨"x", by simp, rfl, rfl, ?_, ?_⟩
        · rwa [rawAttribute_calcLeftMargin _ _ _ (by decide)] at h2
        · simp [rawAttribute_backupPropertyAndRemove]

theorem aux_mono_setLeftAnchor (anchor : Bool) (n : ModelNode) (k : PropertyName)
    (h : (auxiliaryData? s.model n k).isSome = true) :
    (auxiliaryData? (setLeftAnchor anchor s).model n k).isSome = true := by
  by_cases hparent : hasNodeParent s.model s.m_qmlItemNode = true
  swap
  · rw [setLeftAnchor_of_noParent s anchor (by simpa using hparent)]
    exact h
  by_cases hsame : s.leftAnchored = anchor
  · rw [setLeftAnchor_of_same s anchor hsame]
    exact h
  cases anchor with
  | false =>
    rw [setLeftAnchor_false_model s hparent (by simpa using hsame)]
    simpa using h
  | true =>
    have hfree : s.leftAnchored = false := by simpa using hsame
    rw [setLeftAnchor_true_model s hparent hfree]
    by_cases hb : s.rightAnchored = true
    · simp only [hb, if_true]
      exact aux_backup_mono _ _ _ _ _ (aux_backup_mono _ _ _ _ _ (by simpa using h))
    · simp only [hb, Bool.false_eq_true, if_false]
      exact aux_backup_mono _ _ _ _ _ (by simpa using h)

theorem rawAttribute_calcBottomMargin (n1 : ModelNode) (q : PropertyName)
    (hq : q ≠ "anchors.bottomMargin") :
    rawAttribute (calcBottomMargin s).model n1 q = rawAttribute s.model n1 q := by
  simp [rawAttribute, hq]

theorem aux_step_setBottomAnchor (anchor : Bool) (n : ModelNode) (k : PropertyName) (w : QVariant)
    (h : auxiliaryData? (setBottomAnchor anchor s).model n k = some w) :
    auxiliaryData? s.model n k = some w ∨ SlotCreated s (setBottomAnchor anchor s) n k w := by
  by_cases hparent : hasNodeParent s.model s.m_qmlItemNode = true
  swap
  · rw [setBottomAnchor_of_noParent s anchor (by simpa using hparent)] at h
    exact Or.inl h
  by_cases hsame : s.bottomAnchored = anchor
  · rw [setBottomAnchor_of_same s anchor hsame] at h
    exact Or.inl h
  cases anchor with
  | false =>
    rw [setBottomAnchor_false_model s hparent (by simpa using hsame)] at h
    exact Or.inl (by simpa using h)
  | true =>
    have hfree : s.bottomAnchored = false := by simpa using hsame
    have hm := setBottomAnchor_true_model s hparent hfree
    unfold SlotCreated
    rw [hm] at h ⊢
    by_cases hb : s.topAnchored = true
    · simp only [hb, if_true] at h ⊢
      rcases aux_backup_cases _ _ _ _ _ _ h with h2 | ⟨rfl, rfl, h2⟩
      · exact Or.inl (by simpa using h2)
      · refine Or.inr ⟨"height", by simp, rfl, rfl, ?_, ?_⟩
        · rwa [rawAttribute_calcBottomMargin _ _ _ (by decide)] at h2
        · simp [rawAttribute_backupPropertyAndRemove]
    · simp only [hb, Bool.false_eq_true, if_false] at h ⊢
      exact Or.inl (by simpa using h)

theorem aux_mono_setBottomAnchor (anchor : Bool) (n : ModelNode) (k : PropertyName)
    (h : (auxiliaryData? s.model n k).isSome = true) :
    (auxiliaryData? (setBottomAnchor anchor s).model n k).isSome = true := by
  by_cases hparent : hasNodeParent s.model s.m_qmlItemNode = true
  swap
  · rw [setBottomAnchor_of_noParent s anchor (by simpa using hparent)]
    exact h
  by_cases hsame : s.bottomAnchored = anchor
  · rw [setBottomAnchor_of_same s anchor hsame]
    exact h
  cases anchor with
  | false =>
    rw [setBottomAnchor_false_model s hparent (by simpa using hsame)]
    simpa using h
  | true =>
    have hfree : s.bottomAnchored = false := by simpa using hsame
    rw [setBottomAnchor_true_model s hparent hfree]
    by_cases hb : s.topAnchored = true
    · simp only [hb, if_true]
      exact aux_backup_mono _ _ _ _ _ (by simpa using h)
    · simp only [hb, Bool.false_eq_true, if_false]
      simpa using h

theorem rawAttribute_calcRightMargin (n1 : ModelNode) (q : PropertyName)
    (hq : q ≠ "anchors.rightMargin") :
    rawAttribute (calcRightMargin s).model n1 q = rawAttribute s.model n1 q := by
  simp [rawAttribute, hq]

theorem aux_step_setRightAnchor (anchor : Bool) (n : ModelNode) (k : PropertyName) (w : QVariant)
    (h : auxiliaryData? (setRightAnchor anchor s).model n k = some w) :
    auxiliaryData? s.model n k = some w ∨ SlotCreated s (setRightAnchor anchor s) n k w := by
  by_cases hparent : hasNodeParent s.model s.m_qmlItemNode = true
  swap
  · rw [setRightAnchor_of_noParent s anchor (by simpa using hparent)] at h
    exact Or.inl h
  by_cases hsame : s.rightAnchored = anchor
  · rw [setRightAnchor_of_same s anchor hsame] at h
    exact Or.inl h
  cases anchor with
  | false =>
    rw [setRightAnchor_false_model s hparent (by simpa using hsame)] at h
    exact Or.inl (by simpa using h)
  | true =>
    have hfree : s.rightAnchored = false := by simpa using hsame
    have hm := setRightAnchor_true_model s hparent hfree
    unfold SlotCreated
    rw [hm] at h ⊢
    by_cases hb : s.leftAnchored = true
    · simp only [hb, if_true] at h ⊢
      rcases aux_backup_cases _ _ _ _ _ _ h with h2 | ⟨rfl, rfl, h2⟩
      · exact Or.inl (by simpa using h2)
      · refine Or.inr ⟨"width", by simp, rfl, rfl, ?_, ?_⟩
        · rwa [rawAttribute_calcRightMargin _ _ _ (by decide)] at h2
        · simp [rawAttribute_backupPropertyAndRemove]
    · simp only [hb, Bool.false_eq_true, if_false] at h ⊢
      exact Or.inl (by simpa using h)

theorem aux_mono_setRightAnchor (anchor : Bool) (n : ModelNode) (k : PropertyName)
    (h : (auxiliaryData? s.model n k).isSome = true) :
    (auxiliaryData? (setRightAnchor anchor s).model n k).isSome = true := by
  by_cases hparent : hasNodeParent s.model s.m_qmlItemNode = true
  swap
  · rw [setRightAnchor_of_noParent s anchor (by simpa using hparent)]
    exact h
  by_cases hsame : s.rightAnchored = anchor
  · rw [setRightAnchor_of_same s anchor hsame]
    exact h
  cases anchor with
  | false =>
    rw [setRightAnchor_false_model s hparent (by simpa using hsame)]
    simpa using h
  | true =>
    have hfree : s.rightAnchored = false := by simpa using hsame
    rw [setRightAnchor_true_model s hparent hfree]
    by_cases hb : s.leftAnchored = true
    · simp only [hb, if_true]
      exact aux_backup_mono _ _ _ _ _ (by simpa using h)
    · simp only [hb, Bool.false_eq_true, if_false]
      simpa using h

theorem aux_step_fill (n : ModelNode) (k : PropertyName) (w : QVariant)
    (h : auxiliaryData? (fill s).model n k = some w) :
    auxiliaryData? s.model n k = some w ∨ SlotCreated s (fill s) n k w := by
  have hnone : ∀ q, (q = "x" ∨ q = "y" ∨ q = "width" ∨ q = "height") →
      rawAttribute (fill s).model s.m_qmlItemNode q = none := by
    intro q hq
    simp [rawAttribute, property_fill_attribute s q hq]
  rw [auxiliaryData?_fill] at h
  unfold SlotCreated
  rcases aux_backup_cases _ _ _ _ _ _ h with h1 | ⟨rfl, rfl, h1⟩
  · rcases aux_backup_cases _ _ _ _ _ _ h1 with h2 | ⟨rfl, rfl, h2⟩
    · rcases aux_backup_cases _ _ _ _ _ _ h2 with h3 | ⟨rfl, rfl, h3⟩
      · rcases aux_backup_cases _ _ _ _ _ _ h3 with h4 | ⟨rfl, rfl, h4⟩
        · exact Or.inl h4
        · exact Or.inr ⟨"x", by simp, rfl, rfl, h4, hnone _ (by simp)⟩
      · refine Or.inr ⟨"y", by simp, rfl, rfl, ?_, hnone _ (by simp)⟩
        simpa [rawAttribute_backupPropertyAndRemove] using h3
    · refine Or.inr ⟨"width", by simp, rfl, rfl, ?_, hnone _ (by simp)⟩
      simpa [rawAttribute_backupPropertyAndRemove] using h2
  · refine Or.inr ⟨"height", by simp, rfl, rfl, ?_, hnone _ (by simp)⟩
    simpa [rawAttribute_backupPropertyAndRemove] using h1

theorem aux_mono_fill (n : ModelNode) (k : PropertyName)
    (h : (auxiliaryData? s.model n k).isSome = true) :
    (auxiliaryData? (fill s).model n k).isSome = true := by
  rw [auxiliaryData?_fill]
  exact aux_backup_mono _ _ _ _ _ (aux_backup_mono _ _ _ _ _
    (aux_backup_mono _ _ _ _ _ (aux_backup_mono _ _ _ _ _ h)))

theorem aux_step (o : Operation) (n : ModelNode) (k : PropertyName) (w : QVariant)
    (h : auxiliaryData? (o.apply s).model n k = some w) :
    auxiliaryData? s.model n k = some w ∨ SlotCreated s (o.apply s) n k w := by
  cases o with
  | setTopAnchor b => exact aux_step_setTopAnchor s b n k w h
  | setBottomAnchor b => exact aux_step_setBottomAnchor s b n k w h
  | setLeftAnchor b => exact aux_step_setLeftAnchor s b n k w h
  | setRightAnchor b => exact aux_step_setRightAnchor s b n k w h
  | fill => exact aux_step_fill s n k w h
  | _ => exact Or.inl (by simpa [Operation.apply] using h)

theorem aux_mono (o : Operation) (n : ModelNode) (k : PropertyName)
    (h : (auxiliaryData? s.model n k).isSome = true) :
    (auxiliaryData? (o.apply s).model n k).isSome = true := by
  cases o with
  | setTopAnchor b => exact aux_mono_setTopAnchor s b n k h
  | setBottomAnchor b => exact aux_mono_setBottomAnchor s b n k h
  | setLeftAnchor b => exact aux_mono_setLeftAnchor s b n k h
  | setRightAnchor b => exact aux_mono_setRightAnchor s b n k h
  | fill => exact aux_mono_fill s n k h
  | _ => simpa [Operation.apply] using h

theorem aux_mono_run (ops : List Operation) (n : ModelNode) (k : PropertyName)
    (h : (auxiliaryData? s.model n k).isSome = true) :
    (auxiliaryData? (run ops s).model n k).isSome = true := by
  induction ops generalizing s with
  | nil => exact h
  | cons o rest ih => exact ih (o.apply s) (aux_mono s o n k h)

end Slots

/-! ### Binding the proxy to an item -/

section Bind

variable (s : QmlAnchorBindingProxy)

@[simp] theorem emit_topTarget (sig : Signal) : (emit sig s).m_topTarget = s.m_topTarget := rfl

@[simp] theorem emitTargetSignals_topTarget :
    (emitTargetSignals s).m_topTarget = s.m_topTarget := by
  unfold emitTargetSignals
  split_ifs <;> simp

@[simp] theorem emit_bottomTarget (sig : Signal) : (emit sig s).m_bottomTarget = s.m_bottomTarget := rfl

@[simp] theorem emitTargetSignals_bottomTarget :
    (emitTargetSignals s).m_bottomTarget = s.m_bottomTarget := by
  unfold emitTargetSignals
  split_ifs <;> simp

@[simp] theorem emit_leftTarget (sig : Signal) : (emit sig s).m_leftTarget = s.m_leftTarget := rfl

@[simp] theorem emitTargetSignals_leftTarget :
    (emitTargetSignals s).m_leftTarget = s.m_leftTarget := by
  unfold emitTargetSignals
  split_ifs <;> simp

@[simp] theorem emit_rightTarget (sig : Signal) : (emit sig s).m_rightTarget = s.m_rightTarget := rfl

@[simp] theorem emitTargetSignals_rightTarget :
    (emitTargetSignals s).m_rightTarget = s.m_rightTarget := by
  unfold emitTargetSignals
  split_ifs <;> simp

@[simp] theorem emit_verticalTarget (sig : Signal) : (emit sig s).m_verticalTarget = s.m_verticalTarget := rfl

@[simp] theorem emitTargetSignals_verticalTarget :
    (emitTargetSignals s).m_verticalTarget = s.m_verticalTarget := by
  unfold emitTargetSignals
  split_ifs <;> simp

@[simp] theorem emit_horizontalTarget (sig : Signal) : (emit sig s).m_horizontalTarget = s.m_horizontalTarget := rfl

@[simp] theorem emitTargetSignals_horizontalTarget :
    (emitTargetSignals s).m_horizontalTarget = s.m_horizontalTarget := by
  unfold emitTargetSignals
  split_ifs <;> simp

@[simp] theorem emitTargetSignals_item :
    (emitTargetSignals s).m_qmlItemNode = s.m_qmlItemNode := by
  unfold emitTargetSignals
  split_ifs <;> simp

@[simp] theorem emitTargetSignals_locked :
    (emitTargetSignals s).m_locked = s.m_locked := by
  unfold emitTargetSignals
  split_ifs <;> simp

theorem cacheTopTarget_topTarget :
    (cacheTopTarget s).m_topTarget
      = (if instanceHasAnchor s.model s.m_qmlItemNode .Top = true
            ∧ isValid (instanceAnchorTarget s.model s.m_qmlItemNode .Top) = true then
          instanceAnchorTarget s.model s.m_qmlItemNode .Top
        else s.m_topTarget) := by
  have hv : isValid (instanceAnchorTarget s.model s.m_qmlItemNode .Top) = true →
      isValid s.m_qmlItemNode = true := by
    cases s.m_qmlItemNode <;> simp [instanceAnchorTarget, instanceAnchor, isValid]
  unfold cacheTopTarget topAnchored
  dsimp only
  split_ifs <;> simp_all

@[simp] theorem cacheTopTarget_bottomTarget : (cacheTopTarget s).m_bottomTarget = s.m_bottomTarget := by
  unfold cacheTopTarget
  dsimp only
  split_ifs <;> rfl

@[simp] theorem cacheTopTarget_leftTarget : (cacheTopTarget s).m_leftTarget = s.m_leftTarget := by
  unfold cacheTopTarget
  dsimp only
  split_ifs <;> rfl

@[simp] theorem cacheTopTarget_rightTarget : (cacheTopTarget s).m_rightTarget = s.m_rightTarget := by
  unfold cacheTopTarget
  dsimp only
  split_ifs <;> rfl

@[simp] theorem cacheTopTarget_verticalTarget : (cacheTopTarget s).m_verticalTarget = s.m_verticalTarget := by
  unfold cacheTopTarget
  dsimp only
  split_ifs <;> rfl

@[simp] theorem cacheTopTarget_horizontalTarget : (cacheTopTarget s).m_horizontalTarget = s.m_horizontalTarget := by
  unfold cacheTopTarget
  dsimp only
  split_ifs <;> rfl

@[simp] theorem cacheBottomTarget_topTarget : (cacheBottomTarget s).m_topTarget = s.m_topTarget := by
  unfold cacheBottomTarget
  dsimp only
  split_ifs <;> rfl

theorem cacheBottomTarget_bottomTarget :
    (cacheBottomTarget s).m_bottomTarget
      = (if instanceHasAnchor s.model s.m_qmlItemNode .Bottom = true
            ∧ isValid (instanceAnchorTarget s.model s.m_qmlItemNode .Bottom) = true then
          instanceAnchorTarget s.model s.m_qmlItemNode .Bottom
        else s.m_bottomTarget) := by
  have hv : isValid (instanceAnchorTarget s.model s.m_qmlItemNode .Bottom) = true →
      isValid s.m_qmlItemNode = true := by
    cases s.m_qmlItemNode <;> simp [instanceAnchorTarget, instanceAnchor, isValid]
  unfold cacheBottomTarget bottomAnchored
  dsimp only
  split_ifs <;> simp_all

@[simp] theorem cacheBottomTarget_leftTarget : (cacheBottomTarget s).m_leftTarget = s.m_leftTarget := by
  unfold cacheBottomTarget
  dsimp only
  split_ifs <;> rfl

@[simp] theorem cacheBottomTarget_rightTarget : (cacheBottomTarget s).m_rightTarget = s.m_rightTarget := by
  unfold cacheBottomTarget
  dsimp only
  split_ifs <;> rfl

@[simp] theorem cacheBottomTarget_verticalTarget : (cacheBottomTarget s).m_verticalTarget = s.m_verticalTarget := by
  unfold cacheBottomTarget
  dsimp only
  split_ifs <;> rfl

@[simp] theorem cacheBottomTarget_horizontalTarget : (cacheBottomTarget s).m_horizontalTarget = s.m_horizontalTarget := by
  unfold cacheBottomTarget
  dsimp only
  split_ifs <;> rfl

@[simp] theorem cacheLeftTarget_topTarget : (cacheLeftTarget s).m_topTarget = s.m_topTarget := by
  unfold cacheLeftTarget
  dsimp only
  split_ifs <;> rfl

@[simp] theorem cacheLeftTarget_bottomTarget : (cacheLeftTarget s).m_bottomTarget = s.m_bottomTarget := by
  unfold cacheLeftTarget
  dsimp only
  split_ifs <;> rfl

theorem cacheLeftTarget_leftTarget :
    (cacheLeftTarget s).m_leftTarget
      = (if instanceHasAnchor s.model s.m_qmlItemNode .Left = true
            ∧ isValid (instanceAnchorTarget s.model s.m_qmlItemNode .Left) = true then
          instanceAnchorTarget s.model s.m_qmlItemNode .Left
        else s.m_leftTarget) := by
  have hv : isValid (instanceAnchorTarget s.model s.m_qmlItemNode .Left) = true →
      isValid s.m_qmlItemNode = true := by
    cases s.m_qmlItemNode <;> simp [instanceAnchorTarget, instanceAnchor, isValid]
  unfold cacheLeftTarget leftAnchored
  dsimp only
  split_ifs <;> simp_all

@[simp] theorem cacheLeftTarget_rightTarget : (cacheLeftTarget s).m_rightTarget = s.m_rightTarget := by
  unfold cacheLeftTarget
  dsimp only
  split_ifs <;> rfl

@[simp] theorem cacheLeftTarget_verticalTarget : (cacheLeftTarget s).m_verticalTarget = s.m_verticalTarget := by
  unfold cacheLeftTarget
  dsimp only
  split_ifs <;> rfl

@[simp] theorem cacheLeftTarget_horizontalTarget : (cacheLeftTarget s).m_horizontalTarget = s.m_horizontalTarget := by
  unfold cacheLeftTarget
  dsimp only
  split_ifs <;> rfl

@[simp] theorem cacheRightTarget_topTarget : (cacheRightTarget s).m_topTarget = s.m_topTarget := by
  unfold cacheRightTarget
  dsimp only
  split_ifs <;> rfl

@[simp] theorem cacheRightTarget_bottomTarget : (cacheRightTarget s).m_bottomTarget = s.m_bottomTarget := by
  unfold cacheRightTarget
  dsimp only
  split_ifs <;> rfl

@[simp] theorem cacheRightTarget_leftTarget : (cacheRightTarget s).m_leftTarget = s.m_leftTarget := by
  unfold cacheRightTarget
  dsimp only
  split_ifs <;> rfl

theorem cacheRightTarget_rightTarget :
    (cacheRightTarget s).m_rightTarget
      = (if instanceHasAnchor s.model s.m_qmlItemNode .Right = true
            ∧ isValid (instanceAnchorTarget s.model s.m_qmlItemNode .Right) = true then
          instanceAnchorTarget s.model s.m_qmlItemNode .Right
        else s.m_rightTarget) := by
  have hv : isValid (instanceAnchorTarget s.model s.m_qmlItemNode .Right) = true →
      isValid s.m_qmlItemNode = true := by
    cases s.m_qmlItemNode <;> simp [instanceAnchorTarget, instanceAnchor, isValid]
  unfold cacheRightTarget rightAnchored
  dsimp only
  split_ifs <;> simp_all

@[simp] theorem cacheRightTarget_verticalTarget : (cacheRightTarget s).m_verticalTarget = s.m_verticalTarget := by
  unfold cacheRightTarget
  dsimp only
  split_ifs <;> rfl

@[simp] theorem cacheRightTarget_horizontalTarget : (cacheRightTarget s).m_horizontalTarget = s.m_horizontalTarget := by
  unfold cacheRightTarget
  dsimp only
  split_ifs <;> rfl

@[simp] theorem cacheVerticalTarget_topTarget : (cacheVerticalTarget s).m_topTarget = s.m_topTarget := by
  unfold cacheVerticalTarget
  dsimp only
  split_ifs <;> rfl

@[simp] theorem cacheVerticalTarget_bottomTarget : (cacheVerticalTarget s).m_bottomTarget = s.m_bottomTarget := by
  unfold cacheVerticalTarget
  dsimp only
  split_ifs <;> rfl

@[simp] theorem cacheVerticalTarget_leftTarget : (cacheVerticalTarget s).m_leftTarget = s.m_leftTarget := by
  unfold cacheVerticalTarget
  dsimp only
  split_ifs <;> rfl

@[simp] theorem cacheVerticalTarget_rightTarget : (cacheVerticalTarget s).m_rightTarget = s.m_rightTarget := by
  unfold cacheVerticalTarget
  dsimp only
  split_ifs <;> rfl

theorem cacheVerticalTarget_verticalTarget :
    (cacheVerticalTarget s).m_verticalTarget
      = (if instanceHasAnchor s.model s.m_qmlItemNode .VerticalCenter = true
            ∧ isValid (instanceAnchorTarget s.model s.m_qmlItemNode .VerticalCenter) = true then
          instanceAnchorTarget s.model s.m_qmlItemNode .VerticalCenter
        else s.m_verticalTarget) := by
  have hv : isValid (instanceAnchorTarget s.model s.m_qmlItemNode .VerticalCenter) = true →
      isValid s.m_qmlItemNode = true := by
    cases s.m_qmlItemNode <;> simp [instanceAnchorTarget, instanceAnchor, isValid]
  unfold cacheVerticalTarget verticalCentered
  dsimp only
  split_ifs <;> simp_all

@[simp] theorem cacheVerticalTarget_horizontalTarget : (cacheVerticalTarget s).m_horizontalTarget = s.m_horizontalTarget := by
  unfold cacheVerticalTarget
  dsimp only
  split_ifs <;> rfl

@[simp] theorem cacheHorizontalTarget_topTarget : (cacheHorizontalTarget s).m_topTarget = s.m_topTarget := by
  unfold cacheHorizontalTarget
  dsimp only
  split_ifs <;> rfl

@[simp] theorem cacheHorizontalTarget_bottomTarget : (cacheHorizontalTarget s).m_bottomTarget = s.m_bottomTarget := by
  unfold cacheHorizontalTarget
  dsimp only
  split_ifs <;> rfl

@[simp] theorem cacheHorizontalTarget_leftTarget : (cacheHorizontalTarget s).m_leftTarget = s.m_leftTarget := by
  unfold cacheHorizontalTarget
  dsimp only
  split_ifs <;> rfl

@[simp] theorem cacheHorizontalTarget_rightTarget : (cacheHorizontalTarget s).m_rightTarget = s.m_rightTarget := by
  unfold cacheHorizontalTarget
  dsimp only
  split_ifs <;> rfl

@[simp] theorem cacheHorizontalTarget_verticalTarget : (cacheHorizontalTarget s).m_verticalTarget = s.m_verticalTarget := by
  unfold cacheHorizontalTarget
  dsimp only
  split_ifs <;> rfl

theorem cacheHorizontalTarget_horizontalTarget :
    (cacheHorizontalTarget s).m_horizontalTarget
      = (if instanceHasAnchor s.model s.m_qmlItemNode .HorizontalCenter = true
            ∧ isValid (instanceAnchorTarget s.model s.m_qmlItemNode .HorizontalCenter) = true then
          instanceAnchorTarget s.model s.m_qmlItemNode .HorizontalCenter
        else s.m_horizontalTarget) := by
  have hv : isValid (instanceAnchorTarget s.model s.m_qmlItemNode .HorizontalCenter) = true →
      isValid s.m_qmlItemNode = true := by
    cases s.m_qmlItemNode <;> simp [instanceAnchorTarget, instanceAnchor, isValid]
  unfold cacheHorizontalTarget horizontalCentered
  dsimp only
  split_ifs <;> simp_all

@[simp] theorem cacheAnchorTargets_locked : (cacheAnchorTargets s).m_locked = s.m_locked := by
  simp [cacheAnchorTargets]

@[simp] theorem cacheAnchorTargets_trace : (cacheAnchorTargets s).trace = s.trace := by
  simp [cacheAnchorTargets]

theorem cacheAnchorTargets_topTarget :
    (cacheAnchorTargets s).m_topTarget
      = (if instanceHasAnchor s.model s.m_qmlItemNode .Top = true
            ∧ isValid (instanceAnchorTarget s.model s.m_qmlItemNode .Top) = true then
          instanceAnchorTarget s.model s.m_qmlItemNode .Top
        else s.m_topTarget) := by
  simp [cacheAnchorTargets, cacheTopTarget_topTarget]

theorem setup_topTarget (n : ModelNode) :
    (setup n s).m_topTarget
      = (if instanceHasAnchor s.model n .Top = true
            ∧ isValid (instanceAnchorTarget s.model n .Top) = true then
          instanceAnchorTarget s.model n .Top
        else parentModelNode s.model n) := by
  have hp : hasNodeParent s.model n = false → parentModelNode s.model n = none := by
    simp [hasNodeParent]
  unfold setup
  dsimp only
  split_ifs with h1 <;>
    simp_all [cacheAnchorTargets_topTarget, setDefaultAnchorTarget]

theorem cacheAnchorTargets_bottomTarget :
    (cacheAnchorTargets s).m_bottomTarget
      = (if instanceHasAnchor s.model s.m_qmlItemNode .Bottom = true
            ∧ isValid (instanceAnchorTarget s.model s.m_qmlItemNode .Bottom) = true then
          instanceAnchorTarget s.model s.m_qmlItemNode .Bottom
        else s.m_bottomTarget) := by
  simp [cacheAnchorTargets, cacheBottomTarget_bottomTarget]

theorem setup_bottomTarget (n : ModelNode) :
    (setup n s).m_bottomTarget
      = (if instanceHasAnchor s.model n .Bottom = true
            ∧ isValid (instanceAnchorTarget s.model n .Bottom) = true then
          instanceAnchorTarget s.model n .Bottom
        else parentModelNode s.model n) := by
  have hp : hasNodeParent s.model n = false → parentModelNode s.model n = none := by
    simp [hasNodeParent]
  unfold setup
  dsimp only
  split_ifs with h1 <;>
    simp_all [cacheAnchorTargets_bottomTarget, setDefaultAnchorTarget]

theorem cacheAnchorTargets_leftTarget :
    (cacheAnchorTargets s).m_leftTarget
      = (if instanceHasAnchor s.model s.m_qmlItemNode .Left = true
            ∧ isValid (instanceAnchorTarget s.model s.m_qmlItemNode .Left) = true then
          instanceAnchorTarget s.model s.m_qmlItemNode .Left
        else s.m_leftTarget) := by
  simp [cacheAnchorTargets, cacheLeftTarget_leftTarget]

theorem setup_leftTarget (n : ModelNode) :
    (setup n s).m_leftTarget
      = (if instanceHasAnchor s.model n .Left = true
            ∧ isValid (instanceAnchorTarget s.model n .Left) = true then
          instanceAnchorTarget s.model n .Left
        else parentModelNode s.model n) := by
  have hp : hasNodeParent s.model n = false → parentModelNode s.model n = none := by
    simp [hasNodeParent]
  unfold setup
  dsimp only
  split_ifs with h1 <;>
    simp_all [cacheAnchorTargets_leftTarget, setDefaultAnchorTarget]

theorem cacheAnchorTargets_rightTarget :
    (cacheAnchorTargets s).m_rightTarget
      = (if instanceHasAnchor s.model s.m_qmlItemNode .Right = true
            ∧ isValid (instanceAnchorTarget s.model s.m_qmlItemNode .Right) = true then
          instanceAnchorTarget s.model s.m_qmlItemNode .Right
        else s.m_rightTarget) := by
  simp [cacheAnchorTargets, cacheRightTarget_rightTarget]

theorem setup_rightTarget (n : ModelNode) :
    (setup n s).m_rightTarget
      = (if instanceHasAnchor s.model n .Right = true
            ∧ isValid (instanceAnchorTarget s.model n .Right) = true then
          instanceAnchorTarget s.model n .Right
        else parentModelNode s.model n) := by
  have hp : hasNodeParent s.model n = false → parentModelNode s.model n = none := by
    simp [hasNodeParent]
  unfold setup
  dsimp only
  split_ifs with h1 <;>
    simp_all [cacheAnchorTargets_rightTarget, setDefaultAnchorTarget]

theorem cacheAnchorTargets_verticalTarget :
    (cacheAnchorTargets s).m_verticalTarget
      = (if instanceHasAnchor s.model s.m_qmlItemNode .VerticalCenter = true
            ∧ isValid (instanceAnchorTarget s.model s.m_qmlItemNode .VerticalCenter) = true then
          instanceAnchorTarget s.model s.m_qmlItemNode .VerticalCenter
        else s.m_verticalTarget) := by
  simp [cacheAnchorTargets, cacheVerticalTarget_verticalTarget]

theorem setup_verticalTarget (n : ModelNode) :
    (setup n s).m_verticalTarget
      = (if instanceHasAnchor s.model n .VerticalCenter = true
            ∧ isValid (instanceAnchorTarget s.model n .VerticalCenter) = true then
          instanceAnchorTarget s.model n .VerticalCenter
        else parentModelNode s.model n) := by
  have hp : hasNodeParent s.model n = false → parentModelNode s.model n = none := by
    simp [hasNodeParent]
  unfold setup
  dsimp only
  split_ifs with h1 <;>
    simp_all [cacheAnchorTargets_verticalTarget, setDefaultAnchorTarget]

theorem cacheAnchorTargets_horizontalTarget :
    (cacheAnchorTargets s).m_horizontalTarget
      = (if instanceHasAnchor s.model s.m_qmlItemNode .HorizontalCenter = true
            ∧ isValid (instanceAnchorTarget s.model s.m_qmlItemNode .HorizontalCenter) = true then
          instanceAnchorTarget s.model s.m_qmlItemNode .HorizontalCenter
        else s.m_horizontalTarget) := by
  simp [cacheAnchorTargets, cacheHorizontalTarget_horizontalTarget]

theorem setup_horizontalTarget (n : ModelNode) :
    (setup n s).m_horizontalTarget
      = (if instanceHasAnchor s.model n .HorizontalCenter = true
            ∧ isValid (instanceAnchorTarget s.model n .HorizontalCenter) = true then
          instanceAnchorTarget s.model n .HorizontalCenter
        else parentModelNode s.model n) := by
  have hp : hasNodeParent s.model n = false → parentModelNode s.model n = none := by
    simp [hasNodeParent]
  unfold setup
  dsimp only
  split_ifs with h1 <;>
    simp_all [cacheAnchorTargets_horizontalTarget, setDefaultAnchorTarget]

@[simp] theorem setup_item (n : ModelNode) : (setup n s).m_qmlItemNode = n := by
  unfold setup
  dsimp only
  split_ifs <;> simp [setDefaultAnchorTarget]

@[simp] theorem setup_locked (n : ModelNode) : (setup n s).m_locked = s.m_locked := by
  unfold setup
  dsimp only
  split_ifs <;> simp [setDefaultAnchorTarget]

theorem writeGuards_emit (sig : Signal) : (emit sig s).writeGuards = s.writeGuards := by
  simp [writeGuards, emit]

theorem writeGuards_of_trace {s t : QmlAnchorBindingProxy} (h : t.trace = s.trace) :
    t.writeGuards = s.writeGuards := by
  simp [writeGuards, h]

theorem writeGuards_emitTargetSignals :
    (emitTargetSignals s).writeGuards = s.writeGuards := by
  unfold emitTargetSignals
  split_ifs <;> simp [writeGuards_emit]

theorem writeGuards_setup (n : ModelNode) : (setup n s).writeGuards = s.writeGuards := by
  unfold setup
  dsimp only
  split_ifs <;>
    simp [writeGuards_emitTargetSignals, writeGuards_emit] <;>
    exact writeGuards_of_trace (by simp [setDefaultAnchorTarget])

end Bind

/-! ### The state after fill and after reset -/

section FillReset

variable (s : QmlAnchorBindingProxy)

theorem instanceAnchor_setVerticalCentered_false
    (hparent : hasNodeParent s.model s.m_qmlItemNode = true) :
    instanceAnchor (setVerticalCentered false s).model s.m_qmlItemNode .VerticalCenter = none := by
  have hsome := isSome_of_hasNodeParent hparent
  by_cases h2 : s.verticalCentered = false
  · rw [show setVerticalCentered false s = s from by simp [setVerticalCentered, h2]]
    simpa [verticalCentered, isValid, hsome, instanceHasAnchor] using h2
  · simp [setVerticalCentered, hparent, h2, anchorsRemoveMargin]

theorem instanceAnchor_setHorizontalCentered_false
    (hparent : hasNodeParent s.model s.m_qmlItemNode = true) :
    instanceAnchor (setHorizontalCentered false s).model s.m_qmlItemNode .HorizontalCenter
      = none := by
  have hsome := isSome_of_hasNodeParent hparent
  by_cases h2 : s.horizontalCentered = false
  · rw [show setHorizontalCentered false s = s from by simp [setHorizontalCentered, h2]]
    simpa [horizontalCentered, isValid, hsome, instanceHasAnchor] using h2
  · simp [setHorizontalCentered, hparent, h2, anchorsRemoveMargin]

theorem instanceAnchor_fill (hparent : hasNodeParent s.model s.m_qmlItemNode = true)
    (l : AnchorLine) :
    instanceAnchor (fill s).model s.m_qmlItemNode l
      = (match l with
          | .Top => some ⟨parentModelNode s.model s.m_qmlItemNode, .Top⟩
          | .Bottom => some ⟨parentModelNode s.model s.m_qmlItemNode, .Bottom⟩
          | .Left => some ⟨parentModelNode s.model s.m_qmlItemNode, .Left⟩
          | .Right => some ⟨parentModelNode s.model s.m_qmlItemNode, .Right⟩
          | .VerticalCenter => none
          | .HorizontalCenter => none) := by
  have hsome := isSome_of_hasNodeParent hparent
  have hp5 : hasNodeParent
      (anchorsFill s.m_qmlItemNode
        (backupPropertyAndRemove s.m_qmlItemNode "height"
          (backupPropertyAndRemove s.m_qmlItemNode "width"
            (backupPropertyAndRemove s.m_qmlItemNode "y"
              (backupPropertyAndRemove s.m_qmlItemNode "x" s))))).model s.m_qmlItemNode
      = true := by
    rw [@hasNodeParent_of_shape s.model _ (by simp)]
    exact hparent
  have hp6 : hasNodeParent
      (setHorizontalCentered false (anchorsFill s.m_qmlItemNode
        (backupPropertyAndRemove s.m_qmlItemNode "height"
          (backupPropertyAndRemove s.m_qmlItemNode "width"
            (backupPropertyAndRemove s.m_qmlItemNode "y"
              (backupPropertyAndRemove s.m_qmlItemNode "x" s)))))).model s.m_qmlItemNode
      = true := by
    rw [@hasNodeParent_of_shape s.model _ (by simp)]
    exact hparent
  have hpar : parentModelNode (backupPropertyAndRemove s.m_qmlItemNode "height"
          (backupPropertyAndRemove s.m_qmlItemNode "width"
            (backupPropertyAndRemove s.m_qmlItemNode "y"
              (backupPropertyAndRemove s.m_qmlItemNode "x" s)))).model
      = parentModelNode s.model := parentModelNode_of_shape (by simp)
  cases l
  case VerticalCenter =>
    have h := instanceAnchor_setVerticalCentered_false
      (setHorizontalCentered false (anchorsFill s.m_qmlItemNode
        (backupPropertyAndRemove s.m_qmlItemNode "height"
          (backupPropertyAndRemove s.m_qmlItemNode "width"
            (backupPropertyAndRemove s.m_qmlItemNode "y"
              (backupPropertyAndRemove s.m_qmlItemNode "x" s))))))
      (by simpa using hp6)
    simpa [fill, modelNode, anchorsRemoveMargin] using h
  case HorizontalCenter =>
    have h := instanceAnchor_setHorizontalCentered_false
      (anchorsFill s.m_qmlItemNode
        (backupPropertyAndRemove s.m_qmlItemNode "height"
          (backupPropertyAndRemove s.m_qmlItemNode "width"
            (backupPropertyAndRemove s.m_qmlItemNode "y"
              (backupPropertyAndRemove s.m_qmlItemNode "x" s)))))
      (by simpa using hp5)
    simpa [fill, modelNode, anchorsRemoveMargin, instanceAnchor_setVerticalCentered_of_ne]
      using h
  all_goals
    simp [fill, modelNode, anchorsRemoveMargin, instanceAnchor_setVerticalCentered_of_ne,
      instanceAnchor_setHorizontalCentered_of_ne, hsome, hpar]

theorem property_fill_margin (l : AnchorLine)
    (hl : l = .Top ∨ l = .Bottom ∨ l = .Left ∨ l = .Right) :
    property (fill s).model s.m_qmlItemNode (marginPropertyName l) = none := by
  rcases hl with rfl | rfl | rfl | rfl <;>
    simp [fill, modelNode, anchorsRemoveMargin, marginPropertyName]

theorem auxiliaryData?_fill_attribute (p : PropertyName)
    (hp : p = "x" ∨ p = "y" ∨ p = "width" ∨ p = "height") :
    auxiliaryData? (fill s).model s.m_qmlItemNode (auxDataString ++ p)
      = (match rawAttribute s.model s.m_qmlItemNode p with
          | some v => some v
          | none => auxiliaryData? s.model s.m_qmlItemNode (auxDataString ++ p)) := by
  rcases hp with rfl | rfl | rfl | rfl <;>
    simp [fill, modelNode, anchorsRemoveMargin, marginPropertyName, auxDataString, rawAttribute]

theorem instanceAnchor_resetLayout (n1 : ModelNode) (l : AnchorLine) :
    instanceAnchor (resetLayout s).model n1 l
      = if n1 = s.m_qmlItemNode then none else instanceAnchor s.model n1 l := by
  simp [resetLayout, modelNode, anchorsRemoveMargin, anchorsRemoveMargins]

theorem property_resetLayout_margin (l : AnchorLine) :
    property (resetLayout s).model s.m_qmlItemNode (marginPropertyName l) = none := by
  cases l <;>
    simp [resetLayout, modelNode, anchorsRemoveMargin, anchorsRemoveMargins, marginPropertyName]

theorem property_resetLayout_attribute (p : PropertyName)
    (hp : p = "x" ∨ p = "y" ∨ p = "width" ∨ p = "height") :
    property (resetLayout s).model s.m_qmlItemNode p
      = (match auxiliaryData? s.model s.m_qmlItemNode (auxDataString ++ p) with
          | some v => some (.variant v)
          | none => property s.model s.m_qmlItemNode p) := by
  rcases hp with rfl | rfl | rfl | rfl <;>
    simp [resetLayout, modelNode, anchorsRemoveMargin, anchorsRemoveMargins, marginPropertyName,
      auxDataString]

end FillReset

/-! ### The guard and the cached targets -/

section Guard

variable (s : QmlAnchorBindingProxy)

theorem setTopAnchor_locked (anchor : Bool) (h : s.m_locked = false) :
    (setTopAnchor anchor s).m_locked = false := by
  unfold setTopAnchor
  dsimp only
  split_ifs <;> simp [h, modelNode]

theorem setTopTarget_locked (t : ModelNode) (h : s.m_locked = false) :
    (setTopTarget t s).m_locked = false := by
  unfold setTopTarget
  split_ifs <;> simp [h]

theorem setTopTarget_of_same (t : ModelNode) (h : t = s.m_topTarget) :
    setTopTarget t s = s := by
  simp [setTopTarget, h]

@[simp] theorem setTopTarget_verticalTarget (t : ModelNode) :
    (setTopTarget t s).m_verticalTarget = s.m_verticalTarget := by
  unfold setTopTarget
  split_ifs <;> simp

@[simp] theorem setTopTarget_horizontalTarget (t : ModelNode) :
    (setTopTarget t s).m_horizontalTarget = s.m_horizontalTarget := by
  unfold setTopTarget
  split_ifs <;> simp

theorem setTopTarget_topTarget (t : ModelNode) : (setTopTarget t s).m_topTarget = t := by
  unfold setTopTarget
  split_ifs with h <;> simp [h]

@[simp] theorem setTopTarget_bottomTarget (t : ModelNode) :
    (setTopTarget t s).m_bottomTarget = s.m_bottomTarget := by
  unfold setTopTarget
  split_ifs <;> simp

@[simp] theorem setTopTarget_leftTarget (t : ModelNode) :
    (setTopTarget t s).m_leftTarget = s.m_leftTarget := by
  unfold setTopTarget
  split_ifs <;> simp

@[simp] theorem setTopTarget_rightTarget (t : ModelNode) :
    (setTopTarget t s).m_rightTarget = s.m_rightTarget := by
  unfold setTopTarget
  split_ifs <;> simp

@[simp] theorem setTopTarget_item (t : ModelNode) :
    (setTopTarget t s).m_qmlItemNode = s.m_qmlItemNode := by
  unfold setTopTarget
  split_ifs <;> simp

theorem setBottomAnchor_locked (anchor : Bool) (h : s.m_locked = false) :
    (setBottomAnchor anchor s).m_locked = false := by
  unfold setBottomAnchor
  dsimp only
  split_ifs <;> simp [h, modelNode]

theorem setBottomTarget_locked (t : ModelNode) (h : s.m_locked = false) :
    (setBottomTarget t s).m_locked = false := by
  unfold setBottomTarget
  split_ifs <;> simp [h]

theorem setBottomTarget_of_same (t : ModelNode) (h : t = s.m_bottomTarget) :
    setBottomTarget t s = s := by
  simp [setBottomTarget, h]

@[simp] theorem setBottomTarget_verticalTarget (t : ModelNode) :
    (setBottomTarget t s).m_verticalTarget = s.m_verticalTarget := by
  unfold setBottomTarget
  split_ifs <;> simp

@[simp] theorem setBottomTarget_horizontalTarget (t : ModelNode) :
    (setBottomTarget t s).m_horizontalTarget = s.m_horizontalTarget := by
  unfold setBottomTarget
  split_ifs <;> simp

@[simp] theorem setBottomTarget_topTarget (t : ModelNode) :
    (setBottomTarget t s).m_topTarget = s.m_topTarget := by
  unfold setBottomTarget
  split_ifs <;> simp

theorem setBottomTarget_bottomTarget (t : ModelNode) : (setBottomTarget t s).m_bottomTarget = t := by
  unfold setBottomTarget
  split_ifs with h <;> simp [h]

@[simp] theorem setBottomTarget_leftTarget (t : ModelNode) :
    (setBottomTarget t s).m_leftTarget = s.m_leftTarget := by
  unfold setBottomTarget
  split_ifs <;> simp

@[simp] theorem setBottomTarget_rightTarget (t : ModelNode) :
    (setBottomTarget t s).m_rightTarget = s.m_rightTarget := by
  unfold setBottomTarget
  split_ifs <;> simp

@[simp] theorem setBottomTarget_item (t : ModelNode) :
    (setBottomTarget t s).m_qmlItemNode = s.m_qmlItemNode := by
  unfold setBottomTarget
  split_ifs <;> simp

theorem setLeftAnchor_locked (anchor : Bool) (h : s.m_locked = false) :
    (setLeftAnchor anchor s).m_locked = false := by
  unfold setLeftAnchor
  dsimp only
  split_ifs <;> simp [h, modelNode]

theorem setLeftTarget_locked (t : ModelNode) (h : s.m_locked = false) :
    (setLeftTarget t s).m_locked = false := by
  unfold setLeftTarget
  split_ifs <;> simp [h]

theorem setLeftTarget_of_same (t : ModelNode) (h : t = s.m_leftTarget) :
    setLeftTarget t s = s := by
  simp [setLeftTarget, h]

@[simp] theorem setLeftTarget_verticalTarget (t : ModelNode) :
    (setLeftTarget t s).m_verticalTarget = s.m_verticalTarget := by
  unfold setLeftTarget
  split_ifs <;> simp

@[simp] theorem setLeftTarget_horizontalTarget (t : ModelNode) :
    (setLeftTarget t s).m_horizontalTarget = s.m_horizontalTarget := by
  unfold setLeftTarget
  split_ifs <;> simp

@[simp] theorem setLeftTarget_topTarget (t : ModelNode) :
    (setLeftTarget t s).m_topTarget = s.m_topTarget := by
  unfold setLeftTarget
  split_ifs <;> simp

@[simp] theorem setLeftTarget_bottomTarget (t : ModelNode) :
    (setLeftTarget t s).m_bottomTarget = s.m_bottomTarget := by
  unfold setLeftTarget
  split_ifs <;> simp

theorem setLeftTarget_leftTarget (t : ModelNode) : (setLeftTarget t s).m_leftTarget = t := by
  unfold setLeftTarget
  split_ifs with h <;> simp [h]

@[simp] theorem setLeftTarget_rightTarget (t : ModelNode) :
    (setLeftTarget t s).m_rightTarget = s.m_rightTarget := by
  unfold setLeftTarget
  split_ifs <;> simp

@[simp] theorem setLeftTarget_item (t : ModelNode) :
    (setLeftTarget t s).m_qmlItemNode = s.m_qmlItemNode := by
  unfold setLeftTarget
  split_ifs <;> simp

theorem setRightAnchor_locked (anchor : Bool) (h : s.m_locked = false) :
    (setRightAnchor anchor s).m_locked = false := by
  unfold setRightAnchor
  dsimp only
  split_ifs <;> simp [h, modelNode]

theorem setRightTarget_locked (t : ModelNode) (h : s.m_locked = false) :
    (setRightTarget t s).m_locked = false := by
  unfold setRightTarget
  split_ifs <;> simp [h]

theorem setRightTarget_of_same (t : ModelNode) (h : t = s.m_rightTarget) :
    setRightTarget t s = s := by
  simp [setRightTarget, h]

@[simp] theorem setRightTarget_verticalTarget (t : ModelNode) :
    (setRightTarget t s).m_verticalTarget = s.m_verticalTarget := by
  unfold setRightTarget
  split_ifs <;> simp

@[simp] theorem setRightTarget_horizontalTarget (t : ModelNode) :
    (setRightTarget t s).m_horizontalTarget = s.m_horizontalTarget := by
  unfold setRightTarget
  split_ifs <;> simp

@[simp] theorem setRightTarget_topTarget (t : ModelNode) :
    (setRightTarget t s).m_topTarget = s.m_topTarget := by
  unfold setRightTarget
  split_ifs <;> simp

@[simp] theorem setRightTarget_bottomTarget (t : ModelNode) :
    (setRightTarget t s).m_bottomTarget = s.m_bottomTarget := by
  unfold setRightTarget
  split_ifs <;> simp

@[simp] theorem setRightTarget_leftTarget (t : ModelNode) :
    (setRightTarget t s).m_leftTarget = s.m_leftTarget := by
  unfold setRightTarget
  split_ifs <;> simp

theorem setRightTarget_rightTarget (t : ModelNode) : (setRightTarget t s).m_rightTarget = t := by
  unfold setRightTarget
  split_ifs with h <;> simp [h]

@[simp] theorem setRightTarget_item (t : ModelNode) :
    (setRightTarget t s).m_qmlItemNode = s.m_qmlItemNode := by
  unfold setRightTarget
  split_ifs <;> simp

theorem setVerticalTarget_locked (t : ModelNode) (h : s.m_locked = false) :
    (setVerticalTarget t s).m_locked = false := by
  unfold setVerticalTarget
  dsimp only
  split_ifs <;> simp [h]

theorem setVerticalTarget_of_same (t : ModelNode) (h : t = s.m_verticalTarget) :
    setVerticalTarget t s = s := by
  simp [setVerticalTarget, h]

@[simp] theorem property_setVerticalTarget (t : ModelNode) :
    property (setVerticalTarget t s).model = property s.model := by
  unfold setVerticalTarget
  dsimp only
  split_ifs <;> simp

@[simp] theorem setVerticalTarget_item (t : ModelNode) :
    (setVerticalTarget t s).m_qmlItemNode = s.m_qmlItemNode := by
  unfold setVerticalTarget
  dsimp only
  split_ifs <;> simp

theorem setVerticalTarget_verticalTarget (t : ModelNode) : (setVerticalTarget t s).m_verticalTarget = t := by
  unfold setVerticalTarget
  dsimp only
  split_ifs with h <;> simp [h]

@[simp] theorem setVerticalTarget_horizontalTarget (t : ModelNode) :
    (setVerticalTarget t s).m_horizontalTarget = s.m_horizontalTarget := by
  unfold setVerticalTarget
  dsimp only
  split_ifs <;> simp

@[simp] theorem setVerticalTarget_topTarget (t : ModelNode) :
    (setVerticalTarget t s).m_topTarget = s.m_topTarget := by
  unfold setVerticalTarget
  dsimp only
  split_ifs <;> simp

@[simp] theorem setVerticalTarget_bottomTarget (t : ModelNode) :
    (setVerticalTarget t s).m_bottomTarget = s.m_bottomTarget := by
  unfold setVerticalTarget
  dsimp only
  split_ifs <;> simp

@[simp] theorem setVerticalTarget_leftTarget (t : ModelNode) :
    (setVerticalTarget t s).m_leftTarget = s.m_leftTarget := by
  unfold setVerticalTarget
  dsimp only
  split_ifs <;> simp

@[simp] theorem setVerticalTarget_rightTarget (t : ModelNode) :
    (setVerticalTarget t s).m_rightTarget = s.m_rightTarget := by
  unfold setVerticalTarget
  dsimp only
  split_ifs <;> simp

theorem setHorizontalTarget_locked (t : ModelNode) (h : s.m_locked = false) :
    (setHorizontalTarget t s).m_locked = false := by
  unfold setHorizontalTarget
  dsimp only
  split_ifs <;> simp [h]

theorem setHorizontalTarget_of_same (t : ModelNode) (h : t = s.m_horizontalTarget) :
    setHorizontalTarget t s = s := by
  simp [setHorizontalTarget, h]

@[simp] theorem property_setHorizontalTarget (t : ModelNode) :
    property (setHorizontalTarget t s).model = property s.model := by
  unfold setHorizontalTarget
  dsimp only
  split_ifs <;> simp

@[simp] theorem setHorizontalTarget_item (t : ModelNode) :
    (setHorizontalTarget t s).m_qmlItemNode = s.m_qmlItemNode := by
  unfold setHorizontalTarget
  dsimp only
  split_ifs <;> simp

@[simp] theorem setHorizontalTarget_verticalTarget (t : ModelNode) :
    (setHorizontalTarget t s).m_verticalTarget = s.m_verticalTarget := by
  unfold setHorizontalTarget
  dsimp only
  split_ifs <;> simp

theorem setHorizontalTarget_horizontalTarget (t : ModelNode) : (setHorizontalTarget t s).m_horizontalTarget = t := by
  unfold setHorizontalTarget
  dsimp only
  split_ifs with h <;> simp [h]

@[simp] theorem setHorizontalTarget_topTarget (t : ModelNode) :
    (setHorizontalTarget t s).m_topTarget = s.m_topTarget := by
  unfold setHorizontalTarget
  dsimp only
  split_ifs <;> simp

@[simp] theorem setHorizontalTarget_bottomTarget (t : ModelNode) :
    (setHorizontalTarget t s).m_bottomTarget = s.m_bottomTarget := by
  unfold setHorizontalTarget
  dsimp only
  split_ifs <;> simp

@[simp] theorem setHorizontalTarget_leftTarget (t : ModelNode) :
    (setHorizontalTarget t s).m_leftTarget = s.m_leftTarget := by
  unfold setHorizontalTarget
  dsimp only
  split_ifs <;> simp

@[simp] theorem setHorizontalTarget_rightTarget (t : ModelNode) :
    (setHorizontalTarget t s).m_rightTarget = s.m_rightTarget := by
  unfold setHorizontalTarget
  dsimp only
  split_ifs <;> simp

theorem fill_locked (h : s.m_locked = false) : (fill s).m_locked = false := by
  simp [fill, modelNode, anchorsRemoveMargin, setVerticalCentered_locked_eq,
    setHorizontalCentered_locked_eq, h]

theorem resetLayout_locked : (resetLayout s).m_locked = s.m_locked := by
  simp [resetLayout, modelNode, anchorsRemoveMargin, anchorsRemoveMargins]

theorem invalidate_locked (n : ModelNode) : (invalidate n s).m_locked = s.m_locked := by
  unfold invalidate
  dsimp only
  split_ifs <;> simp [setDefaultAnchorTarget]

theorem locked_step (o : Operation) (h : s.m_locked = false) :
    (o.apply s).m_locked = false := by
  cases o with
  | setup n => simpa [Operation.apply] using h
  | invalidate n => simpa [Operation.apply, invalidate_locked] using h
  | setTopAnchor b => exact setTopAnchor_locked s b h
  | setBottomAnchor b => exact setBottomAnchor_locked s b h
  | setLeftAnchor b => exact setLeftAnchor_locked s b h
  | setRightAnchor b => exact setRightAnchor_locked s b h
  | setVerticalCentered b => exact setVerticalCentered_locked_eq s b h
  | setHorizontalCentered b => exact setHorizontalCentered_locked_eq s b h
  | setTopTarget t => exact setTopTarget_locked s t h
  | setBottomTarget t => exact setBottomTarget_locked s t h
  | setLeftTarget t => exact setLeftTarget_locked s t h
  | setRightTarget t => exact setRightTarget_locked s t h
  | setVerticalTarget t => exact setVerticalTarget_locked s t h
  | setHorizontalTarget t => exact setHorizontalTarget_locked s t h
  | fill => exact fill_locked s h
  | resetLayout => simpa [Operation.apply, resetLayout_locked] using h

theorem locked_run (ops : List Operation) (h : s.m_locked = false) :
    (run ops s).m_locked = false := by
  induction ops generalizing s with
  | nil => exact h
  | cons o rest ih => exact ih (o.apply s) (locked_step s o h)

theorem writeGuards_calcTopMargin (h : isValid s.m_qmlItemNode = true) :
    (calcTopMargin s).writeGuards = s.writeGuards ++ [true, true] := by
  obtain ⟨i, hi⟩ := Option.isSome_iff_exists.1 h
  simp [writeGuards, calcTopMargin_trace s i hi, List.filterMap_append]

theorem writeGuards_calcBottomMargin (h : isValid s.m_qmlItemNode = true) :
    (calcBottomMargin s).writeGuards = s.writeGuards ++ [true, true] := by
  obtain ⟨i, hi⟩ := Option.isSome_iff_exists.1 h
  simp [writeGuards, calcBottomMargin_trace s i hi, List.filterMap_append]

theorem writeGuards_calcLeftMargin (h : isValid s.m_qmlItemNode = true) :
    (calcLeftMargin s).writeGuards = s.writeGuards ++ [true, true] := by
  obtain ⟨i, hi⟩ := Option.isSome_iff_exists.1 h
  simp [writeGuards, calcLeftMargin_trace s i hi, List.filterMap_append]

theorem writeGuards_calcRightMargin (h : isValid s.m_qmlItemNode = true) :
    (calcRightMargin s).writeGuards = s.writeGuards ++ [true, true] := by
  obtain ⟨i, hi⟩ := Option.isSome_iff_exists.1 h
  simp [writeGuards, calcRightMargin_trace s i hi, List.filterMap_append]

end Guard

/-! ### The guard value of every model write -/

section WritesUnder

variable (s : QmlAnchorBindingProxy)

theorem writesUnder_refl (g : Bool) : WritesUnder g s s :=
  ⟨[], by simp, by simp⟩

theorem writesUnder_trans {g : Bool} {s t u : QmlAnchorBindingProxy}
    (h1 : WritesUnder g s t) (h2 : WritesUnder g t u) : WritesUnder g s u := by
  obtain ⟨r1, e1, a1⟩ := h1
  obtain ⟨r2, e2, a2⟩ := h2
  refine ⟨r1 ++ r2, by rw [e2, e1, List.append_assoc], ?_⟩
  intro b hb
  rcases List.mem_append.1 hb with hb | hb
  · exact a1 b hb
  · exact a2 b hb

theorem writesUnder_step {g : Bool} {s t u : QmlAnchorBindingProxy}
    (h1 : WritesUnder g s t) (hl : t.m_locked = g) (h2 : WritesUnder t.m_locked t u) :
    WritesUnder g s u :=
  writesUnder_trans h1 (hl ▸ h2)

theorem writesUnder_of_eq {s t : QmlAnchorBindingProxy} (g : Bool)
    (h : t.writeGuards = s.writeGuards) : WritesUnder g s t :=
  ⟨[], by simp [h], by simp⟩

theorem writesUnder_emit (g : Bool) (sig : Signal) : WritesUnder g s (emit sig s) :=
  writesUnder_of_eq g (writeGuards_emit s sig)

theorem writesUnder_emit_of {g : Bool} {s t : QmlAnchorBindingProxy} (sig : Signal)
    (h : WritesUnder g s t) : WritesUnder g s (emit sig t) :=
  writesUnder_trans h (writesUnder_emit t g sig)

theorem writesUnder_modify (n : ModelNode) (f : Node → Node) :
    WritesUnder s.m_locked s (modify n f s) := by
  cases n with
  | none => exact writesUnder_refl s _
  | some i =>
    exact ⟨[s.m_locked], by simp [modify, writeGuards, List.filterMap_append], by simp⟩

theorem writesUnder_removeProperty (n : ModelNode) (p : PropertyName) :
    WritesUnder s.m_locked s (removeProperty n p s) :=
  writesUnder_modify s n _

theorem writesUnder_setVariantProperty (n : ModelNode) (p : PropertyName) (v : QVariant) :
    WritesUnder s.m_locked s (setVariantProperty n p v s) :=
  writesUnder_modify s n _

theorem writesUnder_setAuxiliaryData (n : ModelNode) (k : PropertyName) (v : QVariant) :
    WritesUnder s.m_locked s (setAuxiliaryData n k v s) :=
  writesUnder_modify s n _

theorem writesUnder_anchorsSetAnchor (n : ModelNode) (l : AnchorLine) (t : ModelNode)
    (tl : AnchorLine) : WritesUnder s.m_locked s (anchorsSetAnchor n l t tl s) :=
  writesUnder_modify s n _

theorem writesUnder_anchorsSetMargin (n : ModelNode) (l : AnchorLine) (m : ℚ) :
    WritesUnder s.m_locked s (anchorsSetMargin n l m s) :=
  writesUnder_modify s n _

theorem writesUnder_anchorsRemoveAnchor (n : ModelNode) (l : AnchorLine) :
    WritesUnder s.m_locked s (anchorsRemoveAnchor n l s) :=
  writesUnder_modify s n _

theorem writesUnder_anchorsRemoveMargin (n : ModelNode) (l : AnchorLine) :
    WritesUnder s.m_locked s (anchorsRemoveMargin n l s) :=
  writesUnder_modify s n _

theorem writesUnder_anchorsRemoveAnchors (n : ModelNode) :
    WritesUnder s.m_locked s (anchorsRemoveAnchors n s) :=
  writesUnder_modify s n _

theorem writesUnder_anchorsFill (n : ModelNode) :
    WritesUnder s.m_locked s (anchorsFill n s) :=
  writesUnder_modify s n _

@[simp] theorem anchorsRemoveMargin_locked (n : ModelNode) (l : AnchorLine) :
    (anchorsRemoveMargin n l s).m_locked = s.m_locked := by
  simp [anchorsRemoveMargin]

@[simp] theorem anchorsSetMargin_locked (n : ModelNode) (l : AnchorLine) (m : ℚ) :
    (anchorsSetMargin n l m s).m_locked = s.m_locked := by
  simp [anchorsSetMargin]

theorem writesUnder_anchorsRemoveMargins (n : ModelNode) :
    WritesUnder s.m_locked s (anchorsRemoveMargins n s) := by
  unfold anchorsRemoveMargins
  refine writesUnder_step (writesUnder_step (writesUnder_step (writesUnder_step
    (writesUnder_step (writesUnder_anchorsRemoveMargin s n _) (by simp)
      (writesUnder_anchorsRemoveMargin _ n _)) (by simp)
      (writesUnder_anchorsRemoveMargin _ n _)) (by simp)
      (writesUnder_anchorsRemoveMargin _ n _)) (by simp)
      (writesUnder_anchorsRemoveMargin _ n _)) (by simp)
      (writesUnder_anchorsRemoveMargin _ n _)

@[simp] theorem anchorsRemoveMargins_locked (n : ModelNode) :
    (anchorsRemoveMargins n s).m_locked = s.m_locked := by
  simp [anchorsRemoveMargins]

theorem writesUnder_backupPropertyAndRemove (n : ModelNode) (p : PropertyName) :
    WritesUnder s.m_locked s (backupPropertyAndRemove n p s) := by
  have key : ∀ (t : QmlAnchorBindingProxy) (v : QVariant),
      WritesUnder t.m_locked t (removeProperty n p (setAuxiliaryData n (auxDataString ++ p) v t)) :=
    fun t v => writesUnder_step (writesUnder_setAuxiliaryData t n _ v) (by simp)
      (writesUnder_removeProperty _ n p)
  unfold backupPropertyAndRemove
  dsimp only
  by_cases h1 : hasVariantProperty s.model n p = true
  · rw [if_pos h1]
    split_ifs
    · exact writesUnder_step (key s _) (by simp) (key _ _)
    · exact key s _
  · rw [if_neg h1]
    split_ifs
    · exact key s _
    · exact writesUnder_refl s _

theorem writesUnder_restoreProperty (n : ModelNode) (p : PropertyName) :
    WritesUnder s.m_locked s (restoreProperty n p s) := by
  unfold restoreProperty
  split_ifs
  · exact writesUnder_setVariantProperty s n p _
  · exact writesUnder_refl s _

theorem writesUnder_removeTopAnchor : WritesUnder s.m_locked s (removeTopAnchor s) := by
  unfold removeTopAnchor
  dsimp only
  exact writesUnder_step (writesUnder_step (writesUnder_step
    (writesUnder_anchorsRemoveAnchor s _ _) (by simp)
    (writesUnder_anchorsRemoveMargin _ _ _)) (by simp)
    (writesUnder_restoreProperty _ _ _)) (by simp)
    (writesUnder_restoreProperty _ _ _)

theorem writesUnder_removeLeftAnchor : WritesUnder s.m_locked s (removeLeftAnchor s) := by
  unfold removeLeftAnchor
  dsimp only
  exact writesUnder_step (writesUnder_step (writesUnder_step
    (writesUnder_anchorsRemoveAnchor s _ _) (by simp)
    (writesUnder_anchorsRemoveMargin _ _ _)) (by simp)
    (writesUnder_restoreProperty _ _ _)) (by simp)
    (writesUnder_restoreProperty _ _ _)

theorem writesUnder_removeBottomAnchor : WritesUnder s.m_locked s (removeBottomAnchor s) := by
  unfold removeBottomAnchor
  dsimp only
  exact writesUnder_step (writesUnder_step
    (writesUnder_anchorsRemoveAnchor s _ _) (by simp)
    (writesUnder_anchorsRemoveMargin _ _ _)) (by simp)
    (writesUnder_restoreProperty _ _ _)

theorem writesUnder_removeRightAnchor : WritesUnder s.m_locked s (removeRightAnchor s) := by
  unfold removeRightAnchor
  dsimp only
  exact writesUnder_step (writesUnder_step
    (writesUnder_anchorsRemoveAnchor s _ _) (by simp)
    (writesUnder_anchorsRemoveMargin _ _ _)) (by simp)
    (writesUnder_restoreProperty _ _ _)

theorem writesUnder_resetLayout : WritesUnder s.m_locked s (resetLayout s) := by
  unfold resetLayout
  dsimp only
  refine writesUnder_emit_of _ (writesUnder_emit_of _ (writesUnder_emit_of _ (writesUnder_emit_of _
    (writesUnder_emit_of _ ?_))))
  exact writesUnder_step (writesUnder_step (writesUnder_step (writesUnder_step
    (writesUnder_step (writesUnder_anchorsRemoveAnchors s _) (by simp)
    (writesUnder_anchorsRemoveMargins _ _)) (by simp)
    (writesUnder_restoreProperty _ _ _)) (by simp)
    (writesUnder_restoreProperty _ _ _)) (by simp)
    (writesUnder_restoreProperty _ _ _)) (by simp)
    (writesUnder_restoreProperty _ _ _)

end WritesUnder

/-! ### The guard value of the writes of each operation -/

section WritesOfOperations

variable (s : QmlAnchorBindingProxy)

theorem writesUnder_congr {g : Bool} {s t u v : QmlAnchorBindingProxy}
    (hs : u.trace = s.trace) (ht : v.trace = t.trace) (h : WritesUnder g s t) :
    WritesUnder g u v := by
  obtain ⟨r, e, a⟩ := h
  exact ⟨r, by rw [writeGuards_of_trace ht, writeGuards_of_trace hs, e], a⟩

theorem writesUnder_calcTopMargin : WritesUnder true s (calcTopMargin s) := by
  unfold calcTopMargin
  dsimp only
  refine @writesUnder_congr true { s with m_locked := true } _ _ _ rfl rfl ?_
  split_ifs
  · exact writesUnder_step (writesUnder_anchorsSetMargin { s with m_locked := true } _ _ _)
      (by simp) (writesUnder_anchorsSetAnchor _ _ _ _ _)
  · exact writesUnder_step (writesUnder_anchorsSetMargin { s with m_locked := true } _ _ _)
      (by simp) (writesUnder_anchorsSetAnchor _ _ _ _ _)

theorem writesUnder_setTopTarget (t : ModelNode) : WritesUnder true s (setTopTarget t s) := by
  unfold setTopTarget
  split_ifs
  · exact writesUnder_refl s _
  · exact writesUnder_emit_of _
      (@writesUnder_congr true { s with m_topTarget := t } _ _ _ rfl rfl
        (writesUnder_calcTopMargin _))

theorem writesUnder_setTopAnchor_false :
    WritesUnder s.m_locked s (setTopAnchor false s) := by
  unfold setTopAnchor
  dsimp only
  split_ifs
  all_goals first
    | exact writesUnder_refl s _
    | exact writesUnder_emit_of _ (writesUnder_emit_of _ (writesUnder_removeTopAnchor s))
    | exact writesUnder_emit_of _ (writesUnder_removeTopAnchor s)
    | simp_all

theorem writesUnder_calcBottomMargin : WritesUnder true s (calcBottomMargin s) := by
  unfold calcBottomMargin
  dsimp only
  refine @writesUnder_congr true { s with m_locked := true } _ _ _ rfl rfl ?_
  split_ifs
  · exact writesUnder_step (writesUnder_anchorsSetMargin { s with m_locked := true } _ _ _)
      (by simp) (writesUnder_anchorsSetAnchor _ _ _ _ _)
  · exact writesUnder_step (writesUnder_anchorsSetMargin { s with m_locked := true } _ _ _)
      (by simp) (writesUnder_anchorsSetAnchor _ _ _ _ _)

theorem writesUnder_setBottomTarget (t : ModelNode) : WritesUnder true s (setBottomTarget t s) := by
  unfold setBottomTarget
  split_ifs
  · exact writesUnder_refl s _
  · exact writesUnder_emit_of _
      (@writesUnder_congr true { s with m_bottomTarget := t } _ _ _ rfl rfl
        (writesUnder_calcBottomMargin _))

theorem writesUnder_setBottomAnchor_false :
    WritesUnder s.m_locked s (setBottomAnchor false s) := by
  unfold setBottomAnchor
  dsimp only
  split_ifs
  all_goals first
    | exact writesUnder_refl s _
    | exact writesUnder_emit_of _ (writesUnder_emit_of _ (writesUnder_removeBottomAnchor s))
    | exact writesUnder_emit_of _ (writesUnder_removeBottomAnchor s)
    | simp_all

theorem writesUnder_calcLeftMargin : WritesUnder true s (calcLeftMargin s) := by
  unfold calcLeftMargin
  dsimp only
  refine @writesUnder_congr true { s with m_locked := true } _ _ _ rfl rfl ?_
  split_ifs
  · exact writesUnder_step (writesUnder_anchorsSetMargin { s with m_locked := true } _ _ _)
      (by simp) (writesUnder_anchorsSetAnchor _ _ _ _ _)
  · exact writesUnder_step (writesUnder_anchorsSetMargin { s with m_locked := true } _ _ _)
      (by simp) (writesUnder_anchorsSetAnchor _ _ _ _ _)

theorem writesUnder_setLeftTarget (t : ModelNode) : WritesUnder true s (setLeftTarget t s) := by
  unfold setLeftTarget
  split_ifs
  · exact writesUnder_refl s _
  · exact writesUnder_emit_of _
      (@writesUnder_congr true { s with m_leftTarget := t } _ _ _ rfl rfl
        (writesUnder_calcLeftMargin _))

theorem writesUnder_setLeftAnchor_false :
    WritesUnder s.m_locked s (setLeftAnchor false s) := by
  unfold setLeftAnchor
  dsimp only
  split_ifs
  all_goals first
    | exact writesUnder_refl s _
    | exact writesUnder_emit_of _ (writesUnder_emit_of _ (writesUnder_removeLeftAnchor s))
    | exact writesUnder_emit_of _ (writesUnder_removeLeftAnchor s)
    | simp_all

theorem writesUnder_calcRightMargin : WritesUnder true s (calcRightMargin s) := by
  unfold calcRightMargin
  dsimp only
  refine @writesUnder_congr true { s with m_locked := true } _ _ _ rfl rfl ?_
  split_ifs
  · exact writesUnder_step (writesUnder_anchorsSetMargin { s with m_locked := true } _ _ _)
      (by simp) (writesUnder_anchorsSetAnchor _ _ _ _ _)
  · exact writesUnder_step (writesUnder_anchorsSetMargin { s with m_locked := true } _ _ _)
      (by simp) (writesUnder_anchorsSetAnchor _ _ _ _ _)

theorem writesUnder_setRightTarget (t : ModelNode) : WritesUnder true s (setRightTarget t s) := by
  unfold setRightTarget
  split_ifs
  · exact writesUnder_refl s _
  · exact writesUnder_emit_of _
      (@writesUnder_congr true { s with m_rightTarget := t } _ _ _ rfl rfl
        (writesUnder_calcRightMargin _))

theorem writesUnder_setRightAnchor_false :
    WritesUnder s.m_locked s (setRightAnchor false s) := by
  unfold setRightAnchor
  dsimp only
  split_ifs
  all_goals first
    | exact writesUnder_refl s _
    | exact writesUnder_emit_of _ (writesUnder_emit_of _ (writesUnder_removeRightAnchor s))
    | exact writesUnder_emit_of _ (writesUnder_removeRightAnchor s)
    | simp_all

theorem writesUnder_setTopAnchor_true :
    setTopAnchor true s = s
      ∨ WritesUnder false (calcTopMargin s) (setTopAnchor true s) := by
  have hb : WritesUnder false (calcTopMargin s)
      (backupPropertyAndRemove (calcTopMargin s).modelNode "y" (calcTopMargin s)) :=
    writesUnder_backupPropertyAndRemove (calcTopMargin s) _ _
  have hb2 : ∀ p, WritesUnder false (calcTopMargin s)
      (backupPropertyAndRemove
        (backupPropertyAndRemove (calcTopMargin s).modelNode "y" (calcTopMargin s)).modelNode p
        (backupPropertyAndRemove (calcTopMargin s).modelNode "y" (calcTopMargin s))) :=
    fun p => writesUnder_step hb (by simp) (writesUnder_backupPropertyAndRemove _ _ _)
  unfold setTopAnchor
  dsimp only
  split_ifs
  all_goals first
    | exact Or.inl rfl
    | exact Or.inr (writesUnder_emit_of _ (writesUnder_emit_of _ (hb2 _)))
    | exact Or.inr (writesUnder_emit_of _ (hb2 _))
    | exact Or.inr (writesUnder_emit_of _ (writesUnder_emit_of _ hb))
    | exact Or.inr (writesUnder_emit_of _ hb)
    | simp_all

theorem writesUnder_setBottomAnchor_true :
    setBottomAnchor true s = s
      ∨ WritesUnder false (calcBottomMargin s) (setBottomAnchor true s) := by
  have hb : ∀ p, WritesUnder false (calcBottomMargin s)
      (backupPropertyAndRemove (calcBottomMargin s).modelNode p (calcBottomMargin s)) :=
    fun p => writesUnder_backupPropertyAndRemove (calcBottomMargin s) _ _
  unfold setBottomAnchor
  dsimp only
  split_ifs
  all_goals first
    | exact Or.inl rfl
    | exact Or.inr (writesUnder_emit_of _ (writesUnder_emit_of _ (hb _)))
    | exact Or.inr (writesUnder_emit_of _ (hb _))
    | exact Or.inr (writesUnder_emit_of _ (writesUnder_emit_of _ (writesUnder_refl _ _)))
    | exact Or.inr (writesUnder_emit_of _ (writesUnder_refl _ _))
    | simp_all

theorem writesUnder_setLeftAnchor_true :
    setLeftAnchor true s = s
      ∨ WritesUnder false (calcLeftMargin s) (setLeftAnchor true s) := by
  have hb : WritesUnder false (calcLeftMargin s)
      (backupPropertyAndRemove (calcLeftMargin s).modelNode "x" (calcLeftMargin s)) :=
    writesUnder_backupPropertyAndRemove (calcLeftMargin s) _ _
  have hb2 : ∀ p, WritesUnder false (calcLeftMargin s)
      (backupPropertyAndRemove
        (backupPropertyAndRemove (calcLeftMargin s).modelNode "x" (calcLeftMargin s)).modelNode p
        (backupPropertyAndRemove (calcLeftMargin s).modelNode "x" (calcLeftMargin s))) :=
    fun p => writesUnder_step hb (by simp) (writesUnder_backupPropertyAndRemove _ _ _)
  unfold setLeftAnchor
  dsimp only
  split_ifs
  all_goals first
    | exact Or.inl rfl
    | exact Or.inr (writesUnder_emit_of _ (writesUnder_emit_of _ (hb2 _)))
    | exact Or.inr (writesUnder_emit_of _ (hb2 _))
    | exact Or.inr (writesUnder_emit_of _ (writesUnder_emit_of _ hb))
    | exact Or.inr (writesUnder_emit_of _ hb)
    | simp_all

theorem writesUnder_setRightAnchor_true :
    setRightAnchor true s = s
      ∨ WritesUnder false (calcRightMargin s) (setRightAnchor true s) := by
  have hb : ∀ p, WritesUnder false (calcRightMargin s)
      (backupPropertyAndRemove (calcRightMargin s).modelNode p (calcRightMargin s)) :=
    fun p => writesUnder_backupPropertyAndRemove (calcRightMargin s) _ _
  unfold setRightAnchor
  dsimp only
  split_ifs
  all_goals first
    | exact Or.inl rfl
    | exact Or.inr (writesUnder_emit_of _ (writesUnder_emit_of _ (hb _)))
    | exact Or.inr (writesUnder_emit_of _ (hb _))
    | exact Or.inr (writesUnder_emit_of _ (writesUnder_emit_of _ (writesUnder_refl _ _)))
    | exact Or.inr (writesUnder_emit_of _ (writesUnder_refl _ _))
    | simp_all

theorem writesUnder_setVerticalCentered (centered : Bool) :
    WritesUnder true s (setVerticalCentered centered s) := by
  unfold setVerticalCentered
  dsimp only
  split_ifs
  · exact writesUnder_refl s _
  · exact writesUnder_refl s _
  · exact writesUnder_emit_of _ (@writesUnder_congr true { s with m_locked := true } _ _ _
      rfl rfl (writesUnder_step
        (writesUnder_anchorsRemoveAnchor { s with m_locked := true } _ _) (by simp)
        (writesUnder_anchorsRemoveMargin _ _ _)))
  · exact writesUnder_emit_of _ (@writesUnder_congr true { s with m_locked := true } _ _ _
      rfl rfl (writesUnder_anchorsSetAnchor { s with m_locked := true } _ _ _ _))

theorem writesUnder_setHorizontalCentered (centered : Bool) :
    WritesUnder true s (setHorizontalCentered centered s) := by
  unfold setHorizontalCentered
  dsimp only
  split_ifs
  · exact writesUnder_refl s _
  · exact writesUnder_refl s _
  · exact writesUnder_emit_of _ (@writesUnder_congr true { s with m_locked := true } _ _ _
      rfl rfl (writesUnder_step
        (writesUnder_anchorsRemoveAnchor { s with m_locked := true } _ _) (by simp)
        (writesUnder_anchorsRemoveMargin _ _ _)))
  · exact writesUnder_emit_of _ (@writesUnder_congr true { s with m_locked := true } _ _ _
      rfl rfl (writesUnder_anchorsSetAnchor { s with m_locked := true } _ _ _ _))

theorem writesUnder_fill_before :
    WritesUnder s.m_locked s
      (anchorsFill s.m_qmlItemNode
        (backupPropertyAndRemove s.m_qmlItemNode "height"
          (backupPropertyAndRemove s.m_qmlItemNode "width"
            (backupPropertyAndRemove s.m_qmlItemNode "y"
              (backupPropertyAndRemove s.m_qmlItemNode "x" s))))) :=
  writesUnder_step (writesUnder_step (writesUnder_step (writesUnder_step
    (writesUnder_backupPropertyAndRemove s _ _) (by simp)
    (writesUnder_backupPropertyAndRemove _ _ _)) (by simp)
    (writesUnder_backupPropertyAndRemove _ _ _)) (by simp)
    (writesUnder_backupPropertyAndRemove _ _ _)) (by simp)
    (writesUnder_anchorsFill _ _)

theorem writesUnder_fill_after :
    WritesUnder s.m_locked s
      (emit .anchorsChanged (emit .rightAnchorChanged (emit .leftAnchorChanged
        (emit .bottomAnchorChanged (emit .topAnchorChanged
          (anchorsRemoveMargin s.m_qmlItemNode .Bottom
            (anchorsRemoveMargin s.m_qmlItemNode .Top
              (anchorsRemoveMargin s.m_qmlItemNode .Left
                (anchorsRemoveMargin s.m_qmlItemNode .Right s))))))))) :=
  writesUnder_emit_of _ (writesUnder_emit_of _ (writesUnder_emit_of _ (writesUnder_emit_of _
    (writesUnder_emit_of _ (writesUnder_step (writesUnder_step (writesUnder_step
      (writesUnder_anchorsRemoveMargin s _ _) (by simp)
      (writesUnder_anchorsRemoveMargin _ _ _)) (by simp)
      (writesUnder_anchorsRemoveMargin _ _ _)) (by simp)
      (writesUnder_anchorsRemoveMargin _ _ _))))))

theorem fill_eq_stages :
    fill s =
      (fun b : QmlAnchorBindingProxy =>
        emit .anchorsChanged (emit .rightAnchorChanged (emit .leftAnchorChanged
          (emit .bottomAnchorChanged (emit .topAnchorChanged
            (anchorsRemoveMargin b.m_qmlItemNode .Bottom
              (anchorsRemoveMargin b.m_qmlItemNode .Top
                (anchorsRemoveMargin b.m_qmlItemNode .Left
                  (anchorsRemoveMargin b.m_qmlItemNode .Right b)))))))))
        (setVerticalCentered false (setHorizontalCentered false
          (anchorsFill s.m_qmlItemNode
            (backupPropertyAndRemove s.m_qmlItemNode "height"
              (backupPropertyAndRemove s.m_qmlItemNode "width"
                (backupPropertyAndRemove s.m_qmlItemNode "y"
                  (backupPropertyAndRemove s.m_qmlItemNode "x" s))))))) := by
  simp [fill, modelNode, anchorsRemoveMargin]

theorem writesUnder_fill :
    ∃ a : QmlAnchorBindingProxy,
      WritesUnder s.m_locked s a
        ∧ WritesUnder true a (setVerticalCentered false (setHorizontalCentered false a))
        ∧ WritesUnder (setVerticalCentered false (setHorizontalCentered false a)).m_locked
            (setVerticalCentered false (setHorizontalCentered false a)) (fill s) := by
  refine ⟨_, writesUnder_fill_before s,
    writesUnder_trans (writesUnder_setHorizontalCentered _ false)
      (writesUnder_setVerticalCentered _ false), ?_⟩
  rw [fill_eq_stages]
  exact writesUnder_fill_after _

end WritesOfOperations

/-! ### Backup consistency -/

section BackupConsistency

variable (s : QmlAnchorBindingProxy)

theorem attributeStep_of_model {s t : QmlAnchorBindingProxy} (n : ModelNode) (p : PropertyName)
    (h : t.model = s.model) : AttributeStep s t n p :=
  Or.inl (by rw [h])

theorem attributeStep_restore (n : ModelNode) (p : PropertyName) (m : Model)
    (h : property m n p
      = (match auxiliaryData? s.model n (auxDataString ++ p) with
          | some v => some (.variant v)
          | none => property s.model n p)) :
    property m n p = property s.model n p ∨ property m n p = none
      ∨ ∃ w, auxiliaryData? s.model n (auxDataString ++ p) = some w
          ∧ property m n p = some (.variant w) := by
  rcases ha : auxiliaryData? s.model n (auxDataString ++ p) with _ | w
  · rw [ha] at h
    exact Or.inl h
  · rw [ha] at h
    exact Or.inr (Or.inr ⟨w, rfl, h⟩)

theorem attributeStep_removeTopAnchor (n : ModelNode) (p : PropertyName)
    (hp : (p = "x" ∨ p = "y" ∨ p = "width" ∨ p = "height")) :
    AttributeStep s (removeTopAnchor s) n p := by
  unfold AttributeStep
  by_cases hn : n = s.m_qmlItemNode
  · subst hn
    rcases hp with rfl | rfl | rfl | rfl
    · apply Or.inl
      simp [removeTopAnchor, modelNode, anchorsRemoveMargin, marginPropertyName]
    · apply attributeStep_restore
      simp [removeTopAnchor, modelNode, anchorsRemoveMargin, marginPropertyName,
        auxDataString]
    · apply Or.inl
      simp [removeTopAnchor, modelNode, anchorsRemoveMargin, marginPropertyName]
    · apply attributeStep_restore
      simp [removeTopAnchor, modelNode, anchorsRemoveMargin, marginPropertyName,
        auxDataString]
  · rcases hp with rfl | rfl | rfl | rfl
    all_goals exact Or.inl (by
      simp [removeTopAnchor, modelNode, anchorsRemoveMargin, marginPropertyName, hn])

theorem attributeStep_setTopAnchor (anchor : Bool) (n : ModelNode) (p : PropertyName)
    (hp : (p = "x" ∨ p = "y" ∨ p = "width" ∨ p = "height")) :
    AttributeStep s (setTopAnchor anchor s) n p := by
  by_cases hparent : hasNodeParent s.model s.m_qmlItemNode = true
  swap
  · rw [setTopAnchor_of_noParent s anchor (by simpa using hparent)]
    exact Or.inl rfl
  by_cases hsame : s.topAnchored = anchor
  · rw [setTopAnchor_of_same s anchor hsame]
    exact Or.inl rfl
  cases anchor with
  | false =>
    have hm := setTopAnchor_false_model s hparent (by simpa using hsame)
    have hr := attributeStep_removeTopAnchor s n p hp
    unfold AttributeStep at hr ⊢
    rw [hm]
    exact hr
  | true =>
    have hm := setTopAnchor_true_model s hparent (by simpa using hsame)
    have hq : p ≠ "anchors.topMargin" := by
      rcases hp with rfl | rfl | rfl | rfl <;> decide
    unfold AttributeStep
    rw [hm]
    by_cases hb : s.bottomAnchored = true
    · simp only [hb, if_true, property_backupPropertyAndRemove, property_calcTopMargin, hq,
        and_false, if_false]
      split_ifs <;> simp
    · simp only [hb, Bool.false_eq_true, if_false, property_backupPropertyAndRemove,
        property_calcTopMargin, hq, and_false]
      split_ifs <;> simp

theorem attributeStep_setTopTarget (t : ModelNode) (n : ModelNode) (p : PropertyName)
    (hp : (p = "x" ∨ p = "y" ∨ p = "width" ∨ p = "height")) :
    AttributeStep s (setTopTarget t s) n p := by
  have hq : p ≠ "anchors.topMargin" := by
    rcases hp with rfl | rfl | rfl | rfl <;> decide
  unfold setTopTarget
  split_ifs
  · exact Or.inl rfl
  · exact Or.inl (by simp [hq])

theorem attributeStep_removeBottomAnchor (n : ModelNode) (p : PropertyName)
    (hp : (p = "x" ∨ p = "y" ∨ p = "width" ∨ p = "height")) :
    AttributeStep s (removeBottomAnchor s) n p := by
  unfold AttributeStep
  by_cases hn : n = s.m_qmlItemNode
  · subst hn
    rcases hp with rfl | rfl | rfl | rfl
    · apply Or.inl
      simp [removeBottomAnchor, modelNode, anchorsRemoveMargin, marginPropertyName]
    · apply Or.inl
      simp [removeBottomAnchor, modelNode, anchorsRemoveMargin, marginPropertyName]
    · apply Or.inl
      simp [removeBottomAnchor, modelNode, anchorsRemoveMargin, marginPropertyName]
    · apply attributeStep_restore
      simp [removeBottomAnchor, modelNode, anchorsRemoveMargin, marginPropertyName,
        auxDataString]
  · rcases hp with rfl | rfl | rfl | rfl
    all_goals exact Or.inl (by
      simp [removeBottomAnchor, modelNode, anchorsRemoveMargin, marginPropertyName, hn])

theorem attributeStep_setBottomAnchor (anchor : Bool) (n : ModelNode) (p : PropertyName)
    (hp : (p = "x" ∨ p = "y" ∨ p = "width" ∨ p = "height")) :
    AttributeStep s (setBottomAnchor anchor s) n p := by
  by_cases hparent : hasNodeParent s.model s.m_qmlItemNode = true
  swap
  · rw [setBottomAnchor_of_noParent s anchor (by simpa using hparent)]
    exact Or.inl rfl
  by_cases hsame : s.bottomAnchored = anchor
  · rw [setBottomAnchor_of_same s anchor hsame]
    exact Or.inl rfl
  cases anchor with
  | false =>
    have hm := setBottomAnchor_false_model s hparent (by simpa using hsame)
    have hr := attributeStep_removeBottomAnchor s n p hp
    unfold AttributeStep at hr ⊢
    rw [hm]
    exact hr
  | true =>
    have hm := setBottomAnchor_true_model s hparent (by simpa using hsame)
    have hq : p ≠ "anchors.bottomMargin" := by
      rcases hp with rfl | rfl | rfl | rfl <;> decide
    unfold AttributeStep
    rw [hm]
    by_cases hb : s.topAnchored = true
    · simp only [hb, if_true, property_backupPropertyAndRemove, property_calcBottomMargin, hq,
        and_false, if_false]
      split_ifs <;> simp
    · simp only [hb, Bool.false_eq_true, if_false, property_backupPropertyAndRemove,
        property_calcBottomMargin, hq, and_false]
      simp

theorem attributeStep_setBottomTarget (t : ModelNode) (n : ModelNode) (p : PropertyName)
    (hp : (p = "x" ∨ p = "y" ∨ p = "width" ∨ p = "height")) :
    AttributeStep s (setBottomTarget t s) n p := by
  have hq : p ≠ "anchors.bottomMargin" := by
    rcases hp with rfl | rfl | rfl | rfl <;> decide
  unfold setBottomTarget
  split_ifs
  · exact Or.inl rfl
  · exact Or.inl (by simp [hq])

theorem attributeStep_removeLeftAnchor (n : ModelNode) (p : PropertyName)
    (hp : (p = "x" ∨ p = "y" ∨ p = "width" ∨ p = "height")) :
    AttributeStep s (removeLeftAnchor s) n p := by
  unfold AttributeStep
  by_cases hn : n = s.m_qmlItemNode
  · subst hn
    rcases hp with rfl | rfl | rfl | rfl
    · apply attributeStep_restore
      simp [removeLeftAnchor, modelNode, anchorsRemoveMargin, marginPropertyName,
        auxDataString]
    · apply Or.inl
      simp [removeLeftAnchor, modelNode, anchorsRemoveMargin, marginPropertyName]
    · apply attributeStep_restore
      simp [removeLeftAnchor, modelNode, anchorsRemoveMargin, marginPropertyName,
        auxDataString]
    · apply Or.inl
      simp [removeLeftAnchor, modelNode, anchorsRemoveMargin, marginPropertyName]
  · rcases hp with rfl | rfl | rfl | rfl
    all_goals exact Or.inl (by
      simp [removeLeftAnchor, modelNode, anchorsRemoveMargin, marginPropertyName, hn])

theorem attributeStep_setLeftAnchor (anchor : Bool) (n : ModelNode) (p : PropertyName)
    (hp : (p = "x" ∨ p = "y" ∨ p = "width" ∨ p = "height")) :
    AttributeStep s (setLeftAnchor anchor s) n p := by
  by_cases hparent : hasNodeParent s.model s.m_qmlItemNode = true
  swap
  · rw [setLeftAnchor_of_noParent s anchor (by simpa using hparent)]
    exact Or.inl rfl
  by_cases hsame : s.leftAnchored = anchor
  · rw [setLeftAnchor_of_same s anchor hsame]
    exact Or.inl rfl
  cases anchor with
  | false =>
    have hm := setLeftAnchor_false_model s hparent (by simpa using hsame)
    have hr := attributeStep_removeLeftAnchor s n p hp
    unfold AttributeStep at hr ⊢
    rw [hm]
    exact hr
  | true =>
    have hm := setLeftAnchor_true_model s hparent (by simpa using hsame)
    have hq : p ≠ "anchors.leftMargin" := by
      rcases hp with rfl | rfl | rfl | rfl <;> decide
    unfold AttributeStep
    rw [hm]
    by_cases hb : s.rightAnchored = true
    · simp only [hb, if_true, property_backupPropertyAndRemove, property_calcLeftMargin, hq,
        and_false, if_false]
      split_ifs <;> simp
    · simp only [hb, Bool.false_eq_true, if_false, property_backupPropertyAndRemove,
        property_calcLeftMargin, hq, and_false]
      split_ifs <;> simp

theorem attributeStep_setLeftTarget (t : ModelNode) (n : ModelNode) (p : PropertyName)
    (hp : (p = "x" ∨ p = "y" ∨ p = "width" ∨ p = "height")) :
    AttributeStep s (setLeftTarget t s) n p := by
  have hq : p ≠ "anchors.leftMargin" := by
    rcases hp with rfl | rfl | rfl | rfl <;> decide
  unfold setLeftTarget
  split_ifs
  · exact Or.inl rfl
  · exact Or.inl (by simp [hq])

theorem attributeStep_removeRightAnchor (n : ModelNode) (p : PropertyName)
    (hp : (p = "x" ∨ p = "y" ∨ p = "width" ∨ p = "height")) :
    AttributeStep s (removeRightAnchor s) n p := by
  unfold AttributeStep
  by_cases hn : n = s.m_qmlItemNode
  · subst hn
    rcases hp with rfl | rfl | rfl | rfl
    · apply Or.inl
      simp [removeRightAnchor, modelNode, anchorsRemoveMargin, marginPropertyName]
    · apply Or.inl
      simp [removeRightAnchor, modelNode, anchorsRemoveMargin, marginPropertyName]
    · apply attributeStep_restore
      simp [removeRightAnchor, modelNode, anchorsRemoveMargin, marginPropertyName,
        auxDataString]
    · apply Or.inl
      simp [removeRightAnchor, modelNode, anchorsRemoveMargin, marginPropertyName]
  · rcases hp with rfl | rfl | rfl | rfl
    all_goals exact Or.inl (by
      simp [removeRightAnchor, modelNode, anchorsRemoveMargin, marginPropertyName, hn])

theorem attributeStep_setRightAnchor (anchor : Bool) (n : ModelNode) (p : PropertyName)
    (hp : (p = "x" ∨ p = "y" ∨ p = "width" ∨ p = "height")) :
    AttributeStep s (setRightAnchor anchor s) n p := by
  by_cases hparent : hasNodeParent s.model s.m_qmlItemNode = true
  swap
  · rw [setRightAnchor_of_noParent s anchor (by simpa using hparent)]
    exact Or.inl rfl
  by_cases hsame : s.rightAnchored = anchor
  · rw [setRightAnchor_of_same s anchor hsame]
    exact Or.inl rfl
  cases anchor with
  | false =>
    have hm := setRightAnchor_false_model s hparent (by simpa using hsame)
    have hr := attributeStep_removeRightAnchor s n p hp
    unfold AttributeStep at hr ⊢
    rw [hm]
    exact hr
  | true =>
    have hm := setRightAnchor_true_model s hparent (by simpa using hsame)
    have hq : p ≠ "anchors.rightMargin" := by
      rcases hp with rfl | rfl | rfl | rfl <;> decide
    unfold AttributeStep
    rw [hm]
    by_cases hb : s.leftAnchored = true
    · simp only [hb, if_true, property_backupPropertyAndRemove, property_calcRightMargin, hq,
        and_false, if_false]
      split_ifs <;> simp
    · simp only [hb, Bool.false_eq_true, if_false, property_backupPropertyAndRemove,
        property_calcRightMargin, hq, and_false]
      simp

theorem attributeStep_setRightTarget (t : ModelNode) (n : ModelNode) (p : PropertyName)
    (hp : (p = "x" ∨ p = "y" ∨ p = "width" ∨ p = "height")) :
    AttributeStep s (setRightTarget t s) n p := by
  have hq : p ≠ "anchors.rightMargin" := by
    rcases hp with rfl | rfl | rfl | rfl <;> decide
  unfold setRightTarget
  split_ifs
  · exact Or.inl rfl
  · exact Or.inl (by simp [hq])

theorem attributeStep_setVerticalCentered (centered : Bool) (n : ModelNode) (p : PropertyName)
    (hp : (p = "x" ∨ p = "y" ∨ p = "width" ∨ p = "height")) :
    AttributeStep s (setVerticalCentered centered s) n p := by
  have hq : p ≠ "anchors.verticalCenterOffset" := by
    rcases hp with rfl | rfl | rfl | rfl <;> decide
  exact Or.inl (property_setVerticalCentered_of_ne s centered n p hq)

theorem attributeStep_setVerticalTarget (t : ModelNode) (n : ModelNode) (p : PropertyName) :
    AttributeStep s (setVerticalTarget t s) n p :=
  Or.inl (by rw [property_setVerticalTarget])

theorem attributeStep_setHorizontalCentered (centered : Bool) (n : ModelNode) (p : PropertyName)
    (hp : (p = "x" ∨ p = "y" ∨ p = "width" ∨ p = "height")) :
    AttributeStep s (setHorizontalCentered centered s) n p := by
  have hq : p ≠ "anchors.horizontalCenterOffset" := by
    rcases hp with rfl | rfl | rfl | rfl <;> decide
  exact Or.inl (property_setHorizontalCentered_of_ne s centered n p hq)

theorem attributeStep_setHorizontalTarget (t : ModelNode) (n : ModelNode) (p : PropertyName) :
    AttributeStep s (setHorizontalTarget t s) n p :=
  Or.inl (by rw [property_setHorizontalTarget])

theorem attributeStep_fill (n : ModelNode) (p : PropertyName)
    (hp : (p = "x" ∨ p = "y" ∨ p = "width" ∨ p = "height")) :
    AttributeStep s (fill s) n p := by
  by_cases hn : n = s.m_qmlItemNode
  · subst hn
    exact Or.inr (Or.inl (property_fill_attribute s p hp))
  · rcases hp with rfl | rfl | rfl | rfl
    all_goals exact Or.inl (by
      simp [fill, modelNode, anchorsRemoveMargin, marginPropertyName,
        property_setVerticalCentered_of_ne, property_setHorizontalCentered_of_ne, hn])

theorem attributeStep_resetLayout (n : ModelNode) (p : PropertyName)
    (hp : (p = "x" ∨ p = "y" ∨ p = "width" ∨ p = "height")) :
    AttributeStep s (resetLayout s) n p := by
  by_cases hn : n = s.m_qmlItemNode
  · subst hn
    exact attributeStep_restore s _ _ _ (property_resetLayout_attribute s p hp)
  · rcases hp with rfl | rfl | rfl | rfl
    all_goals exact Or.inl (by
      simp [resetLayout, modelNode, anchorsRemoveMargin, anchorsRemoveMargins,
        marginPropertyName, hn])

theorem attributeStep (o : Operation) (n : ModelNode) (p : PropertyName)
    (hp : (p = "x" ∨ p = "y" ∨ p = "width" ∨ p = "height")) :
    AttributeStep s (o.apply s) n p := by
  cases o with
  | setup m => exact attributeStep_of_model n p (by simp [Operation.apply])
  | invalidate m => exact attributeStep_of_model n p (by simp [Operation.apply])
  | setTopAnchor b => exact attributeStep_setTopAnchor s b n p hp
  | setBottomAnchor b => exact attributeStep_setBottomAnchor s b n p hp
  | setLeftAnchor b => exact attributeStep_setLeftAnchor s b n p hp
  | setRightAnchor b => exact attributeStep_setRightAnchor s b n p hp
  | setVerticalCentered b => exact attributeStep_setVerticalCentered s b n p hp
  | setHorizontalCentered b => exact attributeStep_setHorizontalCentered s b n p hp
  | setTopTarget t => exact attributeStep_setTopTarget s t n p hp
  | setBottomTarget t => exact attributeStep_setBottomTarget s t n p hp
  | setLeftTarget t => exact attributeStep_setLeftTarget s t n p hp
  | setRightTarget t => exact attributeStep_setRightTarget s t n p hp
  | setVerticalTarget t => exact attributeStep_setVerticalTarget s t n p
  | setHorizontalTarget t => exact attributeStep_setHorizontalTarget s t n p
  | fill => exact attributeStep_fill s n p hp
  | resetLayout => exact attributeStep_resetLayout s n p hp

theorem attribute_key_injective {p q : PropertyName}
    (hp : (p = "x" ∨ p = "y" ∨ p = "width" ∨ p = "height"))
    (hq : q = "x" ∨ q = "y" ∨ q = "width" ∨ q = "height")
    (h : auxDataString ++ p = auxDataString ++ q) : p = q := by
  rcases hp with rfl | rfl | rfl | rfl <;> rcases hq with rfl | rfl | rfl | rfl <;>
    first
      | rfl
      | exact absurd h (by decide)

theorem backupConsistent_step (o : Operation) (n : ModelNode)
    (h : BackupConsistent s.model n) : BackupConsistent (o.apply s).model n := by
  intro p hp w hw a ha
  rcases aux_step s o n _ w hw with h1 | ⟨q, hq, hk, -, -, hnone⟩
  · rcases attributeStep s o n p hp with e | e | ⟨w1, e1, e2⟩
    · rw [e] at ha
      exact h p hp w h1 a ha
    · rw [e] at ha
      cases ha
    · rw [e2] at ha
      rw [h1] at e1
      cases e1
      cases ha
      rfl
  · have hpq := attribute_key_injective hp hq hk
    subst hpq
    rw [rawAttribute, ha] at hnone
    cases a <;> cases hnone

theorem backupConsistent_run (ops : List Operation) (n : ModelNode)
    (h : BackupConsistent s.model n) : BackupConsistent (run ops s).model n := by
  induction ops generalizing s with
  | nil => exact h
  | cons o rest ih => exact ih (o.apply s) (backupConsistent_step s o n h)

theorem backupConsistent_of_no_slots (n : ModelNode)
    (h : ∀ p, (p = "x" ∨ p = "y" ∨ p = "width" ∨ p = "height") →
      auxiliaryData? s.model n (auxDataString ++ p) = none) :
    BackupConsistent s.model n := by
  intro p hp w hw
  rw [h p hp] at hw
  cases hw

theorem restoreProperty_of_consistent (n : ModelNode) (p : PropertyName)
    (hp : (p = "x" ∨ p = "y" ∨ p = "width" ∨ p = "height"))
    (h : BackupConsistent s.model n) (hpresent : (property s.model n p).isSome = true) :
    property (restoreProperty n p s).model n p = property s.model n p := by
  obtain ⟨a, ha⟩ := Option.isSome_iff_exists.1 hpresent
  rw [property_restoreProperty]
  simp only [and_self, if_true]
  rcases hw : auxiliaryData? s.model n (auxDataString ++ p) with _ | w
  · rfl
  · rw [ha, h p hp w hw a ha]

end BackupConsistency

end QmlAnchorBindingProxy

/-! ## The claims -/

open QmlAnchorBindingProxy

/-- C1, as the code has it: on an item with a parent, enabling and then disabling a free
edge anchor leaves the raw attributes it neither backs up nor restores as they are. An
attribute that the enabling backs up (`y` for Top, `x` for Left, and the size attribute
of the axis when the opposite edge is anchored) keeps its presence and value exactly
when it is present or has no backup slot; the size attribute that the enabling does not
back up but the disabling restores (the opposite edge being free) keeps them exactly
when its slot, if there is one, holds its value. An attribute written as a binding
comes back as a literal of the same value. -/
theorem C1_toggle_roundtrip_exact (s : QmlAnchorBindingProxy)
    (hparent : hasNodeParent s.model s.m_qmlItemNode = true) :
    (s.topAnchored = false →
      rawAttribute (setTopAnchor false (setTopAnchor true s)).model s.m_qmlItemNode "x"
          = rawAttribute s.model s.m_qmlItemNode "x"
        ∧ rawAttribute (setTopAnchor false (setTopAnchor true s)).model s.m_qmlItemNode "width"
          = rawAttribute s.model s.m_qmlItemNode "width"
        ∧ (rawAttribute (setTopAnchor false (setTopAnchor true s)).model s.m_qmlItemNode "y"
            = rawAttribute s.model s.m_qmlItemNode "y"
          ↔ backupRestores s.model s.m_qmlItemNode "y" = true)
        ∧ (rawAttribute (setTopAnchor false (setTopAnchor true s)).model s.m_qmlItemNode "height"
            = rawAttribute s.model s.m_qmlItemNode "height"
          ↔ (if s.bottomAnchored then backupRestores s.model s.m_qmlItemNode "height"
              else backupAgrees s.model s.m_qmlItemNode "height") = true))
    ∧ (s.bottomAnchored = false →
      rawAttribute (setBottomAnchor false (setBottomAnchor true s)).model s.m_qmlItemNode "x"
          = rawAttribute s.model s.m_qmlItemNode "x"
        ∧ rawAttribute (setBottomAnchor false (setBottomAnchor true s)).model s.m_qmlItemNode "y"
          = rawAttribute s.model s.m_qmlItemNode "y"
        ∧ rawAttribute (setBottomAnchor false (setBottomAnchor true s)).model s.m_qmlItemNode "width"
          = rawAttribute s.model s.m_qmlItemNode "width"
        ∧ (rawAttribute (setBottomAnchor false (setBottomAnchor true s)).model s.m_qmlItemNode "height"
            = rawAttribute s.model s.m_qmlItemNode "height"
          ↔ (if s.topAnchored then backupRestores s.model s.m_qmlItemNode "height"
              else backupAgrees s.model s.m_qmlItemNode "height") = true))
    ∧ (s.leftAnchored = false →
      rawAttribute (setLeftAnchor false (setLeftAnchor true s)).model s.m_qmlItemNode "y"
          = rawAttribute s.model s.m_qmlItemNode "y"
        ∧ rawAttribute (setLeftAnchor false (setLeftAnchor true s)).model s.m_qmlItemNode "height"
          = rawAttribute s.model s.m_qmlItemNode "height"
        ∧ (rawAttribute (setLeftAnchor false (setLeftAnchor true s)).model s.m_qmlItemNode "x"
            = rawAttribute s.model s.m_qmlItemNode "x"
          ↔ backupRestores s.model s.m_qmlItemNode "x" = true)
        ∧ (rawAttribute (setLeftAnchor false (setLeftAnchor true s)).model s.m_qmlItemNode "width"
            = rawAttribute s.model s.m_qmlItemNode "width"
          ↔ (if s.rightAnchored then backupRestores s.model s.m_qmlItemNode "width"
              else backupAgrees s.model s.m_qmlItemNode "width") = true))
    ∧ (s.rightAnchored = false →
      rawAttribute (setRightAnchor false (setRightAnchor true s)).model s.m_qmlItemNode "x"
          = rawAttribute s.model s.m_qmlItemNode "x"
        ∧ rawAttribute (setRightAnchor false (setRightAnchor true s)).model s.m_qmlItemNode "y"
          = rawAttribute s.model s.m_qmlItemNode "y"
        ∧ rawAttribute (setRightAnchor false (setRightAnchor true s)).model s.m_qmlItemNode "height"
          = rawAttribute s.model s.m_qmlItemNode "height"
        ∧ (rawAttribute (setRightAnchor false (setRightAnchor true s)).model s.m_qmlItemNode "width"
            = rawAttribute s.model s.m_qmlItemNode "width"
          ↔ (if s.leftAnchored then backupRestores s.model s.m_qmlItemNode "width"
              else backupAgrees s.model s.m_qmlItemNode "width") = true)) := by
  have hsome := isSome_of_hasNodeParent hparent
  refine ⟨?_, ?_, ?_, ?_⟩
  · intro hfree
    have hparent1 : hasNodeParent (setTopAnchor true s).model
        (setTopAnchor true s).m_qmlItemNode = true := by
      rw [hasNodeParent_of_shape (shapeOf_setTopAnchor s true), setTopAnchor_item]
      exact hparent
    have hm := setTopAnchor_false_model _ hparent1 (setTopAnchor_true_anchored s hparent hfree)
    have ht := setTopAnchor_true_model s hparent hfree
    rw [hm]
    refine ⟨?_, ?_, ?_, ?_⟩
    · by_cases hb : s.bottomAnchored = true <;>
      rcases hc : property s.model s.m_qmlItemNode "x" with _ | ⟨v⟩ | ⟨e, v⟩ <;>
      rcases ha : auxiliaryData? s.model s.m_qmlItemNode "anchors_x" with _ | w <;>
        simp_all [removeTopAnchor, anchorsRemoveMargin, modelNode, marginPropertyName,
          auxDataString, rawAttribute, backupRestores, backupAgrees]
    · by_cases hb : s.bottomAnchored = true <;>
      rcases hc : property s.model s.m_qmlItemNode "width" with _ | ⟨v⟩ | ⟨e, v⟩ <;>
      rcases ha : auxiliaryData? s.model s.m_qmlItemNode "anchors_width" with _ | w <;>
        simp_all [removeTopAnchor, anchorsRemoveMargin, modelNode, marginPropertyName,
          auxDataString, rawAttribute, backupRestores, backupAgrees]
    · by_cases hb : s.bottomAnchored = true <;>
      rcases hc : property s.model s.m_qmlItemNode "y" with _ | ⟨v⟩ | ⟨e, v⟩ <;>
      rcases ha : auxiliaryData? s.model s.m_qmlItemNode "anchors_y" with _ | w <;>
        simp_all [removeTopAnchor, anchorsRemoveMargin, modelNode, marginPropertyName,
          auxDataString, rawAttribute, backupRestores, backupAgrees]
    · by_cases hb : s.bottomAnchored = true <;>
      rcases hc : property s.model s.m_qmlItemNode "height" with _ | ⟨v⟩ | ⟨e, v⟩ <;>
      rcases ha : auxiliaryData? s.model s.m_qmlItemNode "anchors_height" with _ | w <;>
        simp_all [removeTopAnchor, anchorsRemoveMargin, modelNode, marginPropertyName,
          auxDataString, rawAttribute, backupRestores, backupAgrees] <;>
        exact eq_comm
  · intro hfree
    have hparent1 : hasNodeParent (setBottomAnchor true s).model
        (setBottomAnchor true s).m_qmlItemNode = true := by
      rw [hasNodeParent_of_shape (shapeOf_setBottomAnchor s true), setBottomAnchor_item]
      exact hparent
    have hm := setBottomAnchor_false_model _ hparent1 (setBottomAnchor_true_anchored s hparent hfree)
    have ht := setBottomAnchor_true_model s hparent hfree
    rw [hm]
    refine ⟨?_, ?_, ?_, ?_⟩
    · by_cases hb : s.topAnchored = true <;>
      rcases hc : property s.model s.m_qmlItemNode "x" with _ | ⟨v⟩ | ⟨e, v⟩ <;>
      rcases ha : auxiliaryData? s.model s.m_qmlItemNode "anchors_x" with _ | w <;>
        simp_all [removeBottomAnchor, anchorsRemoveMargin, modelNode, marginPropertyName,
          auxDataString, rawAttribute, backupRestores, backupAgrees]
    · by_cases hb : s.topAnchored = true <;>
      rcases hc : property s.model s.m_qmlItemNode "y" with _ | ⟨v⟩ | ⟨e, v⟩ <;>
      rcases ha : auxiliaryData? s.model s.m_qmlItemNode "anchors_y" with _ | w <;>
        simp_all [removeBottomAnchor, anchorsRemoveMargin, modelNode, marginPropertyName,
          auxDataString, rawAttribute, backupRestores, backupAgrees]
    · by_cases hb : s.topAnchored = true <;>
      rcases hc : property s.model s.m_qmlItemNode "width" with _ | ⟨v⟩ | ⟨e, v⟩ <;>
      rcases ha : auxiliaryData? s.model s.m_qmlItemNode "anchors_width" with _ | w <;>
        simp_all [removeBottomAnchor, anchorsRemoveMargin, modelNode, marginPropertyName,
          auxDataString, rawAttribute, backupRestores, backupAgrees]
    · by_cases hb : s.topAnchored = true <;>
      rcases hc : property s.model s.m_qmlItemNode "height" with _ | ⟨v⟩ | ⟨e, v⟩ <;>
      rcases ha : auxiliaryData? s.model s.m_qmlItemNode "anchors_height" with _ | w <;>
        simp_all [removeBottomAnchor, anchorsRemoveMargin, modelNode, marginPropertyName,
          auxDataString, rawAttribute, backupRestores, backupAgrees] <;>
        exact eq_comm
  · intro hfree
    have hparent1 : hasNodeParent (setLeftAnchor true s).model
        (setLeftAnchor true s).m_qmlItemNode = true := by
      rw [hasNodeParent_of_shape (shapeOf_setLeftAnchor s true), setLeftAnchor_item]
      exact hparent
    have hm := setLeftAnchor_false_model _ hparent1 (setLeftAnchor_true_anchored s hparent hfree)
    have ht := setLeftAnchor_true_model s hparent hfree
    rw [hm]
    refine ⟨?_, ?_, ?_, ?_⟩
    · by_cases hb : s.rightAnchored = true <;>
      rcases hc : property s.model s.m_qmlItemNode "y" with _ | ⟨v⟩ | ⟨e, v⟩ <;>
      rcases ha : auxiliaryData? s.model s.m_qmlItemNode "anchors_y" with _ | w <;>
        simp_all [removeLeftAnchor, anchorsRemoveMargin, modelNode, marginPropertyName,
          auxDataString, rawAttribute, backupRestores, backupAgrees]
    · by_cases hb : s.rightAnchored = true <;>
      rcases hc : property s.model s.m_qmlItemNode "height" with _ | ⟨v⟩ | ⟨e, v⟩ <;>
      rcases ha : auxiliaryData? s.model s.m_qmlItemNode "anchors_height" with _ | w <;>
        simp_all [removeLeftAnchor, anchorsRemoveMargin, modelNode, marginPropertyName,
          auxDataString, rawAttribute, backupRestores, backupAgrees]
    · by_cases hb : s.rightAnchored = true <;>
      rcases hc : property s.model s.m_qmlItemNode "x" with _ | ⟨v⟩ | ⟨e, v⟩ <;>
      rcases ha : auxiliaryData? s.model s.m_qmlItemNode "anchors_x" with _ | w <;>
        simp_all [removeLeftAnchor, anchorsRemoveMargin, modelNode, marginPropertyName,
          auxDataString, rawAttribute, backupRestores, backupAgrees]
    · by_cases hb : s.rightAnchored = true <;>
      rcases hc : property s.model s.m_qmlItemNode "width" with _ | ⟨v⟩ | ⟨e, v⟩ <;>
      rcases ha : auxiliaryData? s.model s.m_qmlItemNode "anchors_width" with _ | w <;>
        simp_all [removeLeftAnchor, anchorsRemoveMargin, modelNode, marginPropertyName,
          auxDataString, rawAttribute, backupRestores, backupAgrees] <;>
        exact eq_comm
  · intro hfree
    have hparent1 : hasNodeParent (setRightAnchor true s).model
        (setRightAnchor true s).m_qmlItemNode = true := by
      rw [hasNodeParent_of_shape (shapeOf_setRightAnchor s true), setRightAnchor_item]
      exact hparent
    have hm := setRightAnchor_false_model _ hparent1 (setRightAnchor_true_anchored s hparent hfree)
    have ht := setRightAnchor_true_model s hparent hfree
    rw [hm]
    refine ⟨?_, ?_, ?_, ?_⟩
    · by_cases hb : s.leftAnchored = true <;>
      rcases hc : property s.model s.m_qmlItemNode "x" with _ | ⟨v⟩ | ⟨e, v⟩ <;>
      rcases ha : auxiliaryData? s.model s.m_qmlItemNode "anchors_x" with _ | w <;>
        simp_all [removeRightAnchor, anchorsRemoveMargin, modelNode, marginPropertyName,
          auxDataString, rawAttribute, backupRestores, backupAgrees]
    · by_cases hb : s.leftAnchored = true <;>
      rcases hc : property s.model s.m_qmlItemNode "y" with _ | ⟨v⟩ | ⟨e, v⟩ <;>
      rcases ha : auxiliaryData? s.model s.m_qmlItemNode "anchors_y" with _ | w <;>
        simp_all [removeRightAnchor, anchorsRemoveMargin, modelNode, marginPropertyName,
          auxDataString, rawAttribute, backupRestores, backupAgrees]
    · by_cases hb : s.leftAnchored = true <;>
      rcases hc : property s.model s.m_qmlItemNode "height" with _ | ⟨v⟩ | ⟨e, v⟩ <;>
      rcases ha : auxiliaryData? s.model s.m_qmlItemNode "anchors_height" with _ | w <;>
        simp_all [removeRightAnchor, anchorsRemoveMargin, modelNode, marginPropertyName,
          auxDataString, rawAttribute, backupRestores, backupAgrees]
    · by_cases hb : s.leftAnchored = true <;>
      rcases hc : property s.model s.m_qmlItemNode "width" with _ | ⟨v⟩ | ⟨e, v⟩ <;>
      rcases ha : auxiliaryData? s.model s.m_qmlItemNode "anchors_width" with _ | w <;>
        simp_all [removeRightAnchor, anchorsRemoveMargin, modelNode, marginPropertyName,
          auxDataString, rawAttribute, backupRestores, backupAgrees] <;>
        exact eq_comm

/-- Witness of C1: after `fill()` and `resetLayout()` the item's `y` was edited to 30
while its slot still holds 20. Top is free and Bottom too; `y` is present, and the slot
of `height` holds the height 50, so toggling Top on and off leaves `y` at 30 and
`height` at 50. -/
theorem C1_toggle_roundtrip_exact_witness :
    hasNodeParent scenarioStaleY.model scenarioStaleY.m_qmlItemNode = true
      ∧ scenarioStaleY.topAnchored = false
      ∧ scenarioStaleY.bottomAnchored = false
      ∧ auxiliaryData? scenarioStaleY.model (some 1) "anchors_y" = some (.real 20)
      ∧ rawAttribute scenarioStaleY.model (some 1) "y" = some (.real 30)
      ∧ rawAttribute (setTopAnchor false (setTopAnchor true scenarioStaleY)).model
          (some 1) "y" = some (.real 30)
      ∧ rawAttribute (setTopAnchor false (setTopAnchor true scenarioStaleY)).model
          (some 1) "height" = some (.real 50) := by
  obtain ⟨_, _, hy, hh⟩ := (C1_toggle_roundtrip_exact scenarioStaleY (by decide)).1 (by decide)
  exact ⟨by decide, by decide, by decide, by decide, by decide,
    (hy.2 (by decide)).trans (by decide), (hh.2 (by decide)).trans (by decide)⟩

/-- Counterexample to C1 as stated: the item has a parent and Top is free; its height
is 80 while the backup slot left by an earlier `fill()` still holds 50. Enabling and then
disabling Top changes the height from 80 to 50. -/
theorem C1_counterexample_stale_backup :
    hasNodeParent scenarioStaleBackup.model scenarioStaleBackup.m_qmlItemNode = true
      ∧ scenarioStaleBackup.topAnchored = false
      ∧ rawAttribute scenarioStaleBackup.model (some 1) "height" = some (.real 80)
      ∧ rawAttribute (setTopAnchor false (setTopAnchor true scenarioStaleBackup)).model
          (some 1) "height" = some (.real 50) := by
  decide

/-- C2, as the code has it: for every item and every anchor configuration, after `fill()`
followed by `resetLayout()` each of `x`, `y`, `width` and `height` that was present
immediately before `fill()` has the value it had; one that was absent comes back with
the value of its older backup slot when there is one, and stays absent otherwise. -/
theorem C2_fill_reset_restores_present_attributes (s : QmlAnchorBindingProxy)
    (p : PropertyName) (hp : p = "x" ∨ p = "y" ∨ p = "width" ∨ p = "height") :
    rawAttribute (resetLayout (fill s)).model s.m_qmlItemNode p
      = (match rawAttribute s.model s.m_qmlItemNode p with
          | some v => some v
          | none => auxiliaryData? s.model s.m_qmlItemNode (auxDataString ++ p)) := by
  have haux : auxiliaryData? (fill s).model s.m_qmlItemNode (auxDataString ++ p)
        = (match rawAttribute s.model s.m_qmlItemNode p with
          | some v => some v
          | none => auxiliaryData? s.model s.m_qmlItemNode (auxDataString ++ p)) := by
    rcases hp with rfl | rfl | rfl | rfl <;>
      simp [fill, modelNode, anchorsRemoveMargin, marginPropertyName, auxDataString, rawAttribute]
  have hreset : property (resetLayout (fill s)).model s.m_qmlItemNode p
      = (match auxiliaryData? (fill s).model s.m_qmlItemNode (auxDataString ++ p) with
          | some v => some (.variant v)
          | none => property (fill s).model s.m_qmlItemNode p) := by
    rcases hp with rfl | rfl | rfl | rfl <;>
      simp [resetLayout, modelNode, anchorsRemoveMargin, anchorsRemoveMargins, marginPropertyName,
        auxDataString]
  rw [rawAttribute, hreset, haux, property_fill_attribute s p hp]
  rcases rawAttribute s.model s.m_qmlItemNode p with _ | v
  · rcases auxiliaryData? s.model s.m_qmlItemNode (auxDataString ++ p) with _ | w <;> rfl
  · rfl

/-- Witness of C2: with Top anchored, the height 50 is present before `fill()` and is 50
again after `fill()` and `resetLayout()`. -/
theorem C2_fill_reset_restores_present_attributes_witness :
    rawAttribute scenarioTopAnchored.model (some 1) "height" = some (.real 50)
      ∧ rawAttribute (resetLayout (fill scenarioTopAnchored)).model (some 1) "height"
        = some (.real 50) := by
  have h := C2_fill_reset_restores_present_attributes scenarioTopAnchored "height"
    (Or.inr (Or.inr (Or.inr rfl)))
  have h0 : rawAttribute scenarioTopAnchored.model scenarioTopAnchored.m_qmlItemNode "height"
      = some (.real 50) := by decide
  rw [h0] at h
  exact ⟨h0, h⟩

/-- Counterexample to C2 as stated: with Top anchored, `y` is absent immediately before
`fill()`, and after `fill()` and `resetLayout()` it is present with the value 20 of the
backup slot written when Top was anchored. -/
theorem C2_counterexample_absent_attribute_reappears :
    hasNodeParent scenarioTopAnchored.model scenarioTopAnchored.m_qmlItemNode = true
      ∧ rawAttribute scenarioTopAnchored.model (some 1) "y" = none
      ∧ rawAttribute (resetLayout (fill scenarioTopAnchored)).model (some 1) "y"
        = some (.real 20) := by
  decide

/-- C3: on an item with a parent whose Top is not anchored and whose cached Top target
is the parent, `setTopAnchor(true)` stores as top margin the top of the item's
transformed bounding box minus the top of the parent's bounding box, which is the
parent's content rectangle when that is valid and its plain rectangle otherwise, and
binds Top to the Top line of the parent. -/
theorem C3_top_margin_against_parent (s : QmlAnchorBindingProxy)
    (hparent : hasNodeParent s.model s.m_qmlItemNode = true)
    (htarget : s.m_topTarget = parentModelNode s.model s.m_qmlItemNode)
    (hfree : s.topAnchored = false) :
    property (setTopAnchor true s).model s.m_qmlItemNode "anchors.topMargin"
        = some (.variant (.real (s.transformedBoundingBox.top - s.parentBoundingBox.top)))
      ∧ instanceAnchor (setTopAnchor true s).model s.m_qmlItemNode .Top
        = some ⟨parentModelNode s.model s.m_qmlItemNode, .Top⟩
      ∧ s.parentBoundingBox
        = (if (instanceContentItemBoundingRect s.model
              (parentModelNode s.model s.m_qmlItemNode)).isValid then
            instanceContentItemBoundingRect s.model (parentModelNode s.model s.m_qmlItemNode)
          else instanceBoundingRect s.model (parentModelNode s.model s.m_qmlItemNode)) := by
  have hsome := isSome_of_hasNodeParent hparent
  have hpb : hasInstanceParent s.model s.m_qmlItemNode = true := hparent
  refine ⟨?_, ?_, ?_⟩
  · simp only [setTopAnchor, hparent, hfree, modelNode, apply_ite QmlAnchorBindingProxy.model,
      emit_model]
    simp only [Bool.not_true, Bool.false_eq_true, ↓reduceIte]
    split_ifs <;> simp [hsome, htarget]
  · simp only [setTopAnchor, hparent, hfree, modelNode, apply_ite QmlAnchorBindingProxy.model,
      emit_model]
    simp only [Bool.not_true, Bool.false_eq_true, ↓reduceIte]
    split_ifs <;> simp [hsome, htarget]
  · simp [parentBoundingBox, hpb, instanceParentItem]

/-- Witness of C3: the item with local rectangle (0,0,100,50) at (20,20) in a parent
with content rectangle (0,0,300,200) gets top margin 20 against the Top of the parent. -/
theorem C3_top_margin_against_parent_witness :
    hasNodeParent scenario.model scenario.m_qmlItemNode = true
      ∧ scenario.m_topTarget = parentModelNode scenario.model scenario.m_qmlItemNode
      ∧ scenario.topAnchored = false
      ∧ property (setTopAnchor true scenario).model (some 1) "anchors.topMargin"
        = some (.variant (.real 20))
      ∧ instanceAnchor (setTopAnchor true scenario).model (some 1) .Top
        = some ⟨some 0, .Top⟩ := by
  have h := C3_top_margin_against_parent scenario (by decide) (by decide) (by decide)
  have e1 : scenario.transformedBoundingBox = QRectF.translated ⟨0, 0, 100, 50⟩ 20 20 := rfl
  have e2 : scenario.parentBoundingBox = ⟨0, 0, 300, 200⟩ := by decide
  have h1 := h.1
  rw [e1, e2] at h1
  norm_num [QRectF.top, QRectF.translated] at h1
  exact ⟨by decide, by decide, by decide, h1, h.2.1⟩

/-- C4: on an item with a parent whose Top is not anchored and whose cached Top target
is a valid item other than the parent, `setTopAnchor(true)` stores as top margin the top
of the item's bounding box minus the bottom of the target's bounding box, each being
the item's local rectangle mapped through its transform, and binds Top to the Bottom
line of the target. -/
theorem C4_top_margin_against_other_item (s : QmlAnchorBindingProxy)
    (hparent : hasNodeParent s.model s.m_qmlItemNode = true)
    (hvalid : isValid s.m_topTarget = true)
    (hother : s.m_topTarget ≠ parentModelNode s.model s.m_qmlItemNode)
    (hfree : s.topAnchored = false) :
    property (setTopAnchor true s).model s.m_qmlItemNode "anchors.topMargin"
        = some (.variant (.real
            ((s.boundingBox s.m_qmlItemNode).top - (s.boundingBox s.m_topTarget).bottom)))
      ∧ instanceAnchor (setTopAnchor true s).model s.m_qmlItemNode .Top
        = some ⟨s.m_topTarget, .Bottom⟩
      ∧ s.boundingBox s.m_topTarget
        = (instanceTransform s.model s.m_topTarget).mapRect
            (instanceBoundingRect s.model s.m_topTarget)
      ∧ s.boundingBox s.m_qmlItemNode
        = (instanceTransform s.model s.m_qmlItemNode).mapRect
            (instanceBoundingRect s.model s.m_qmlItemNode) := by
  have hsome := isSome_of_hasNodeParent hparent
  refine ⟨?_, ?_, ?_, ?_⟩
  · simp only [setTopAnchor, hparent, hfree, modelNode, apply_ite QmlAnchorBindingProxy.model,
      emit_model]
    simp only [Bool.not_true, Bool.false_eq_true, ↓reduceIte]
    split_ifs <;> simp [hsome, hother]
  · simp only [setTopAnchor, hparent, hfree, modelNode, apply_ite QmlAnchorBindingProxy.model,
      emit_model]
    simp only [Bool.not_true, Bool.false_eq_true, ↓reduceIte]
    split_ifs <;> simp [hsome, hother]
  · simp [boundingBox, hvalid]
  · simp [boundingBox, isValid, hsome]

/-- Witness of C4: with the sibling at (20,5) of height 10 as Top target, the item at
(20,20) gets top margin 5 against the Bottom of the sibling. -/
theorem C4_top_margin_against_other_item_witness :
    hasNodeParent scenarioSiblingTarget.model scenarioSiblingTarget.m_qmlItemNode = true
      ∧ isValid scenarioSiblingTarget.m_topTarget = true
      ∧ scenarioSiblingTarget.m_topTarget
        ≠ parentModelNode scenarioSiblingTarget.model scenarioSiblingTarget.m_qmlItemNode
      ∧ scenarioSiblingTarget.topAnchored = false
      ∧ property (setTopAnchor true scenarioSiblingTarget).model (some 1) "anchors.topMargin"
        = some (.variant (.real 5))
      ∧ instanceAnchor (setTopAnchor true scenarioSiblingTarget).model (some 1) .Top
        = some ⟨some 2, .Bottom⟩ := by
  have h := C4_top_margin_against_other_item scenarioSiblingTarget (by decide) (by decide)
    (by decide) (by decide)
  have e1 : scenarioSiblingTarget.boundingBox scenarioSiblingTarget.m_qmlItemNode
      = QRectF.translated ⟨0, 0, 100, 50⟩ 20 20 := rfl
  have e2 : scenarioSiblingTarget.boundingBox scenarioSiblingTarget.m_topTarget
      = QRectF.translated ⟨0, 0, 100, 10⟩ 20 5 := rfl
  have h1 := h.1
  rw [e1, e2] at h1
  norm_num [QRectF.top, QRectF.bottom, QRectF.translated] at h1
  exact ⟨by decide, by decide, by decide, by decide, h1, h.2.1⟩

/-- C5: on an item with a parent, enabling a free Bottom, Left or Right anchor stores,
when the cached target is the parent, the distance between the item's transformed edge
and the parent's edge on the same side, bound to the same side of the parent; and for
any other target the gap to the target's opposite edge, bound to the opposite side.
The item's transformed edge is taken from its local rectangle mapped through its
transform with the content transform, the parent's edge from the content rectangle of
the parent when that is valid and from its plain rectangle otherwise, and the edges of
the item and of another target from the local rectangle mapped through the transform. -/
theorem C5_margin_rule_other_edges (s : QmlAnchorBindingProxy)
    (hparent : hasNodeParent s.model s.m_qmlItemNode = true) :
    (s.bottomAnchored = false →
      property (setBottomAnchor true s).model s.m_qmlItemNode "anchors.bottomMargin"
          = some (.variant (.real
              (if s.m_bottomTarget = parentModelNode s.model s.m_qmlItemNode then
                s.parentBoundingBox.bottom - s.transformedBoundingBox.bottom
              else (s.boundingBox s.m_bottomTarget).top
                - (s.boundingBox s.m_qmlItemNode).bottom)))
        ∧ instanceAnchor (setBottomAnchor true s).model s.m_qmlItemNode .Bottom
          = some ⟨s.m_bottomTarget,
              if s.m_bottomTarget = parentModelNode s.model s.m_qmlItemNode then .Bottom
              else .Top⟩)
    ∧ (s.leftAnchored = false →
      property (setLeftAnchor true s).model s.m_qmlItemNode "anchors.leftMargin"
          = some (.variant (.real
              (if s.m_leftTarget = parentModelNode s.model s.m_qmlItemNode then
                s.transformedBoundingBox.left - s.parentBoundingBox.left
              else (s.boundingBox s.m_qmlItemNode).left
                - (s.boundingBox s.m_leftTarget).right)))
        ∧ instanceAnchor (setLeftAnchor true s).model s.m_qmlItemNode .Left
          = some ⟨s.m_leftTarget,
              if s.m_leftTarget = parentModelNode s.model s.m_qmlItemNode then .Left
              else .Right⟩)
    ∧ (s.rightAnchored = false →
      property (setRightAnchor true s).model s.m_qmlItemNode "anchors.rightMargin"
          = some (.variant (.real
              (if s.m_rightTarget = parentModelNode s.model s.m_qmlItemNode then
                s.parentBoundingBox.right - s.transformedBoundingBox.right
              else (s.boundingBox s.m_rightTarget).left
                - (s.boundingBox s.m_qmlItemNode).right)))
        ∧ instanceAnchor (setRightAnchor true s).model s.m_qmlItemNode .Right
          = some ⟨s.m_rightTarget,
              if s.m_rightTarget = parentModelNode s.model s.m_qmlItemNode then .Right
              else .Left⟩)
    ∧ s.transformedBoundingBox
      = (instanceTransformWithContentTransform s.model s.m_qmlItemNode).mapRect
          (instanceBoundingRect s.model s.m_qmlItemNode)
    ∧ (hasNodeParent s.model s.m_qmlItemNode = true →
      s.parentBoundingBox
        = (if (instanceContentItemBoundingRect s.model
              (parentModelNode s.model s.m_qmlItemNode)).isValid then
            instanceContentItemBoundingRect s.model (parentModelNode s.model s.m_qmlItemNode)
          else instanceBoundingRect s.model (parentModelNode s.model s.m_qmlItemNode)))
    ∧ (∀ n, isValid n = true →
      s.boundingBox n = (instanceTransform s.model n).mapRect (instanceBoundingRect s.model n)) := by
  have hsome := isSome_of_hasNodeParent hparent
  refine ⟨fun hfree => ⟨?_, ?_⟩, fun hfree => ⟨?_, ?_⟩, fun hfree => ⟨?_, ?_⟩, rfl,
    fun hp => by
      have hpb : hasInstanceParent s.model s.m_qmlItemNode = true := hp
      simp [parentBoundingBox, hpb, instanceParentItem],
    fun n hn => by simp [boundingBox, hn]⟩
  · simp only [setBottomAnchor, hparent, hfree, modelNode,
      apply_ite QmlAnchorBindingProxy.model, emit_model]
    simp only [Bool.not_true, Bool.false_eq_true, ↓reduceIte]
    split_ifs <;> simp_all
  · simp only [setBottomAnchor, hparent, hfree, modelNode,
      apply_ite QmlAnchorBindingProxy.model, emit_model]
    simp only [Bool.not_true, Bool.false_eq_true, ↓reduceIte]
    split_ifs <;> simp_all
  · simp only [setLeftAnchor, hparent, hfree, modelNode,
      apply_ite QmlAnchorBindingProxy.model, emit_model]
    simp only [Bool.not_true, Bool.false_eq_true, ↓reduceIte]
    split_ifs <;> simp_all
  · simp only [setLeftAnchor, hparent, hfree, modelNode,
      apply_ite QmlAnchorBindingProxy.model, emit_model]
    simp only [Bool.not_true, Bool.false_eq_true, ↓reduceIte]
    split_ifs <;> simp_all
  · simp only [setRightAnchor, hparent, hfree, modelNode,
      apply_ite QmlAnchorBindingProxy.model, emit_model]
    simp only [Bool.not_true, Bool.false_eq_true, ↓reduceIte]
    split_ifs <;> simp_all
  · simp only [setRightAnchor, hparent, hfree, modelNode,
      apply_ite QmlAnchorBindingProxy.model, emit_model]
    simp only [Bool.not_true, Bool.false_eq_true, ↓reduceIte]
    split_ifs <;> simp_all

/-- Witness of C5: in the second document the item's transformed box is (35,28,100,50)
and the parent's content rectangle (5,10,390,280), so against the parent the margins are
212 to the bottom, 30 to the left and 260 to the right, each bound to the same side. With
the neighbour at (160,95,40,30) as target and the item's box (30,20,100,50), the margins
are 25 below (to its Top), -170 to the left (to its Right) and 30 to the right (to its
Left). -/
theorem C5_margin_rule_other_edges_witness :
    hasNodeParent layout.model layout.m_qmlItemNode = true
      ∧ hasNodeParent layoutNeighbourTargets.model layoutNeighbourTargets.m_qmlItemNode = true
      ∧ property (setBottomAnchor true layout).model (some 1) "anchors.bottomMargin"
        = some (.variant (.real 212))
      ∧ instanceAnchor (setBottomAnchor true layout).model (some 1) .Bottom
        = some ⟨some 0, .Bottom⟩
      ∧ property (setLeftAnchor true layout).model (some 1) "anchors.leftMargin"
        = some (.variant (.real 30))
      ∧ instanceAnchor (setLeftAnchor true layout).model (some 1) .Left
        = some ⟨some 0, .Left⟩
      ∧ property (setRightAnchor true layout).model (some 1) "anchors.rightMargin"
        = some (.variant (.real 260))
      ∧ instanceAnchor (setRightAnchor true layout).model (some 1) .Right
        = some ⟨some 0, .Right⟩
      ∧ property (setBottomAnchor true layoutNeighbourTargets).model (some 1)
          "anchors.bottomMargin" = some (.variant (.real 25))
      ∧ instanceAnchor (setBottomAnchor true layoutNeighbourTargets).model (some 1) .Bottom
        = some ⟨some 2, .Top⟩
      ∧ property (setLeftAnchor true layoutNeighbourTargets).model (some 1)
          "anchors.leftMargin" = some (.variant (.real (-170)))
      ∧ instanceAnchor (setLeftAnchor true layoutNeighbourTargets).model (some 1) .Left
        = some ⟨some 2, .Right⟩
      ∧ property (setRightAnchor true layoutNeighbourTargets).model (some 1)
          "anchors.rightMargin" = some (.variant (.real 30))
      ∧ instanceAnchor (setRightAnchor true layoutNeighbourTargets).model (some 1) .Right
        = some ⟨some 2, .Left⟩ := by
  obtain ⟨hb, hl, hr, _⟩ := C5_margin_rule_other_edges layout (by decide)
  obtain ⟨nb, nl, nr, _⟩ := C5_margin_rule_other_edges layoutNeighbourTargets (by decide)
  have e1 : layout.transformedBoundingBox = QRectF.translated ⟨0, 0, 100, 50⟩ 35 28 := rfl
  have e2 : layout.parentBoundingBox = ⟨5, 10, 390, 280⟩ := by decide
  have e3 : layoutNeighbourTargets.boundingBox layoutNeighbourTargets.m_qmlItemNode
      = QRectF.translated ⟨0, 0, 100, 50⟩ 30 20 := rfl
  have e4 : layoutNeighbourTargets.boundingBox (some 2)
      = QRectF.translated ⟨0, 0, 40, 30⟩ 160 95 := rfl
  have tb : layout.m_bottomTarget = parentModelNode layout.model layout.m_qmlItemNode := by
    decide
  have tl : layout.m_leftTarget = parentModelNode layout.model layout.m_qmlItemNode := by
    decide
  have tr : layout.m_rightTarget = parentModelNode layout.model layout.m_qmlItemNode := by
    decide
  have ob : layoutNeighbourTargets.m_bottomTarget
      ≠ parentModelNode layoutNeighbourTargets.model layoutNeighbourTargets.m_qmlItemNode := by
    decide
  have ol : layoutNeighbourTargets.m_leftTarget
      ≠ parentModelNode layoutNeighbourTargets.model layoutNeighbourTargets.m_qmlItemNode := by
    decide
  have or : layoutNeighbourTargets.m_rightTarget
      ≠ parentModelNode layoutNeighbourTargets.model layoutNeighbourTargets.m_qmlItemNode := by
    decide
  have sb : layoutNeighbourTargets.m_bottomTarget = some 2 := rfl
  have sl : layoutNeighbourTargets.m_leftTarget = some 2 := rfl
  have sr : layoutNeighbourTargets.m_rightTarget = some 2 := rfl
  obtain ⟨hb1, hb2⟩ := hb (by decide)
  obtain ⟨hl1, hl2⟩ := hl (by decide)
  obtain ⟨hr1, hr2⟩ := hr (by decide)
  obtain ⟨nb1, nb2⟩ := nb (by decide)
  obtain ⟨nl1, nl2⟩ := nl (by decide)
  obtain ⟨nr1, nr2⟩ := nr (by decide)
  rw [if_pos tb, e1, e2] at hb1
  rw [if_pos tl, e1, e2] at hl1
  rw [if_pos tr, e1, e2] at hr1
  rw [if_pos tb] at hb2
  rw [if_pos tl] at hl2
  rw [if_pos tr] at hr2
  rw [if_neg ob, sb, e3, e4] at nb1
  rw [if_neg ol, sl, e3, e4] at nl1
  rw [if_neg or, sr, e3, e4] at nr1
  rw [if_neg ob, sb] at nb2
  rw [if_neg ol, sl] at nl2
  rw [if_neg or, sr] at nr2
  norm_num [QRectF.bottom, QRectF.translated] at hb1
  norm_num [QRectF.left, QRectF.translated] at hl1
  norm_num [QRectF.right, QRectF.translated] at hr1
  norm_num [QRectF.top, QRectF.bottom, QRectF.translated] at nb1
  norm_num [QRectF.left, QRectF.right, QRectF.translated] at nl1
  norm_num [QRectF.left, QRectF.right, QRectF.translated] at nr1
  exact ⟨by decide, by decide, hb1, hb2, hl1, hl2, hr1, hr2, nb1, nb2, nl1, nl2, nr1, nr2⟩

/-- C6, as the code has it: `isFilled()` is true exactly when the four edges are anchored
and the integer value (`toInt`, rounding to the nearest integer) of each of the four
margins is zero; setting one of the four margins to a value whose integer value is not
zero makes `isFilled()` false. -/
theorem C6_isFilled_integer_margins (s : QmlAnchorBindingProxy) :
    (s.isFilled = true ↔
      s.topAnchored = true ∧ s.bottomAnchored = true ∧ s.leftAnchored = true
        ∧ s.rightAnchored = true
        ∧ (instanceValue s.model s.m_qmlItemNode "anchors.topMargin").toInt = 0
        ∧ (instanceValue s.model s.m_qmlItemNode "anchors.bottomMargin").toInt = 0
        ∧ (instanceValue s.model s.m_qmlItemNode "anchors.leftMargin").toInt = 0
        ∧ (instanceValue s.model s.m_qmlItemNode "anchors.rightMargin").toInt = 0)
      ∧ ∀ (l : AnchorLine) (d : ℚ),
          (l = .Top ∨ l = .Bottom ∨ l = .Left ∨ l = .Right) →
          (QVariant.real d).toInt ≠ 0 →
          (anchorsSetMargin s.m_qmlItemNode l d s).isFilled = false := by
  refine ⟨isFilled_iff s, fun l d hl hd => ?_⟩
  cases hitem : s.m_qmlItemNode.isSome with
  | false => simp [isFilled, isValid, hitem, anchorsSetMargin]
  | true =>
    have hv := instanceValue_anchorsSetMargin s l d hitem
    rw [Bool.eq_false_iff]
    intro hfilled
    obtain ⟨_, _, _, _, ht, hb, hl1, hr⟩ := (isFilled_iff _).1 hfilled
    simp only [anchorsSetMargin, setVariantProperty_item] at ht hb hl1 hr
    simp only [anchorsSetMargin] at hv
    rcases hl with rfl | rfl | rfl | rfl
    · rw [show ("anchors.topMargin" : PropertyName) = marginPropertyName .Top from rfl, hv] at ht
      exact hd ht
    · rw [show ("anchors.bottomMargin" : PropertyName) = marginPropertyName .Bottom from rfl,
        hv] at hb
      exact hd hb
    · rw [show ("anchors.leftMargin" : PropertyName) = marginPropertyName .Left from rfl,
        hv] at hl1
      exact hd hl1
    · rw [show ("anchors.rightMargin" : PropertyName) = marginPropertyName .Right from rfl,
        hv] at hr
      exact hd hr

/-- Witness of C6: setting the top margin of the filled scenario to 1, whose integer
value is 1, makes `isFilled()` false. -/
theorem C6_isFilled_integer_margins_witness :
    (QVariant.real 1).toInt ≠ 0
      ∧ (anchorsSetMargin (fill scenario).m_qmlItemNode .Top 1 (fill scenario)).isFilled
        = false := by
  have h1 : (QVariant.real 1).toInt ≠ 0 := by
    show Int.floor ((1 : ℚ) + 1 / 2) ≠ 0
    rw [Ne, Int.floor_eq_iff]
    norm_num
  exact ⟨h1, (C6_isFilled_integer_margins (fill scenario)).2 .Top 1 (Or.inl rfl) h1⟩

/-- Counterexample to C6 as stated: after `fill()` the top margin of the scenario is set
to 2/5, which is not zero, and `isFilled()` is still true. -/
theorem C6_counterexample_fractional_margin :
    instanceValue scenarioFilledFractional.model scenarioFilledFractional.m_qmlItemNode
        "anchors.topMargin" = QVariant.real (2 / 5)
      ∧ (2 / 5 : ℚ) ≠ 0
      ∧ (fill scenario).isFilled = true
      ∧ scenarioFilledFractional.isFilled = true := by
  have hv : instanceValue scenarioFilledFractional.model scenarioFilledFractional.m_qmlItemNode
      "anchors.topMargin" = QVariant.real (2 / 5) := rfl
  refine ⟨hv, by norm_num, ?_, ?_⟩
  · rw [isFilled_iff]
    exact ⟨by decide, by decide, by decide, by decide, by decide, by decide, by decide,
      by decide⟩
  · rw [isFilled_iff, hv]
    exact ⟨by decide, by decide, by decide, by decide, toInt_real_two_fifths, by decide,
      by decide, by decide⟩

/-- C7: while the guard `m_locked` is set, `invalidate` leaves the whole state as it is:
the current item, the six cached targets and the trace of emitted signals. -/
theorem C7_invalidate_noop_while_locked (s : QmlAnchorBindingProxy) (fxItemNode : ModelNode)
    (hlocked : s.m_locked = true) : invalidate fxItemNode s = s := by
  simp [invalidate, hlocked]

/-- Witness of C7: with the guard set, a refresh for the sibling changes nothing. -/
theorem C7_invalidate_noop_while_locked_witness :
    scenarioLocked.m_locked = true ∧ invalidate (some 2) scenarioLocked = scenarioLocked :=
  ⟨rfl, C7_invalidate_noop_while_locked scenarioLocked (some 2) rfl⟩

/-- C9, as the code has it: a backup slot that exists is never deleted by any sequence of
operations of the proxy; the content of a slot after an operation is its content before,
or the value of one of `x`, `y`, `width`, `height` of the current item that the operation
removed; and restoring an attribute from its slot writes the value of the slot to the
attribute and keeps the slot. -/
theorem C9_backup_slots_written_on_removal_and_kept (s : QmlAnchorBindingProxy) :
    (∀ (ops : List Operation) (n : ModelNode) (k : PropertyName),
        (auxiliaryData? s.model n k).isSome = true →
        (auxiliaryData? (run ops s).model n k).isSome = true)
      ∧ (∀ (o : Operation) (n : ModelNode) (k : PropertyName) (w : QVariant),
        auxiliaryData? (o.apply s).model n k = some w →
        auxiliaryData? s.model n k = some w
          ∨ ∃ p, (p = "x" ∨ p = "y" ∨ p = "width" ∨ p = "height") ∧ k = auxDataString ++ p
              ∧ n = s.m_qmlItemNode ∧ rawAttribute s.model n p = some w
              ∧ rawAttribute (o.apply s).model n p = none)
      ∧ (∀ (p : PropertyName) (v : QVariant),
        auxiliaryData? s.model s.m_qmlItemNode (auxDataString ++ p) = some v →
        property (restoreProperty s.m_qmlItemNode p s).model s.m_qmlItemNode p
            = some (.variant v)
          ∧ auxiliaryData? (restoreProperty s.m_qmlItemNode p s).model s.m_qmlItemNode
              (auxDataString ++ p) = some v) := by
  refine ⟨fun ops n k h => aux_mono_run s ops n k h, fun o n k w h => aux_step s o n k w h,
    fun p v h => ?_⟩
  simp [h]

/-- Witness of C9: the slot of `y` written when Top was anchored is still there after
Top is released, the item is filled and the layout is reset. -/
theorem C9_backup_slots_written_on_removal_and_kept_witness :
    (auxiliaryData? scenarioTopAnchored.model (some 1) "anchors_y").isSome = true
      ∧ (auxiliaryData? (run [.setTopAnchor false, .fill, .resetLayout]
          scenarioTopAnchored).model (some 1) "anchors_y").isSome = true :=
  ⟨by decide,
    (C9_backup_slots_written_on_removal_and_kept scenarioTopAnchored).1
      [.setTopAnchor false, .fill, .resetLayout] (some 1) "anchors_y" (by decide)⟩

/-- Counterexample to C9 as stated: after `setTopAnchor(true)` and `setTopAnchor(false)`
the attribute `y` is restored to 20 and Top is free, and the backup slot of `y` still
exists; after `fill()` and `resetLayout()` the slot of `x` still exists as well. -/
theorem C9_counterexample_slot_survives_restore :
    rawAttribute (setTopAnchor false (setTopAnchor true scenario)).model (some 1) "y"
        = some (.real 20)
      ∧ (setTopAnchor false (setTopAnchor true scenario)).topAnchored = false
      ∧ hasAuxiliaryData (setTopAnchor false (setTopAnchor true scenario)).model (some 1)
          (auxDataString ++ "y") = true
      ∧ rawAttribute (resetLayout (fill scenario)).model (some 1) "x" = some (.real 20)
      ∧ hasAuxiliaryData (resetLayout (fill scenario)).model (some 1)
          (auxDataString ++ "x") = true := by
  decide

/-- C10: on an item with a parent, enabling a free edge anchor removes exactly the raw
attributes it makes redundant. `setTopAnchor(true)` removes `y`, and `height` exactly when
Bottom is anchored; `setLeftAnchor(true)` removes `x`, and `width` exactly when Right is
anchored; `setBottomAnchor(true)` and `setRightAnchor(true)` leave `x`, `y` and the other
size alone and remove `height`, respectively `width`, exactly when Top, respectively
Left, is anchored. The value of every removed attribute is in its backup slot. -/
theorem C10_enable_removes_redundant_attributes (s : QmlAnchorBindingProxy)
    (hparent : hasNodeParent s.model s.m_qmlItemNode = true) :
    (s.topAnchored = false →
      property (setTopAnchor true s).model s.m_qmlItemNode "x"
          = property s.model s.m_qmlItemNode "x"
      ∧ property (setTopAnchor true s).model s.m_qmlItemNode "y" = none
      ∧ property (setTopAnchor true s).model s.m_qmlItemNode "width"
          = property s.model s.m_qmlItemNode "width"
      ∧ property (setTopAnchor true s).model s.m_qmlItemNode "height"
          = (if s.bottomAnchored then none else property s.model s.m_qmlItemNode "height")
      ∧ (∀ v, rawAttribute s.model s.m_qmlItemNode "y" = some v →
          auxiliaryData? (setTopAnchor true s).model s.m_qmlItemNode "anchors_y" = some v)
      ∧ (∀ v, s.bottomAnchored = true →
          rawAttribute s.model s.m_qmlItemNode "height" = some v →
          auxiliaryData? (setTopAnchor true s).model s.m_qmlItemNode "anchors_height" = some v))
    ∧ (s.leftAnchored = false →
      property (setLeftAnchor true s).model s.m_qmlItemNode "x" = none
      ∧ property (setLeftAnchor true s).model s.m_qmlItemNode "y"
          = property s.model s.m_qmlItemNode "y"
      ∧ property (setLeftAnchor true s).model s.m_qmlItemNode "width"
          = (if s.rightAnchored then none else property s.model s.m_qmlItemNode "width")
      ∧ property (setLeftAnchor true s).model s.m_qmlItemNode "height"
          = property s.model s.m_qmlItemNode "height"
      ∧ (∀ v, rawAttribute s.model s.m_qmlItemNode "x" = some v →
          auxiliaryData? (setLeftAnchor true s).model s.m_qmlItemNode "anchors_x" = some v)
      ∧ (∀ v, s.rightAnchored = true →
          rawAttribute s.model s.m_qmlItemNode "width" = some v →
          auxiliaryData? (setLeftAnchor true s).model s.m_qmlItemNode "anchors_width" = some v))
    ∧ (s.bottomAnchored = false →
      property (setBottomAnchor true s).model s.m_qmlItemNode "x"
          = property s.model s.m_qmlItemNode "x"
      ∧ property (setBottomAnchor true s).model s.m_qmlItemNode "y"
          = property s.model s.m_qmlItemNode "y"
      ∧ property (setBottomAnchor true s).model s.m_qmlItemNode "width"
          = property s.model s.m_qmlItemNode "width"
      ∧ property (setBottomAnchor true s).model s.m_qmlItemNode "height"
          = (if s.topAnchored then none else property s.model s.m_qmlItemNode "height")
      ∧ (∀ v, s.topAnchored = true →
          rawAttribute s.model s.m_qmlItemNode "height" = some v →
          auxiliaryData? (setBottomAnchor true s).model s.m_qmlItemNode "anchors_height" = some v))
    ∧ (s.rightAnchored = false →
      property (setRightAnchor true s).model s.m_qmlItemNode "x"
          = property s.model s.m_qmlItemNode "x"
      ∧ property (setRightAnchor true s).model s.m_qmlItemNode "y"
          = property s.model s.m_qmlItemNode "y"
      ∧ property (setRightAnchor true s).model s.m_qmlItemNode "width"
          = (if s.leftAnchored then none else property s.model s.m_qmlItemNode "width")
      ∧ property (setRightAnchor true s).model s.m_qmlItemNode "height"
          = property s.model s.m_qmlItemNode "height"
      ∧ (∀ v, s.leftAnchored = true →
          rawAttribute s.model s.m_qmlItemNode "width" = some v →
          auxiliaryData? (setRightAnchor true s).model s.m_qmlItemNode "anchors_width" = some v)) := by
  have hsome := isSome_of_hasNodeParent hparent
  refine ⟨?_, ?_, ?_, ?_⟩
  · intro hfree
    simp only [setTopAnchor, hparent, hfree, modelNode, apply_ite QmlAnchorBindingProxy.model,
      emit_model]
    simp only [Bool.not_true, Bool.false_eq_true, ↓reduceIte]
    simp only [bottomAnchored, isValid, instanceHasAnchor, hsome, backupPropertyAndRemove_item,
      calcTopMargin_item, instanceAnchor_backupPropertyAndRemove, instanceAnchor_calcTopMargin]
    simp only [Bool.true_and, reduceCtorEq, and_false, if_false]
    split_ifs <;> simp_all [auxDataString, rawAttribute]
  · intro hfree
    simp only [setLeftAnchor, hparent, hfree, modelNode, apply_ite QmlAnchorBindingProxy.model,
      emit_model]
    simp only [Bool.not_true, Bool.false_eq_true, ↓reduceIte]
    simp only [rightAnchored, isValid, instanceHasAnchor, hsome, backupPropertyAndRemove_item,
      calcLeftMargin_item, instanceAnchor_backupPropertyAndRemove, instanceAnchor_calcLeftMargin]
    simp only [Bool.true_and, reduceCtorEq, and_false, if_false]
    split_ifs <;> simp_all [auxDataString, rawAttribute]
  · intro hfree
    simp only [setBottomAnchor, hparent, hfree, modelNode, apply_ite QmlAnchorBindingProxy.model,
      emit_model]
    simp only [Bool.not_true, Bool.false_eq_true, ↓reduceIte]
    simp only [topAnchored, isValid, instanceHasAnchor, hsome, backupPropertyAndRemove_item,
      calcBottomMargin_item, instanceAnchor_backupPropertyAndRemove, instanceAnchor_calcBottomMargin]
    simp only [Bool.true_and, reduceCtorEq, and_false, if_false]
    split_ifs <;> simp_all [auxDataString, rawAttribute]
  · intro hfree
    simp only [setRightAnchor, hparent, hfree, modelNode, apply_ite QmlAnchorBindingProxy.model,
      emit_model]
    simp only [Bool.not_true, Bool.false_eq_true, ↓reduceIte]
    simp only [leftAnchored, isValid, instanceHasAnchor, hsome, backupPropertyAndRemove_item,
      calcRightMargin_item, instanceAnchor_backupPropertyAndRemove, instanceAnchor_calcRightMargin]
    simp only [Bool.true_and, reduceCtorEq, and_false, if_false]
    split_ifs <;> simp_all [auxDataString, rawAttribute]

/-- Witness of C10: in the scenario with Bottom anchored, `setTopAnchor(true)` removes
`y` and `height` and keeps their values 20 and 50 in the backup slots. -/
theorem C10_enable_removes_redundant_attributes_witness :
    hasNodeParent scenarioBottomAnchored.model scenarioBottomAnchored.m_qmlItemNode = true
      ∧ scenarioBottomAnchored.topAnchored = false
      ∧ scenarioBottomAnchored.bottomAnchored = true
      ∧ property (setTopAnchor true scenarioBottomAnchored).model (some 1) "y" = none
      ∧ property (setTopAnchor true scenarioBottomAnchored).model (some 1) "height" = none
      ∧ auxiliaryData? (setTopAnchor true scenarioBottomAnchored).model (some 1) "anchors_y"
        = some (.real 20)
      ∧ auxiliaryData? (setTopAnchor true scenarioBottomAnchored).model (some 1)
        "anchors_height" = some (.real 50) := by
  obtain ⟨ht, _, _, _⟩ := C10_enable_removes_redundant_attributes scenarioBottomAnchored
    (by decide)
  obtain ⟨_, h1, _, h2, h5, h6⟩ := ht (by decide)
  have hb : scenarioBottomAnchored.bottomAnchored = true := by decide
  rw [if_pos hb] at h2
  exact ⟨by decide, by decide, hb, h1, h2, h5 _ rfl, h6 _ hb rfl⟩

/-- C11, as the code has it: on an item with a parent, disabling an anchored edge side
removes the anchor and the margin of that side, leaves the anchors and margins of the
other sides unchanged, writes to each raw attribute the side restores (`y` and `height`
for Top, `height` for Bottom, `x` and `width` for Left, `width` for Right) the value of
its backup slot when the slot exists, leaves the other raw attributes alone, and keeps
every backup slot. -/
theorem C11_disable_removes_anchor_and_restores (s : QmlAnchorBindingProxy)
    (hparent : hasNodeParent s.model s.m_qmlItemNode = true) :
    (s.topAnchored = true →
      instanceAnchor (setTopAnchor false s).model s.m_qmlItemNode .Top = none
      ∧ property (setTopAnchor false s).model s.m_qmlItemNode "anchors.topMargin" = none
      ∧ (∀ l, l ≠ AnchorLine.Top →
          instanceAnchor (setTopAnchor false s).model s.m_qmlItemNode l = instanceAnchor s.model s.m_qmlItemNode l)
      ∧ (∀ l, l ≠ AnchorLine.Top →
          property (setTopAnchor false s).model s.m_qmlItemNode (marginPropertyName l)
            = property s.model s.m_qmlItemNode (marginPropertyName l))
      ∧ property (setTopAnchor false s).model s.m_qmlItemNode "y"
          = (match auxiliaryData? s.model s.m_qmlItemNode "anchors_y" with
            | some v => some (.variant v)
            | none => property s.model s.m_qmlItemNode "y")
      ∧ property (setTopAnchor false s).model s.m_qmlItemNode "height"
          = (match auxiliaryData? s.model s.m_qmlItemNode "anchors_height" with
            | some v => some (.variant v)
            | none => property s.model s.m_qmlItemNode "height")
      ∧ property (setTopAnchor false s).model s.m_qmlItemNode "x" = property s.model s.m_qmlItemNode "x"
      ∧ property (setTopAnchor false s).model s.m_qmlItemNode "width" = property s.model s.m_qmlItemNode "width"
      ∧ auxiliaryData? (setTopAnchor false s).model = auxiliaryData? s.model)
    ∧ (s.bottomAnchored = true →
      instanceAnchor (setBottomAnchor false s).model s.m_qmlItemNode .Bottom = none
      ∧ property (setBottomAnchor false s).model s.m_qmlItemNode "anchors.bottomMargin" = none
      ∧ (∀ l, l ≠ AnchorLine.Bottom →
          instanceAnchor (setBottomAnchor false s).model s.m_qmlItemNode l = instanceAnchor s.model s.m_qmlItemNode l)
      ∧ (∀ l, l ≠ AnchorLine.Bottom →
          property (setBottomAnchor false s).model s.m_qmlItemNode (marginPropertyName l)
            = property s.model s.m_qmlItemNode (marginPropertyName l))
      ∧ property (setBottomAnchor false s).model s.m_qmlItemNode "height"
          = (match auxiliaryData? s.model s.m_qmlItemNode "anchors_height" with
            | some v => some (.variant v)
            | none => property s.model s.m_qmlItemNode "height")
      ∧ property (setBottomAnchor false s).model s.m_qmlItemNode "x" = property s.model s.m_qmlItemNode "x"
      ∧ property (setBottomAnchor false s).model s.m_qmlItemNode "y" = property s.model s.m_qmlItemNode "y"
      ∧ property (setBottomAnchor false s).model s.m_qmlItemNode "width" = property s.model s.m_qmlItemNode "width"
      ∧ auxiliaryData? (setBottomAnchor false s).model = auxiliaryData? s.model)
    ∧ (s.leftAnchored = true →
      instanceAnchor (setLeftAnchor false s).model s.m_qmlItemNode .Left = none
      ∧ property (setLeftAnchor false s).model s.m_qmlItemNode "anchors.leftMargin" = none
      ∧ (∀ l, l ≠ AnchorLine.Left →
          instanceAnchor (setLeftAnchor false s).model s.m_qmlItemNode l = instanceAnchor s.model s.m_qmlItemNode l)
      ∧ (∀ l, l ≠ AnchorLine.Left →
          property (setLeftAnchor false s).model s.m_qmlItemNode (marginPropertyName l)
            = property s.model s.m_qmlItemNode (marginPropertyName l))
      ∧ property (setLeftAnchor false s).model s.m_qmlItemNode "x"
          = (match auxiliaryData? s.model s.m_qmlItemNode "anchors_x" with
            | some v => some (.variant v)
            | none => property s.model s.m_qmlItemNode "x")
      ∧ property (setLeftAnchor false s).model s.m_qmlItemNode "width"
          = (match auxiliaryData? s.model s.m_qmlItemNode "anchors_width" with
            | some v => some (.variant v)
            | none => property s.model s.m_qmlItemNode "width")
      ∧ property (setLeftAnchor false s).model s.m_qmlItemNode "y" = property s.model s.m_qmlItemNode "y"
      ∧ property (setLeftAnchor false s).model s.m_qmlItemNode "height" = property s.model s.m_qmlItemNode "height"
      ∧ auxiliaryData? (setLeftAnchor false s).model = auxiliaryData? s.model)
    ∧ (s.rightAnchored = true →
      instanceAnchor (setRightAnchor false s).model s.m_qmlItemNode .Right = none
      ∧ property (setRightAnchor false s).model s.m_qmlItemNode "anchors.rightMargin" = none
      ∧ (∀ l, l ≠ AnchorLine.Right →
          instanceAnchor (setRightAnchor false s).model s.m_qmlItemNode l = instanceAnchor s.model s.m_qmlItemNode l)
      ∧ (∀ l, l ≠ AnchorLine.Right →
          property (setRightAnchor false s).model s.m_qmlItemNode (marginPropertyName l)
            = property s.model s.m_qmlItemNode (marginPropertyName l))
      ∧ property (setRightAnchor false s).model s.m_qmlItemNode "width"
          = (match auxiliaryData? s.model s.m_qmlItemNode "anchors_width" with
            | some v => some (.variant v)
            | none => property s.model s.m_qmlItemNode "width")
      ∧ property (setRightAnchor false s).model s.m_qmlItemNode "x" = property s.model s.m_qmlItemNode "x"
      ∧ property (setRightAnchor false s).model s.m_qmlItemNode "y" = property s.model s.m_qmlItemNode "y"
      ∧ property (setRightAnchor false s).model s.m_qmlItemNode "height" = property s.model s.m_qmlItemNode "height"
      ∧ auxiliaryData? (setRightAnchor false s).model = auxiliaryData? s.model) := by
  refine ⟨?_, ?_, ?_, ?_⟩
  · intro hset
    have hm := setTopAnchor_false_model s hparent hset
    rw [hm]
    refine ⟨?_, ?_, ?_, ?_, ?_, ?_, ?_, ?_, ?_⟩
    · simp
    · simp [removeTopAnchor, anchorsRemoveMargin, modelNode, marginPropertyName, auxDataString]
    · intro l hl
      simp [hl]
    · intro l hl
      cases l <;>
        simp_all [removeTopAnchor, anchorsRemoveMargin, modelNode, marginPropertyName,
          auxDataString]
    · simp [removeTopAnchor, anchorsRemoveMargin, modelNode, marginPropertyName, auxDataString]
    · simp [removeTopAnchor, anchorsRemoveMargin, modelNode, marginPropertyName, auxDataString]
    · simp [removeTopAnchor, anchorsRemoveMargin, modelNode, marginPropertyName, auxDataString]
    · simp [removeTopAnchor, anchorsRemoveMargin, modelNode, marginPropertyName, auxDataString]
    · simp
  · intro hset
    have hm := setBottomAnchor_false_model s hparent hset
    rw [hm]
    refine ⟨?_, ?_, ?_, ?_, ?_, ?_, ?_, ?_, ?_⟩
    · simp
    · simp [removeBottomAnchor, anchorsRemoveMargin, modelNode, marginPropertyName, auxDataString]
    · intro l hl
      simp [hl]
    · intro l hl
      cases l <;>
        simp_all [removeBottomAnchor, anchorsRemoveMargin, modelNode, marginPropertyName,
          auxDataString]
    · simp [removeBottomAnchor, anchorsRemoveMargin, modelNode, marginPropertyName, auxDataString]
    · simp [removeBottomAnchor, anchorsRemoveMargin, modelNode, marginPropertyName, auxDataString]
    · simp [removeBottomAnchor, anchorsRemoveMargin, modelNode, marginPropertyName, auxDataString]
    · simp [removeBottomAnchor, anchorsRemoveMargin, modelNode, marginPropertyName, auxDataString]
    · simp
  · intro hset
    have hm := setLeftAnchor_false_model s hparent hset
    rw [hm]
    refine ⟨?_, ?_, ?_, ?_, ?_, ?_, ?_, ?_, ?_⟩
    · simp
    · simp [removeLeftAnchor, anchorsRemoveMargin, modelNode, marginPropertyName, auxDataString]
    · intro l hl
      simp [hl]
    · intro l hl
      cases l <;>
        simp_all [removeLeftAnchor, anchorsRemoveMargin, modelNode, marginPropertyName,
          auxDataString]
    · simp [removeLeftAnchor, anchorsRemoveMargin, modelNode, marginPropertyName, auxDataString]
    · simp [removeLeftAnchor, anchorsRemoveMargin, modelNode, marginPropertyName, auxDataString]
    · simp [removeLeftAnchor, anchorsRemoveMargin, modelNode, marginPropertyName, auxDataString]
    · simp [removeLeftAnchor, anchorsRemoveMargin, modelNode, marginPropertyName, auxDataString]
    · simp
  · intro hset
    have hm := setRightAnchor_false_model s hparent hset
    rw [hm]
    refine ⟨?_, ?_, ?_, ?_, ?_, ?_, ?_, ?_, ?_⟩
    · simp
    · simp [removeRightAnchor, anchorsRemoveMargin, modelNode, marginPropertyName, auxDataString]
    · intro l hl
      simp [hl]
    · intro l hl
      cases l <;>
        simp_all [removeRightAnchor, anchorsRemoveMargin, modelNode, marginPropertyName,
          auxDataString]
    · simp [removeRightAnchor, anchorsRemoveMargin, modelNode, marginPropertyName, auxDataString]
    · simp [removeRightAnchor, anchorsRemoveMargin, modelNode, marginPropertyName, auxDataString]
    · simp [removeRightAnchor, anchorsRemoveMargin, modelNode, marginPropertyName, auxDataString]
    · simp [removeRightAnchor, anchorsRemoveMargin, modelNode, marginPropertyName, auxDataString]
    · simp

/-- Witness of C11: with Top anchored in the scenario, `setTopAnchor(false)` removes the
Top anchor and its margin and restores `y` to 20. -/
theorem C11_disable_removes_anchor_and_restores_witness :
    hasNodeParent scenarioTopAnchored.model scenarioTopAnchored.m_qmlItemNode = true
      ∧ scenarioTopAnchored.topAnchored = true
      ∧ property scenarioTopAnchored.model (some 1) "y" = none
      ∧ instanceAnchor (setTopAnchor false scenarioTopAnchored).model (some 1) .Top = none
      ∧ property (setTopAnchor false scenarioTopAnchored).model (some 1) "anchors.topMargin"
        = none
      ∧ property (setTopAnchor false scenarioTopAnchored).model (some 1) "y"
        = some (.variant (.real 20)) := by
  obtain ⟨h1, h2, _, _, h5, _⟩ :=
    (C11_disable_removes_anchor_and_restores scenarioTopAnchored (by decide)).1 (by decide)
  exact ⟨by decide, by decide, by decide, h1, h2, h5.trans (by decide)⟩

/-- Counterexample to C11 as stated: the root of the scenario has no parent and is
anchored on Top after `fill()`; `setTopAnchor(false)` changes nothing, and Top stays
anchored. -/
theorem C11_counterexample_parentless_item_keeps_anchor :
    hasNodeParent scenarioRootFilled.model scenarioRootFilled.m_qmlItemNode = false
      ∧ scenarioRootFilled.topAnchored = true
      ∧ (setTopAnchor false scenarioRootFilled).topAnchored = true
      ∧ instanceAnchor (setTopAnchor false scenarioRootFilled).model (some 0) .Top
        = instanceAnchor scenarioRootFilled.model (some 0) .Top := by
  decide

/-- C12, the code at the failing input: a fresh proxy has no current item; `setTopTarget`
with node 2 replaces the cached Top target and emits `topTargetChanged`, and
`setVerticalTarget` does the same for the vertical target; `fill()` and `resetLayout()`
leave the model-less state as it is but emit their five signals. The anchor and
centring toggles do return the state unchanged. -/
theorem C12_setTarget_not_noop_on_unset_item :
    isValid (freshProxy scenarioModel).m_qmlItemNode = false
      ∧ (freshProxy scenarioModel).m_topTarget = none
      ∧ (setTopTarget (some 2) (freshProxy scenarioModel)).m_topTarget = some 2
      ∧ (setTopTarget (some 2) (freshProxy scenarioModel)).signals = [.topTargetChanged]
      ∧ (setVerticalTarget (some 2) (freshProxy scenarioModel)).m_verticalTarget = some 2
      ∧ (setVerticalTarget (some 2) (freshProxy scenarioModel)).signals
        = [.verticalTargetChanged]
      ∧ (fill (freshProxy scenarioModel)).signals
        = [.topAnchorChanged, .bottomAnchorChanged, .leftAnchorChanged, .rightAnchorChanged,
            .anchorsChanged]
      ∧ (resetLayout (freshProxy scenarioModel)).signals
        = [.topAnchorChanged, .bottomAnchorChanged, .leftAnchorChanged, .rightAnchorChanged,
            .anchorsChanged]
      ∧ (fill (freshProxy scenarioModel)).writeGuards = []
      ∧ (resetLayout (freshProxy scenarioModel)).writeGuards = []
      ∧ (setTopTarget (some 2) (freshProxy scenarioModel)).writeGuards = []
      ∧ (setTopAnchor true (freshProxy scenarioModel)).signals = []
      ∧ (setTopAnchor true (freshProxy scenarioModel)).m_topTarget = none
      ∧ (setVerticalCentered true (freshProxy scenarioModel)).signals = [] := by
  decide

/-- C13, as the code has it: `setup` and `invalidate` do not write the model, so every
item keeps its anchors. Each of the six `setTarget` operations leaves the anchors of the
other five sides, and of every other item, unchanged; called with a target different
from the cached one on a valid item it binds the anchor of its own side to the new
target, which anchors that side when it was free. -/
theorem C13_only_own_side_anchor_is_rebound (s : QmlAnchorBindingProxy) :
    (∀ n, (setup n s).model = s.model ∧ (invalidate n s).model = s.model)
      ∧ (∀ t n1 l, (l ≠ AnchorLine.Top ∨ n1 ≠ s.m_qmlItemNode) →
        instanceAnchor (setTopTarget t s).model n1 l = instanceAnchor s.model n1 l)
      ∧ (∀ t, t ≠ s.m_topTarget → isValid s.m_qmlItemNode = true →
        instanceAnchor (setTopTarget t s).model s.m_qmlItemNode .Top
          = some ⟨t, if t = parentModelNode s.model s.m_qmlItemNode then .Top else .Bottom⟩)
      ∧ (∀ t n1 l, (l ≠ AnchorLine.Bottom ∨ n1 ≠ s.m_qmlItemNode) →
        instanceAnchor (setBottomTarget t s).model n1 l = instanceAnchor s.model n1 l)
      ∧ (∀ t, t ≠ s.m_bottomTarget → isValid s.m_qmlItemNode = true →
        instanceAnchor (setBottomTarget t s).model s.m_qmlItemNode .Bottom
          = some ⟨t, if t = parentModelNode s.model s.m_qmlItemNode then .Bottom else .Top⟩)
      ∧ (∀ t n1 l, (l ≠ AnchorLine.Left ∨ n1 ≠ s.m_qmlItemNode) →
        instanceAnchor (setLeftTarget t s).model n1 l = instanceAnchor s.model n1 l)
      ∧ (∀ t, t ≠ s.m_leftTarget → isValid s.m_qmlItemNode = true →
        instanceAnchor (setLeftTarget t s).model s.m_qmlItemNode .Left
          = some ⟨t, if t = parentModelNode s.model s.m_qmlItemNode then .Left else .Right⟩)
      ∧ (∀ t n1 l, (l ≠ AnchorLine.Right ∨ n1 ≠ s.m_qmlItemNode) →
        instanceAnchor (setRightTarget t s).model n1 l = instanceAnchor s.model n1 l)
      ∧ (∀ t, t ≠ s.m_rightTarget → isValid s.m_qmlItemNode = true →
        instanceAnchor (setRightTarget t s).model s.m_qmlItemNode .Right
          = some ⟨t, if t = parentModelNode s.model s.m_qmlItemNode then .Right else .Left⟩)
      ∧ (∀ t n1 l, (l ≠ AnchorLine.VerticalCenter ∨ n1 ≠ s.m_qmlItemNode) →
        instanceAnchor (setVerticalTarget t s).model n1 l = instanceAnchor s.model n1 l)
      ∧ (∀ t, t ≠ s.m_verticalTarget → isValid s.m_qmlItemNode = true →
        instanceAnchor (setVerticalTarget t s).model s.m_qmlItemNode .VerticalCenter = some ⟨t, .VerticalCenter⟩)
      ∧ (∀ t n1 l, (l ≠ AnchorLine.HorizontalCenter ∨ n1 ≠ s.m_qmlItemNode) →
        instanceAnchor (setHorizontalTarget t s).model n1 l = instanceAnchor s.model n1 l)
      ∧ (∀ t, t ≠ s.m_horizontalTarget → isValid s.m_qmlItemNode = true →
        instanceAnchor (setHorizontalTarget t s).model s.m_qmlItemNode .HorizontalCenter = some ⟨t, .HorizontalCenter⟩) := by
  refine ⟨?_, ?_, ?_, ?_, ?_, ?_, ?_, ?_, ?_, ?_, ?_, ?_, ?_⟩
  · intro n
    exact ⟨setup_model s n, invalidate_model s n⟩
  · intro t n1 l hl
    unfold setTopTarget
    split_ifs
    · rfl
    · rcases hl with hl | hl <;> simp [hl]
  · intro t ht hv
    have hv1 : s.m_qmlItemNode.isSome = true := hv
    unfold setTopTarget
    rw [if_neg ht]
    simp [hv1]
  · intro t n1 l hl
    unfold setBottomTarget
    split_ifs
    · rfl
    · rcases hl with hl | hl <;> simp [hl]
  · intro t ht hv
    have hv1 : s.m_qmlItemNode.isSome = true := hv
    unfold setBottomTarget
    rw [if_neg ht]
    simp [hv1]
  · intro t n1 l hl
    unfold setLeftTarget
    split_ifs
    · rfl
    · rcases hl with hl | hl <;> simp [hl]
  · intro t ht hv
    have hv1 : s.m_qmlItemNode.isSome = true := hv
    unfold setLeftTarget
    rw [if_neg ht]
    simp [hv1]
  · intro t n1 l hl
    unfold setRightTarget
    split_ifs
    · rfl
    · rcases hl with hl | hl <;> simp [hl]
  · intro t ht hv
    have hv1 : s.m_qmlItemNode.isSome = true := hv
    unfold setRightTarget
    rw [if_neg ht]
    simp [hv1]
  · intro t n1 l hl
    unfold setVerticalTarget
    dsimp only
    split_ifs
    · rfl
    · rcases hl with hl | hl <;> simp [hl]
  · intro t ht hv
    have hv1 : s.m_qmlItemNode.isSome = true := hv
    unfold setVerticalTarget
    dsimp only
    rw [if_neg ht]
    simp [hv1]
  · intro t n1 l hl
    unfold setHorizontalTarget
    dsimp only
    split_ifs
    · rfl
    · rcases hl with hl | hl <;> simp [hl]
  · intro t ht hv
    have hv1 : s.m_qmlItemNode.isSome = true := hv
    unfold setHorizontalTarget
    dsimp only
    rw [if_neg ht]
    simp [hv1]

/-- Witness of C13: picking the sibling as Top target in the scenario binds Top to the
Bottom of the sibling and leaves the Left side free. -/
theorem C13_only_own_side_anchor_is_rebound_witness :
    some 2 ≠ scenario.m_topTarget
      ∧ isValid scenario.m_qmlItemNode = true
      ∧ instanceAnchor (setTopTarget (some 2) scenario).model (some 1) .Top
        = some ⟨some 2, .Bottom⟩
      ∧ instanceAnchor (setTopTarget (some 2) scenario).model (some 1) .Left = none := by
  obtain ⟨_, h1, h2, _⟩ := C13_only_own_side_anchor_is_rebound scenario
  have ha := h2 (some 2) (by decide) (by decide)
  have hb := h1 (some 2) (some 1) .Left (Or.inl (by decide))
  exact ⟨by decide, by decide, ha.trans (by decide), hb.trans (by decide)⟩

/-- Counterexample to C13 as stated: in the scenario no side is anchored; after
`setTopTarget` with the sibling, Top is anchored. -/
theorem C13_counterexample_setTarget_creates_anchor :
    scenario.topAnchored = false
      ∧ scenario.hasAnchors = false
      ∧ (setTopTarget (some 2) scenario).topAnchored = true
      ∧ (setTopTarget (some 2) scenario).hasAnchors = true
      ∧ scenario.verticalCentered = false
      ∧ (setVerticalTarget (some 2) scenario).verticalCentered = true := by
  decide

/-- C14: on an item with a parent, after `fill()` each of the four edges is anchored to
the same edge of the parent, the four edge margins are removed and read as zero, neither
centre line is anchored, none of `x`, `y`, `width`, `height` remains, each of them that
was present has its prior value in its backup slot, and `isFilled()` is true. -/
theorem C14_fill_anchors_edges_to_parent (s : QmlAnchorBindingProxy)
    (hparent : hasNodeParent s.model s.m_qmlItemNode = true) :
    (∀ l, (l = AnchorLine.Top ∨ l = .Bottom ∨ l = .Left ∨ l = .Right) →
        instanceAnchor (fill s).model s.m_qmlItemNode l
            = some ⟨parentModelNode s.model s.m_qmlItemNode, l⟩
          ∧ property (fill s).model s.m_qmlItemNode (marginPropertyName l) = none
          ∧ (instanceValue (fill s).model s.m_qmlItemNode (marginPropertyName l)).toInt = 0)
      ∧ (fill s).verticalCentered = false
      ∧ (fill s).horizontalCentered = false
      ∧ (∀ p, (p = "x" ∨ p = "y" ∨ p = "width" ∨ p = "height") →
          property (fill s).model s.m_qmlItemNode p = none)
      ∧ (∀ p v, (p = "x" ∨ p = "y" ∨ p = "width" ∨ p = "height") →
          rawAttribute s.model s.m_qmlItemNode p = some v →
          auxiliaryData? (fill s).model s.m_qmlItemNode (auxDataString ++ p) = some v)
      ∧ (fill s).isFilled = true := by
  have hsome := isSome_of_hasNodeParent hparent
  have hmargin : ∀ l, (l = AnchorLine.Top ∨ l = .Bottom ∨ l = .Left ∨ l = .Right) →
      (instanceValue (fill s).model s.m_qmlItemNode (marginPropertyName l)).toInt = 0 := by
    intro l hl
    simp [instanceValue, property_fill_margin s l hl, QVariant.toInt]
  refine ⟨fun l hl => ⟨?_, property_fill_margin s l hl, hmargin l hl⟩, ?_, ?_,
    fun p hp => property_fill_attribute s p hp, fun p v hp hv => ?_, ?_⟩
  · rw [instanceAnchor_fill s hparent]
    rcases hl with rfl | rfl | rfl | rfl <;> rfl
  · simp [verticalCentered, instanceHasAnchor, instanceAnchor_fill s hparent]
  · simp [horizontalCentered, instanceHasAnchor, instanceAnchor_fill s hparent]
  · rw [auxiliaryData?_fill_attribute s p hp, hv]
  · rw [isFilled_iff, fill_item]
    refine ⟨?_, ?_, ?_, ?_, hmargin .Top (by simp), hmargin .Bottom (by simp),
      hmargin .Left (by simp), hmargin .Right (by simp)⟩ <;>
      simp [topAnchored, bottomAnchored, leftAnchored, rightAnchored, instanceHasAnchor,
        instanceAnchor_fill s hparent, isValid, hsome]

/-- Witness of C14: after `fill()` in the scenario, Top is bound to the Top of the parent,
`y` is gone with 20 in its backup slot, and `isFilled()` is true. -/
theorem C14_fill_anchors_edges_to_parent_witness :
    hasNodeParent scenario.model scenario.m_qmlItemNode = true
      ∧ instanceAnchor (fill scenario).model (some 1) .Top = some ⟨some 0, .Top⟩
      ∧ property (fill scenario).model (some 1) "y" = none
      ∧ auxiliaryData? (fill scenario).model (some 1) "anchors_y" = some (.real 20)
      ∧ (fill scenario).isFilled = true := by
  obtain ⟨h1, _, _, h4, h5, h6⟩ := C14_fill_anchors_edges_to_parent scenario (by decide)
  exact ⟨by decide, (h1 .Top (Or.inl rfl)).1, h4 "y" (Or.inr (Or.inl rfl)),
    h5 "y" (.real 20) (Or.inr (Or.inl rfl)) (by decide), h6⟩

/-- C15: for every item and every anchor configuration, after `resetLayout()` no line of
the item is anchored, so the six anchored and centred predicates, `hasAnchors` and
`isFilled` are false; none of the six margins remains; and each of `x`, `y`, `width`,
`height` that has a backup slot is a literal with the value of the slot, which is kept. -/
theorem C15_resetLayout_frees_item (s : QmlAnchorBindingProxy) :
    (∀ l, instanceAnchor (resetLayout s).model s.m_qmlItemNode l = none)
      ∧ (resetLayout s).topAnchored = false
      ∧ (resetLayout s).bottomAnchored = false
      ∧ (resetLayout s).leftAnchored = false
      ∧ (resetLayout s).rightAnchored = false
      ∧ (resetLayout s).verticalCentered = false
      ∧ (resetLayout s).horizontalCentered = false
      ∧ (resetLayout s).hasAnchors = false
      ∧ (resetLayout s).isFilled = false
      ∧ (∀ l, property (resetLayout s).model s.m_qmlItemNode (marginPropertyName l) = none)
      ∧ (∀ p v, (p = "x" ∨ p = "y" ∨ p = "width" ∨ p = "height") →
          auxiliaryData? s.model s.m_qmlItemNode (auxDataString ++ p) = some v →
          property (resetLayout s).model s.m_qmlItemNode p = some (.variant v)
            ∧ auxiliaryData? (resetLayout s).model s.m_qmlItemNode (auxDataString ++ p)
              = some v) := by
  have hnone : ∀ l, instanceAnchor (resetLayout s).model s.m_qmlItemNode l = none := by
    intro l
    simp [instanceAnchor_resetLayout]
  have htop : (resetLayout s).topAnchored = false := by
    simp [topAnchored, instanceHasAnchor, hnone]
  refine ⟨hnone, htop, ?_, ?_, ?_, ?_, ?_, ?_, ?_, property_resetLayout_margin s,
    fun p v hp hv => ⟨?_, ?_⟩⟩
  · simp [bottomAnchored, instanceHasAnchor, hnone]
  · simp [leftAnchored, instanceHasAnchor, hnone]
  · simp [rightAnchored, instanceHasAnchor, hnone]
  · simp [verticalCentered, instanceHasAnchor, hnone]
  · simp [horizontalCentered, instanceHasAnchor, hnone]
  · simp [hasAnchors, instanceHasAnchors, instanceHasAnchor, hnone]
  · rw [Bool.eq_false_iff]
    intro h
    rw [isFilled_iff, htop] at h
    exact absurd h.1 (by simp)
  · rw [property_resetLayout_attribute s p hp, hv]
  · simpa using hv

/-- Witness of C15: after `fill()` in the scenario the slot of `y` holds 20, and
`resetLayout()` writes 20 back to `y` and keeps the slot. -/
theorem C15_resetLayout_frees_item_witness :
    auxiliaryData? (fill scenario).model (some 1) "anchors_y" = some (.real 20)
      ∧ property (fill scenario).model (some 1) "y" = none
      ∧ property (resetLayout (fill scenario)).model (some 1) "y" = some (.variant (.real 20))
      ∧ (resetLayout (fill scenario)).hasAnchors = false := by
  obtain ⟨_, _, _, _, _, _, _, h8, _, _, h11⟩ := C15_resetLayout_frees_item (fill scenario)
  exact ⟨by decide, by decide, (h11 "y" (.real 20) (Or.inr (Or.inl rfl)) (by decide)).1, h8⟩

/-- C16: on an item without a parent, `setTopAnchor`, `setBottomAnchor`, `setLeftAnchor`
and `setRightAnchor` return the state unchanged, whatever the argument: the model with
its anchors, margins, raw attributes and backup slots, the cached targets, the guard,
and the trace, so no signal is emitted. -/
theorem C16_setAnchor_noop_without_parent (s : QmlAnchorBindingProxy) (anchor : Bool)
    (hnoparent : hasNodeParent s.model s.m_qmlItemNode = false) :
    setTopAnchor anchor s = s ∧ setBottomAnchor anchor s = s
      ∧ setLeftAnchor anchor s = s ∧ setRightAnchor anchor s = s :=
  ⟨setTopAnchor_of_noParent s anchor hnoparent, setBottomAnchor_of_noParent s anchor hnoparent,
    setLeftAnchor_of_noParent s anchor hnoparent, setRightAnchor_of_noParent s anchor hnoparent⟩

/-- Witness of C16: the root of the scenario has no parent, and enabling any edge anchor
on it changes nothing. -/
theorem C16_setAnchor_noop_without_parent_witness :
    hasNodeParent scenarioRoot.model scenarioRoot.m_qmlItemNode = false
      ∧ setTopAnchor true scenarioRoot = scenarioRoot
      ∧ setBottomAnchor true scenarioRoot = scenarioRoot
      ∧ setLeftAnchor true scenarioRoot = scenarioRoot
      ∧ setRightAnchor true scenarioRoot = scenarioRoot :=
  ⟨by decide, C16_setAnchor_noop_without_parent scenarioRoot true (by decide)⟩

/-- C17: `setTopAnchor`, `setBottomAnchor`, `setLeftAnchor` and `setRightAnchor` called
with the anchored state the side already has return the state unchanged: the stored
margin, the raw attributes, the backup slots and the trace, so no signal is emitted. -/
theorem C17_setAnchor_noop_in_requested_state (s : QmlAnchorBindingProxy) (anchor : Bool) :
    (s.topAnchored = anchor → setTopAnchor anchor s = s)
      ∧ (s.bottomAnchored = anchor → setBottomAnchor anchor s = s)
      ∧ (s.leftAnchored = anchor → setLeftAnchor anchor s = s)
      ∧ (s.rightAnchored = anchor → setRightAnchor anchor s = s) :=
  ⟨setTopAnchor_of_same s anchor, setBottomAnchor_of_same s anchor,
    setLeftAnchor_of_same s anchor, setRightAnchor_of_same s anchor⟩

/-- Witness of C17: with Top anchored and Bottom free in the scenario, enabling Top again
and disabling Bottom change nothing. -/
theorem C17_setAnchor_noop_in_requested_state_witness :
    scenarioTopAnchored.topAnchored = true
      ∧ setTopAnchor true scenarioTopAnchored = scenarioTopAnchored
      ∧ scenarioTopAnchored.bottomAnchored = false
      ∧ setBottomAnchor false scenarioTopAnchored = scenarioTopAnchored :=
  ⟨by decide, (C17_setAnchor_noop_in_requested_state scenarioTopAnchored true).1 (by decide),
    by decide,
    (C17_setAnchor_noop_in_requested_state scenarioTopAnchored false).2.1 (by decide)⟩

/-- C18: after `setup(item)` the cached target of each of the six sides is the item the
anchor of that side is bound to, when the side is anchored and that item is valid, and
the parent of the item otherwise, which is the invalid node when there is no parent. -/
theorem C18_setup_caches_targets (s : QmlAnchorBindingProxy) (n : ModelNode) :
    (setup n s).m_topTarget
        = (if instanceHasAnchor s.model n .Top = true
              ∧ isValid (instanceAnchorTarget s.model n .Top) = true then
            instanceAnchorTarget s.model n .Top
          else parentModelNode s.model n)
      ∧ (setup n s).m_bottomTarget
        = (if instanceHasAnchor s.model n .Bottom = true
              ∧ isValid (instanceAnchorTarget s.model n .Bottom) = true then
            instanceAnchorTarget s.model n .Bottom
          else parentModelNode s.model n)
      ∧ (setup n s).m_leftTarget
        = (if instanceHasAnchor s.model n .Left = true
              ∧ isValid (instanceAnchorTarget s.model n .Left) = true then
            instanceAnchorTarget s.model n .Left
          else parentModelNode s.model n)
      ∧ (setup n s).m_rightTarget
        = (if instanceHasAnchor s.model n .Right = true
              ∧ isValid (instanceAnchorTarget s.model n .Right) = true then
            instanceAnchorTarget s.model n .Right
          else parentModelNode s.model n)
      ∧ (setup n s).m_verticalTarget
        = (if instanceHasAnchor s.model n .VerticalCenter = true
              ∧ isValid (instanceAnchorTarget s.model n .VerticalCenter) = true then
            instanceAnchorTarget s.model n .VerticalCenter
          else parentModelNode s.model n)
      ∧ (setup n s).m_horizontalTarget
        = (if instanceHasAnchor s.model n .HorizontalCenter = true
              ∧ isValid (instanceAnchorTarget s.model n .HorizontalCenter) = true then
            instanceAnchorTarget s.model n .HorizontalCenter
          else parentModelNode s.model n)
      ∧ (setup n s).m_qmlItemNode = n
      ∧ (hasNodeParent s.model n = false → parentModelNode s.model n = none) := by
  refine ⟨setup_topTarget s n, setup_bottomTarget s n, setup_leftTarget s n,
    setup_rightTarget s n, setup_verticalTarget s n, setup_horizontalTarget s n,
    setup_item s n, ?_⟩
  simp [hasNodeParent]

/-- Witness of C18: binding again to the item whose Top is anchored to the sibling caches
the sibling as Top target and the parent as Bottom target; binding to the root, which
has no parent, caches the invalid node. -/
theorem C18_setup_caches_targets_witness :
    (setup (some 1) (setTopAnchor true scenarioSiblingTarget)).m_topTarget = some 2
      ∧ (setup (some 1) (setTopAnchor true scenarioSiblingTarget)).m_bottomTarget = some 0
      ∧ hasNodeParent scenarioModel (some 0) = false
      ∧ (setup (some 0) (freshProxy scenarioModel)).m_topTarget = none := by
  have h := C18_setup_caches_targets (setTopAnchor true scenarioSiblingTarget) (some 1)
  have h0 := C18_setup_caches_targets (freshProxy scenarioModel) (some 0)
  refine ⟨h.1.trans (by decide), h.2.1.trans (by decide), by decide, h0.1.trans (by decide)⟩

/-- C19: `setup(item)` does not write the model: the model, with every node's anchors,
margins, raw attributes and backup slots, is the same after the call, no model write is
recorded, and the guard is unchanged; the current item becomes `item`. -/
theorem C19_setup_does_not_mutate_model (s : QmlAnchorBindingProxy) (n : ModelNode) :
    (setup n s).model = s.model
      ∧ (setup n s).writeGuards = s.writeGuards
      ∧ (setup n s).m_locked = s.m_locked
      ∧ (setup n s).m_qmlItemNode = n :=
  ⟨setup_model s n, writeGuards_setup s n, setup_locked s n, setup_item s n⟩

/-- C20: when the current item is invalid, `topAnchored`, `bottomAnchored`, `leftAnchored`,
`rightAnchored`, `verticalCentered`, `horizontalCentered`, `hasAnchors`, `isFilled` and
`hasParent` all return false. -/
theorem C20_queries_false_on_invalid_item (s : QmlAnchorBindingProxy)
    (hinvalid : isValid s.m_qmlItemNode = false) :
    s.topAnchored = false ∧ s.bottomAnchored = false ∧ s.leftAnchored = false
      ∧ s.rightAnchored = false ∧ s.verticalCentered = false ∧ s.horizontalCentered = false
      ∧ s.hasAnchors = false ∧ s.isFilled = false ∧ s.hasParent = false := by
  simp [topAnchored, bottomAnchored, leftAnchored, rightAnchored, verticalCentered,
    horizontalCentered, hasAnchors, isFilled, hasParent, hinvalid]

/-- Witness of C20: a fresh proxy has no current item and every query on it is false. -/
theorem C20_queries_false_on_invalid_item_witness :
    isValid (freshProxy scenarioModel).m_qmlItemNode = false
      ∧ (freshProxy scenarioModel).topAnchored = false
      ∧ (freshProxy scenarioModel).hasAnchors = false
      ∧ (freshProxy scenarioModel).isFilled = false
      ∧ (freshProxy scenarioModel).hasParent = false := by
  have h := C20_queries_false_on_invalid_item (freshProxy scenarioModel) rfl
  exact ⟨rfl, h.1, h.2.2.2.2.2.2.1, h.2.2.2.2.2.2.2.1, h.2.2.2.2.2.2.2.2⟩

/-- C21: each of the six `setTarget` operations called with the target that is already
cached for its side returns the state unchanged: the model, the cached targets, the
guard and the trace, so no signal is emitted. -/
theorem C21_setTarget_noop_on_cached_target (s : QmlAnchorBindingProxy) (t : ModelNode) :
    (t = s.m_topTarget → setTopTarget t s = s)
      ∧ (t = s.m_bottomTarget → setBottomTarget t s = s)
      ∧ (t = s.m_leftTarget → setLeftTarget t s = s)
      ∧ (t = s.m_rightTarget → setRightTarget t s = s)
      ∧ (t = s.m_verticalTarget → setVerticalTarget t s = s)
      ∧ (t = s.m_horizontalTarget → setHorizontalTarget t s = s) :=
  ⟨setTopTarget_of_same s t, setBottomTarget_of_same s t, setLeftTarget_of_same s t,
    setRightTarget_of_same s t, setVerticalTarget_of_same s t, setHorizontalTarget_of_same s t⟩

/-- Witness of C21: in the scenario the parent is the cached target of every side, and
picking the parent again changes nothing. -/
theorem C21_setTarget_noop_on_cached_target_witness :
    some 0 = scenario.m_topTarget ∧ setTopTarget (some 0) scenario = scenario
      ∧ some 0 = scenario.m_verticalTarget ∧ setVerticalTarget (some 0) scenario = scenario :=
  ⟨by decide, (C21_setTarget_noop_on_cached_target scenario (some 0)).1 (by decide),
    by decide, (C21_setTarget_noop_on_cached_target scenario (some 0)).2.2.2.2.1 (by decide)⟩

/-- C22: each of the six `setTarget` operations called with a target different from the
cached one stores it as cached target of its side and leaves the other five cached
targets unchanged. On a valid item an edge operation stores the margin given by the
margin rule against the new target and binds the side to it; a centre operation binds
the centre line to the same centre line of the new target and writes no property, so no
margin. In the margin rule the item's transformed box is its local rectangle mapped
through its transform with the content transform, the parent's box is the content
rectangle of the parent when that is valid and its plain rectangle otherwise, and the
box of the item or of another target is the local rectangle mapped through the
transform. -/
theorem C22_setTarget_rebinds_own_side (s : QmlAnchorBindingProxy) :
    (∀ t, t ≠ s.m_topTarget →
        (setTopTarget t s).m_topTarget = t
          ∧ (setTopTarget t s).m_bottomTarget = s.m_bottomTarget
          ∧ (setTopTarget t s).m_leftTarget = s.m_leftTarget
          ∧ (setTopTarget t s).m_rightTarget = s.m_rightTarget
          ∧ (setTopTarget t s).m_verticalTarget = s.m_verticalTarget
          ∧ (setTopTarget t s).m_horizontalTarget = s.m_horizontalTarget
          ∧ (isValid s.m_qmlItemNode = true →
            property (setTopTarget t s).model s.m_qmlItemNode "anchors.topMargin"
                = some (.variant (.real
                    (if t = parentModelNode s.model s.m_qmlItemNode then
                      s.transformedBoundingBox.top - s.parentBoundingBox.top
                    else (s.boundingBox s.m_qmlItemNode).top - (s.boundingBox t).bottom)))
              ∧ instanceAnchor (setTopTarget t s).model s.m_qmlItemNode .Top
                = some ⟨t, if t = parentModelNode s.model s.m_qmlItemNode then .Top
                    else .Bottom⟩))
      ∧ (∀ t, t ≠ s.m_bottomTarget →
        (setBottomTarget t s).m_bottomTarget = t
          ∧ (setBottomTarget t s).m_topTarget = s.m_topTarget
          ∧ (setBottomTarget t s).m_leftTarget = s.m_leftTarget
          ∧ (setBottomTarget t s).m_rightTarget = s.m_rightTarget
          ∧ (setBottomTarget t s).m_verticalTarget = s.m_verticalTarget
          ∧ (setBottomTarget t s).m_horizontalTarget = s.m_horizontalTarget
          ∧ (isValid s.m_qmlItemNode = true →
            property (setBottomTarget t s).model s.m_qmlItemNode "anchors.bottomMargin"
                = some (.variant (.real
                    (if t = parentModelNode s.model s.m_qmlItemNode then
                      s.parentBoundingBox.bottom - s.transformedBoundingBox.bottom
                    else (s.boundingBox t).top - (s.boundingBox s.m_qmlItemNode).bottom)))
              ∧ instanceAnchor (setBottomTarget t s).model s.m_qmlItemNode .Bottom
                = some ⟨t, if t = parentModelNode s.model s.m_qmlItemNode then .Bottom
                    else .Top⟩))
      ∧ (∀ t, t ≠ s.m_leftTarget →
        (setLeftTarget t s).m_leftTarget = t
          ∧ (setLeftTarget t s).m_topTarget = s.m_topTarget
          ∧ (setLeftTarget t s).m_bottomTarget = s.m_bottomTarget
          ∧ (setLeftTarget t s).m_rightTarget = s.m_rightTarget
          ∧ (setLeftTarget t s).m_verticalTarget = s.m_verticalTarget
          ∧ (setLeftTarget t s).m_horizontalTarget = s.m_horizontalTarget
          ∧ (isValid s.m_qmlItemNode = true →
            property (setLeftTarget t s).model s.m_qmlItemNode "anchors.leftMargin"
                = some (.variant (.real
                    (if t = parentModelNode s.model s.m_qmlItemNode then
                      s.transformedBoundingBox.left - s.parentBoundingBox.left
                    else (s.boundingBox s.m_qmlItemNode).left - (s.boundingBox t).right)))
              ∧ instanceAnchor (setLeftTarget t s).model s.m_qmlItemNode .Left
                = some ⟨t, if t = parentModelNode s.model s.m_qmlItemNode then .Left
                    else .Right⟩))
      ∧ (∀ t, t ≠ s.m_rightTarget →
        (setRightTarget t s).m_rightTarget = t
          ∧ (setRightTarget t s).m_topTarget = s.m_topTarget
          ∧ (setRightTarget t s).m_bottomTarget = s.m_bottomTarget
          ∧ (setRightTarget t s).m_leftTarget = s.m_leftTarget
          ∧ (setRightTarget t s).m_verticalTarget = s.m_verticalTarget
          ∧ (setRightTarget t s).m_horizontalTarget = s.m_horizontalTarget
          ∧ (isValid s.m_qmlItemNode = true →
            property (setRightTarget t s).model s.m_qmlItemNode "anchors.rightMargin"
                = some (.variant (.real
                    (if t = parentModelNode s.model s.m_qmlItemNode then
                      s.parentBoundingBox.right - s.transformedBoundingBox.right
                    else (s.boundingBox t).left - (s.boundingBox s.m_qmlItemNode).right)))
              ∧ instanceAnchor (setRightTarget t s).model s.m_qmlItemNode .Right
                = some ⟨t, if t = parentModelNode s.model s.m_qmlItemNode then .Right
                    else .Left⟩))
      ∧ (∀ t, t ≠ s.m_verticalTarget →
        (setVerticalTarget t s).m_verticalTarget = t
          ∧ (setVerticalTarget t s).m_topTarget = s.m_topTarget
          ∧ (setVerticalTarget t s).m_bottomTarget = s.m_bottomTarget
          ∧ (setVerticalTarget t s).m_leftTarget = s.m_leftTarget
          ∧ (setVerticalTarget t s).m_rightTarget = s.m_rightTarget
          ∧ (setVerticalTarget t s).m_horizontalTarget = s.m_horizontalTarget
          ∧ property (setVerticalTarget t s).model = property s.model
          ∧ (isValid s.m_qmlItemNode = true →
            instanceAnchor (setVerticalTarget t s).model s.m_qmlItemNode .VerticalCenter = some ⟨t, .VerticalCenter⟩))
      ∧ (∀ t, t ≠ s.m_horizontalTarget →
        (setHorizontalTarget t s).m_horizontalTarget = t
          ∧ (setHorizontalTarget t s).m_topTarget = s.m_topTarget
          ∧ (setHorizontalTarget t s).m_bottomTarget = s.m_bottomTarget
          ∧ (setHorizontalTarget t s).m_leftTarget = s.m_leftTarget
          ∧ (setHorizontalTarget t s).m_rightTarget = s.m_rightTarget
          ∧ (setHorizontalTarget t s).m_verticalTarget = s.m_verticalTarget
          ∧ property (setHorizontalTarget t s).model = property s.model
          ∧ (isValid s.m_qmlItemNode = true →
            instanceAnchor (setHorizontalTarget t s).model s.m_qmlItemNode .HorizontalCenter = some ⟨t, .HorizontalCenter⟩))
      ∧ s.transformedBoundingBox
        = (instanceTransformWithContentTransform s.model s.m_qmlItemNode).mapRect
            (instanceBoundingRect s.model s.m_qmlItemNode)
      ∧ (hasNodeParent s.model s.m_qmlItemNode = true →
        s.parentBoundingBox
          = (if (instanceContentItemBoundingRect s.model
                (parentModelNode s.model s.m_qmlItemNode)).isValid then
              instanceContentItemBoundingRect s.model (parentModelNode s.model s.m_qmlItemNode)
            else instanceBoundingRect s.model (parentModelNode s.model s.m_qmlItemNode)))
      ∧ (∀ n, isValid n = true →
        s.boundingBox n
          = (instanceTransform s.model n).mapRect (instanceBoundingRect s.model n)) := by
  refine ⟨?_, ?_, ?_, ?_, ?_, ?_, rfl,
    fun hp => by
      have hpb : hasInstanceParent s.model s.m_qmlItemNode = true := hp
      simp [parentBoundingBox, hpb, instanceParentItem],
    fun n hn => by simp [boundingBox, hn]⟩
  · intro t ht
    refine ⟨setTopTarget_topTarget s t, setTopTarget_bottomTarget s t, setTopTarget_leftTarget s t, setTopTarget_rightTarget s t, setTopTarget_verticalTarget s t, setTopTarget_horizontalTarget s t, fun hv => ?_⟩
    have hv1 : s.m_qmlItemNode.isSome = true := hv
    unfold setTopTarget
    rw [if_neg ht]
    constructor
    · simp [hv1]
      rfl
    · simp [hv1]
  · intro t ht
    refine ⟨setBottomTarget_bottomTarget s t, setBottomTarget_topTarget s t, setBottomTarget_leftTarget s t, setBottomTarget_rightTarget s t, setBottomTarget_verticalTarget s t, setBottomTarget_horizontalTarget s t, fun hv => ?_⟩
    have hv1 : s.m_qmlItemNode.isSome = true := hv
    unfold setBottomTarget
    rw [if_neg ht]
    constructor
    · simp [hv1]
      rfl
    · simp [hv1]
  · intro t ht
    refine ⟨setLeftTarget_leftTarget s t, setLeftTarget_topTarget s t, setLeftTarget_bottomTarget s t, setLeftTarget_rightTarget s t, setLeftTarget_verticalTarget s t, setLeftTarget_horizontalTarget s t, fun hv => ?_⟩
    have hv1 : s.m_qmlItemNode.isSome = true := hv
    unfold setLeftTarget
    rw [if_neg ht]
    constructor
    · simp [hv1]
      rfl
    · simp [hv1]
  · intro t ht
    refine ⟨setRightTarget_rightTarget s t, setRightTarget_topTarget s t, setRightTarget_bottomTarget s t, setRightTarget_leftTarget s t, setRightTarget_verticalTarget s t, setRightTarget_horizontalTarget s t, fun hv => ?_⟩
    have hv1 : s.m_qmlItemNode.isSome = true := hv
    unfold setRightTarget
    rw [if_neg ht]
    constructor
    · simp [hv1]
      rfl
    · simp [hv1]
  · intro t ht
    refine ⟨setVerticalTarget_verticalTarget s t, setVerticalTarget_topTarget s t, setVerticalTarget_bottomTarget s t, setVerticalTarget_leftTarget s t, setVerticalTarget_rightTarget s t, setVerticalTarget_horizontalTarget s t,
      property_setVerticalTarget s t, fun hv => ?_⟩
    have hv1 : s.m_qmlItemNode.isSome = true := hv
    unfold setVerticalTarget
    dsimp only
    rw [if_neg ht]
    simp [hv1]
  · intro t ht
    refine ⟨setHorizontalTarget_horizontalTarget s t, setHorizontalTarget_topTarget s t, setHorizontalTarget_bottomTarget s t, setHorizontalTarget_leftTarget s t, setHorizontalTarget_rightTarget s t, setHorizontalTarget_verticalTarget s t,
      property_setHorizontalTarget s t, fun hv => ?_⟩
    have hv1 : s.m_qmlItemNode.isSome = true := hv
    unfold setHorizontalTarget
    dsimp only
    rw [if_neg ht]
    simp [hv1]

/-- Witness of C22: in the second document, with the neighbour cached on the four
edges, picking the parent stores the margins 18, 212, 30 and 260 against the same side
of the parent; with the parent cached, picking the neighbour stores -105, 25, -170 and 30
against its opposite side, caches it for that side only, and as vertical target binds
VerticalCenter to its VerticalCenter and writes no property. -/
theorem C22_setTarget_rebinds_own_side_witness :
    some 0 ≠ layoutNeighbourTargets.m_topTarget
      ∧ some 2 ≠ layout.m_topTarget
      ∧ isValid layout.m_qmlItemNode = true
      ∧ (setTopTarget (some 2) layout).m_topTarget = some 2
      ∧ (setTopTarget (some 2) layout).m_bottomTarget = some 0
      ∧ property (setTopTarget (some 0) layoutNeighbourTargets).model (some 1) "anchors.topMargin"
        = some (.variant (.real 18))
      ∧ instanceAnchor (setTopTarget (some 0) layoutNeighbourTargets).model (some 1) .Top
        = some ⟨some 0, .Top⟩
      ∧ property (setTopTarget (some 2) layout).model (some 1) "anchors.topMargin"
        = some (.variant (.real (-105)))
      ∧ instanceAnchor (setTopTarget (some 2) layout).model (some 1) .Top
        = some ⟨some 2, .Bottom⟩
      ∧ property (setBottomTarget (some 0) layoutNeighbourTargets).model (some 1) "anchors.bottomMargin"
        = some (.variant (.real 212))
      ∧ instanceAnchor (setBottomTarget (some 0) layoutNeighbourTargets).model (some 1) .Bottom
        = some ⟨some 0, .Bottom⟩
      ∧ property (setBottomTarget (some 2) layout).model (some 1) "anchors.bottomMargin"
        = some (.variant (.real 25))
      ∧ instanceAnchor (setBottomTarget (some 2) layout).model (some 1) .Bottom
        = some ⟨some 2, .Top⟩
      ∧ property (setLeftTarget (some 0) layoutNeighbourTargets).model (some 1) "anchors.leftMargin"
        = some (.variant (.real 30))
      ∧ instanceAnchor (setLeftTarget (some 0) layoutNeighbourTargets).model (some 1) .Left
        = some ⟨some 0, .Left⟩
      ∧ property (setLeftTarget (some 2) layout).model (some 1) "anchors.leftMargin"
        = some (.variant (.real (-170)))
      ∧ instanceAnchor (setLeftTarget (some 2) layout).model (some 1) .Left
        = some ⟨some 2, .Right⟩
      ∧ property (setRightTarget (some 0) layoutNeighbourTargets).model (some 1) "anchors.rightMargin"
        = some (.variant (.real 260))
      ∧ instanceAnchor (setRightTarget (some 0) layoutNeighbourTargets).model (some 1) .Right
        = some ⟨some 0, .Right⟩
      ∧ property (setRightTarget (some 2) layout).model (some 1) "anchors.rightMargin"
        = some (.variant (.real 30))
      ∧ instanceAnchor (setRightTarget (some 2) layout).model (some 1) .Right
        = some ⟨some 2, .Left⟩
      ∧ (setVerticalTarget (some 2) layout).m_verticalTarget = some 2
      ∧ property (setVerticalTarget (some 2) layout).model = property layout.model
      ∧ instanceAnchor (setVerticalTarget (some 2) layout).model (some 1) .VerticalCenter
        = some ⟨some 2, .VerticalCenter⟩ := by
  have e1 : layoutNeighbourTargets.transformedBoundingBox
      = QRectF.translated ⟨0, 0, 100, 50⟩ 35 28 := rfl
  have e2 : layoutNeighbourTargets.parentBoundingBox = ⟨5, 10, 390, 280⟩ := by decide
  have e3 : layout.boundingBox layout.m_qmlItemNode
      = QRectF.translated ⟨0, 0, 100, 50⟩ 30 20 := rfl
  have e4 : layout.boundingBox (some 2) = QRectF.translated ⟨0, 0, 40, 30⟩ 160 95 := rfl
  have hp : (some 0 : ModelNode)
      = parentModelNode layoutNeighbourTargets.model layoutNeighbourTargets.m_qmlItemNode := by
    decide
  have hn : (some 2 : ModelNode) ≠ parentModelNode layout.model layout.m_qmlItemNode := by
    decide
  obtain ⟨pt, pb, pl, pr, _⟩ := C22_setTarget_rebinds_own_side layoutNeighbourTargets
  obtain ⟨ot, ob, ol, or, ov, _⟩ := C22_setTarget_rebinds_own_side layout
  obtain ⟨_, _, _, _, _, _, pt7⟩ := pt (some 0) (by decide)
  obtain ⟨pt1, pt2⟩ := pt7 (by decide)
  rw [if_pos hp, e1, e2] at pt1
  rw [if_pos hp] at pt2
  norm_num [QRectF.top, QRectF.bottom, QRectF.translated] at pt1
  obtain ⟨otc, otk, _, _, _, _, ot7⟩ := ot (some 2) (by decide)
  obtain ⟨ot1, ot2⟩ := ot7 (by decide)
  rw [if_neg hn, e3, e4] at ot1
  rw [if_neg hn] at ot2
  norm_num [QRectF.top, QRectF.bottom, QRectF.translated] at ot1
  obtain ⟨_, _, _, _, _, _, pb7⟩ := pb (some 0) (by decide)
  obtain ⟨pb1, pb2⟩ := pb7 (by decide)
  rw [if_pos hp, e1, e2] at pb1
  rw [if_pos hp] at pb2
  norm_num [QRectF.top, QRectF.bottom, QRectF.translated] at pb1
  obtain ⟨obc, obk, _, _, _, _, ob7⟩ := ob (some 2) (by decide)
  obtain ⟨ob1, ob2⟩ := ob7 (by decide)
  rw [if_neg hn, e3, e4] at ob1
  rw [if_neg hn] at ob2
  norm_num [QRectF.top, QRectF.bottom, QRectF.translated] at ob1
  obtain ⟨_, _, _, _, _, _, pl7⟩ := pl (some 0) (by decide)
  obtain ⟨pl1, pl2⟩ := pl7 (by decide)
  rw [if_pos hp, e1, e2] at pl1
  rw [if_pos hp] at pl2
  norm_num [QRectF.left, QRectF.right, QRectF.translated] at pl1
  obtain ⟨olc, olk, _, _, _, _, ol7⟩ := ol (some 2) (by decide)
  obtain ⟨ol1, ol2⟩ := ol7 (by decide)
  rw [if_neg hn, e3, e4] at ol1
  rw [if_neg hn] at ol2
  norm_num [QRectF.left, QRectF.right, QRectF.translated] at ol1
  obtain ⟨_, _, _, _, _, _, pr7⟩ := pr (some 0) (by decide)
  obtain ⟨pr1, pr2⟩ := pr7 (by decide)
  rw [if_pos hp, e1, e2] at pr1
  rw [if_pos hp] at pr2
  norm_num [QRectF.left, QRectF.right, QRectF.translated] at pr1
  obtain ⟨orc, ork, _, _, _, _, or7⟩ := or (some 2) (by decide)
  obtain ⟨or1, or2⟩ := or7 (by decide)
  rw [if_neg hn, e3, e4] at or1
  rw [if_neg hn] at or2
  norm_num [QRectF.left, QRectF.right, QRectF.translated] at or1
  obtain ⟨ov1, _, _, _, _, _, ov7, ov8⟩ := ov (some 2) (by decide)
  exact ⟨by decide, by decide, by decide, otc, otk.trans (by decide),
    pt1, pt2, ot1, ot2,
    pb1, pb2, ob1, ob2,
    pl1, pl2, ol1, ol2,
    pr1, pr2, or1, or2,
    ov1, ov7, ov8 (by decide)⟩

/-- C23, amended: a refresh entered while the guard is set is a no-op, and the guard is
set during the writes of the four margin computations (the margin and anchor writes
inside setAnchor(side, true) and inside the four edge setTarget operations) and during
the writes of the two centring toggles, also inside `fill`. The other writes of
setAnchor, `fill` and `resetLayout` (backing up and removing or restoring raw
attributes, removing anchors and margins, the fill-all write) are made with the guard
as it was on entry, and those that follow a margin computation with the guard cleared. -/
theorem C23_guard_held_in_calc_and_centering (s : QmlAnchorBindingProxy) :
    (s.m_locked = true → ∀ n, invalidate n s = s)
      ∧ WritesUnder true s (calcTopMargin s)
      ∧ WritesUnder true s (calcBottomMargin s)
      ∧ WritesUnder true s (calcLeftMargin s)
      ∧ WritesUnder true s (calcRightMargin s)
      ∧ (∀ t, WritesUnder true s (setTopTarget t s))
      ∧ (∀ t, WritesUnder true s (setBottomTarget t s))
      ∧ (∀ t, WritesUnder true s (setLeftTarget t s))
      ∧ (∀ t, WritesUnder true s (setRightTarget t s))
      ∧ (∀ centered, WritesUnder true s (setVerticalCentered centered s))
      ∧ (∀ centered, WritesUnder true s (setHorizontalCentered centered s))
      ∧ (setTopAnchor true s = s
          ∨ WritesUnder false (calcTopMargin s) (setTopAnchor true s))
      ∧ (setBottomAnchor true s = s
          ∨ WritesUnder false (calcBottomMargin s) (setBottomAnchor true s))
      ∧ (setLeftAnchor true s = s
          ∨ WritesUnder false (calcLeftMargin s) (setLeftAnchor true s))
      ∧ (setRightAnchor true s = s
          ∨ WritesUnder false (calcRightMargin s) (setRightAnchor true s))
      ∧ WritesUnder s.m_locked s (setTopAnchor false s)
      ∧ WritesUnder s.m_locked s (setBottomAnchor false s)
      ∧ WritesUnder s.m_locked s (setLeftAnchor false s)
      ∧ WritesUnder s.m_locked s (setRightAnchor false s)
      ∧ WritesUnder s.m_locked s (resetLayout s)
      ∧ ∃ a : QmlAnchorBindingProxy,
          WritesUnder s.m_locked s a
            ∧ WritesUnder true a (setVerticalCentered false (setHorizontalCentered false a))
            ∧ WritesUnder (setVerticalCentered false (setHorizontalCentered false a)).m_locked
                (setVerticalCentered false (setHorizontalCentered false a)) (fill s) :=
  ⟨fun h n => by simp [invalidate, h],
    writesUnder_calcTopMargin s, writesUnder_calcBottomMargin s, writesUnder_calcLeftMargin s, writesUnder_calcRightMargin s,
    writesUnder_setTopTarget s, writesUnder_setBottomTarget s, writesUnder_setLeftTarget s, writesUnder_setRightTarget s,
    writesUnder_setVerticalCentered s, writesUnder_setHorizontalCentered s,
    writesUnder_setTopAnchor_true s, writesUnder_setBottomAnchor_true s, writesUnder_setLeftAnchor_true s, writesUnder_setRightAnchor_true s,
    writesUnder_setTopAnchor_false s, writesUnder_setBottomAnchor_false s, writesUnder_setLeftAnchor_false s, writesUnder_setRightAnchor_false s,
    writesUnder_resetLayout s, writesUnder_fill s⟩

/-- Witness of C23, amended: with the guard set a refresh of the scenario is a no-op. -/
theorem C23_guard_held_in_calc_and_centering_witness :
    scenarioLocked.m_locked = true
      ∧ invalidate (some 2) scenarioLocked = scenarioLocked :=
  ⟨by decide, (C23_guard_held_in_calc_and_centering scenarioLocked).1 (by decide) (some 2)⟩

/-- Counterexample to C23: enabling the Top anchor in the scenario makes four model
writes, and the last two, which back up and remove the raw attribute y, are made with
the guard cleared; a refresh fired at that point is not a no-op, it emits signals.
The writes of `resetLayout` and of `fill` there are all made with the guard cleared. -/
theorem C23_backup_writes_outside_guard_counterexample :
    scenario.m_locked = false ∧ scenario.writeGuards = []
      ∧ (setTopAnchor true scenario).writeGuards = [true, true, false, false]
      ∧ (calcTopMargin scenario).m_locked = false
      ∧ (invalidate (some 1) (calcTopMargin scenario)).signals
          ≠ (calcTopMargin scenario).signals
      ∧ (resetLayout scenario).writeGuards = List.replicate 7 false
      ∧ (fill scenario).writeGuards = List.replicate 13 false := by
  decide

/-- C24: on a valid item each margin computation makes exactly two model writes, the
margin and the anchor, both while the guard is set, and returns with the guard cleared;
and starting with the guard cleared, the guard is cleared after every sequence of
operations of the proxy. -/
theorem C24_guard_held_in_calc_and_cleared_after (s : QmlAnchorBindingProxy) :
    (isValid s.m_qmlItemNode = true →
        (calcTopMargin s).writeGuards = s.writeGuards ++ [true, true]
          ∧ (calcBottomMargin s).writeGuards = s.writeGuards ++ [true, true]
          ∧ (calcLeftMargin s).writeGuards = s.writeGuards ++ [true, true]
          ∧ (calcRightMargin s).writeGuards = s.writeGuards ++ [true, true])
      ∧ (calcTopMargin s).m_locked = false
      ∧ (calcBottomMargin s).m_locked = false
      ∧ (calcLeftMargin s).m_locked = false
      ∧ (calcRightMargin s).m_locked = false
      ∧ (∀ ops : List Operation, s.m_locked = false → (run ops s).m_locked = false) :=
  ⟨fun h => ⟨writeGuards_calcTopMargin s h, writeGuards_calcBottomMargin s h,
      writeGuards_calcLeftMargin s h, writeGuards_calcRightMargin s h⟩,
    rfl, rfl, rfl, rfl, fun ops h => locked_run s ops h⟩

/-- Witness of C24: in the scenario the two writes of `calcTopMargin` are made with the
guard set, and the guard is cleared after enabling Top, filling and resetting. -/
theorem C24_guard_held_in_calc_and_cleared_after_witness :
    isValid scenario.m_qmlItemNode = true
      ∧ scenario.m_locked = false
      ∧ (calcTopMargin scenario).writeGuards = [true, true]
      ∧ (run [.setTopAnchor true, .fill, .resetLayout] scenario).m_locked = false := by
  obtain ⟨h1, _, _, _, _, h6⟩ := C24_guard_held_in_calc_and_cleared_after scenario
  exact ⟨by decide, by decide, (h1 (by decide)).1, h6 _ (by decide)⟩

/-- C25: when node `n` starts with no backup slot for x, y, width and height, then after
any sequence of operations of the proxy every one of these attributes of `n` that is
present as a literal and has a backup slot holds the backed-up value, and
`restoreProperty` leaves every such attribute that is present as it is. -/
theorem C25_backup_consistency (s : QmlAnchorBindingProxy) (ops : List Operation)
    (n : ModelNode)
    (h0 : ∀ p, (p = "x" ∨ p = "y" ∨ p = "width" ∨ p = "height") →
      auxiliaryData? s.model n (auxDataString ++ p) = none) :
    (∀ p, (p = "x" ∨ p = "y" ∨ p = "width" ∨ p = "height") → ∀ v w,
        property (run ops s).model n p = some (.variant v) →
        auxiliaryData? (run ops s).model n (auxDataString ++ p) = some w → v = w)
      ∧ (∀ p, (p = "x" ∨ p = "y" ∨ p = "width" ∨ p = "height") →
        (property (run ops s).model n p).isSome = true →
        property (restoreProperty n p (run ops s)).model n p
          = property (run ops s).model n p) := by
  have hc := backupConsistent_run s ops n (backupConsistent_of_no_slots s n h0)
  refine ⟨fun p hp v w hv hw => ?_, fun p hp hpresent =>
    restoreProperty_of_consistent _ n p hp hc hpresent⟩
  have h := hc p hp w hw _ hv
  cases h
  rfl

/-- Witness of C25: the item of the scenario has no backup slots; after enabling and
disabling the Left anchor its x is the literal 20 again, the slot of x holds 20, and
restoring x once more leaves it as it is. -/
theorem C25_backup_consistency_witness :
    (∀ p, (p = "x" ∨ p = "y" ∨ p = "width" ∨ p = "height") →
        auxiliaryData? scenario.model (some 1) (auxDataString ++ p) = none)
      ∧ property (run [.setLeftAnchor true, .setLeftAnchor false] scenario).model (some 1) "x"
          = some (.variant (.real 20))
      ∧ auxiliaryData? (run [.setLeftAnchor true, .setLeftAnchor false] scenario).model
          (some 1) (auxDataString ++ "x") = some (.real 20)
      ∧ property (restoreProperty (some 1) "x"
            (run [.setLeftAnchor true, .setLeftAnchor false] scenario)).model (some 1) "x"
          = property (run [.setLeftAnchor true, .setLeftAnchor false] scenario).model
              (some 1) "x" :=
  ⟨fun _ _ => rfl, by decide, by decide,
    (C25_backup_consistency scenario [.setLeftAnchor true, .setLeftAnchor false] (some 1)
      (fun _ _ => rfl)).2 "x" (Or.inl rfl) (by decide)⟩

/-- C26: on an item with a parent, `setVerticalCentered(true)` on a line that is not
centred binds VerticalCenter to the VerticalCenter of the parent, whatever the cached
vertical target is, and `setVerticalCentered(false)` on a centred line removes the
anchor and its margin. Either call leaves every other anchor, every property other than
that margin, every backup slot and the six cached targets unchanged, and an effective
call returns with the guard cleared. The same holds for `setHorizontalCentered`. -/
theorem C26_centering_binds_to_parent (s : QmlAnchorBindingProxy)
    (hparent : hasNodeParent s.model s.m_qmlItemNode = true) :
    (s.verticalCentered = false →
        instanceAnchor (setVerticalCentered true s).model s.m_qmlItemNode .VerticalCenter
          = some ⟨parentModelNode s.model s.m_qmlItemNode, .VerticalCenter⟩)
      ∧ (s.verticalCentered = true →
        instanceAnchor (setVerticalCentered false s).model s.m_qmlItemNode .VerticalCenter = none
          ∧ property (setVerticalCentered false s).model s.m_qmlItemNode (marginPropertyName .VerticalCenter)
            = none)
      ∧ (∀ centered,
        (∀ n1 l, l ≠ AnchorLine.VerticalCenter →
            instanceAnchor (setVerticalCentered centered s).model n1 l = instanceAnchor s.model n1 l)
          ∧ (∀ n1 q, q ≠ marginPropertyName .VerticalCenter →
            property (setVerticalCentered centered s).model n1 q = property s.model n1 q)
          ∧ auxiliaryData? (setVerticalCentered centered s).model = auxiliaryData? s.model
          ∧ (setVerticalCentered centered s).m_topTarget = s.m_topTarget
          ∧ (setVerticalCentered centered s).m_bottomTarget = s.m_bottomTarget
          ∧ (setVerticalCentered centered s).m_leftTarget = s.m_leftTarget
          ∧ (setVerticalCentered centered s).m_rightTarget = s.m_rightTarget
          ∧ (setVerticalCentered centered s).m_verticalTarget = s.m_verticalTarget
          ∧ (setVerticalCentered centered s).m_horizontalTarget = s.m_horizontalTarget
          ∧ (s.verticalCentered ≠ centered → (setVerticalCentered centered s).m_locked = false))
      ∧ (s.horizontalCentered = false →
        instanceAnchor (setHorizontalCentered true s).model s.m_qmlItemNode .HorizontalCenter
          = some ⟨parentModelNode s.model s.m_qmlItemNode, .HorizontalCenter⟩)
      ∧ (s.horizontalCentered = true →
        instanceAnchor (setHorizontalCentered false s).model s.m_qmlItemNode .HorizontalCenter = none
          ∧ property (setHorizontalCentered false s).model s.m_qmlItemNode (marginPropertyName .HorizontalCenter)
            = none)
      ∧ (∀ centered,
        (∀ n1 l, l ≠ AnchorLine.HorizontalCenter →
            instanceAnchor (setHorizontalCentered centered s).model n1 l = instanceAnchor s.model n1 l)
          ∧ (∀ n1 q, q ≠ marginPropertyName .HorizontalCenter →
            property (setHorizontalCentered centered s).model n1 q = property s.model n1 q)
          ∧ auxiliaryData? (setHorizontalCentered centered s).model = auxiliaryData? s.model
          ∧ (setHorizontalCentered centered s).m_topTarget = s.m_topTarget
          ∧ (setHorizontalCentered centered s).m_bottomTarget = s.m_bottomTarget
          ∧ (setHorizontalCentered centered s).m_leftTarget = s.m_leftTarget
          ∧ (setHorizontalCentered centered s).m_rightTarget = s.m_rightTarget
          ∧ (setHorizontalCentered centered s).m_verticalTarget = s.m_verticalTarget
          ∧ (setHorizontalCentered centered s).m_horizontalTarget = s.m_horizontalTarget
          ∧ (s.horizontalCentered ≠ centered → (setHorizontalCentered centered s).m_locked = false)) := by
  have hsome := isSome_of_hasNodeParent hparent
  refine ⟨?_, ?_, ?_, ?_, ?_, ?_⟩
  · intro hfree
    simp [setVerticalCentered, hparent, hfree, hsome]
  · intro hset
    exact ⟨instanceAnchor_setVerticalCentered_false s hparent,
      by simp [setVerticalCentered, hparent, hset, anchorsRemoveMargin]⟩
  · intro centered
    refine ⟨fun n1 l hl => instanceAnchor_setVerticalCentered_of_ne s centered n1 l hl,
      fun n1 q hq => property_setVerticalCentered_of_ne s centered n1 q hq,
      auxiliaryData?_setVerticalCentered s centered, setVerticalCentered_topTarget s centered, setVerticalCentered_bottomTarget s centered, setVerticalCentered_leftTarget s centered, setVerticalCentered_rightTarget s centered, setVerticalCentered_verticalTarget s centered, setVerticalCentered_horizontalTarget s centered,
      fun hne => ?_⟩
    simp [setVerticalCentered, hparent, hne, emit]
  · intro hfree
    simp [setHorizontalCentered, hparent, hfree, hsome]
  · intro hset
    exact ⟨instanceAnchor_setHorizontalCentered_false s hparent,
      by simp [setHorizontalCentered, hparent, hset, anchorsRemoveMargin]⟩
  · intro centered
    refine ⟨fun n1 l hl => instanceAnchor_setHorizontalCentered_of_ne s centered n1 l hl,
      fun n1 q hq => property_setHorizontalCentered_of_ne s centered n1 q hq,
      auxiliaryData?_setHorizontalCentered s centered, setHorizontalCentered_topTarget s centered, setHorizontalCentered_bottomTarget s centered, setHorizontalCentered_leftTarget s centered, setHorizontalCentered_rightTarget s centered, setHorizontalCentered_verticalTarget s centered, setHorizontalCentered_horizontalTarget s centered,
      fun hne => ?_⟩
    simp [setHorizontalCentered, hparent, hne, emit]

/-- Witness of C26: with the sibling cached as vertical target, `setVerticalCentered(true)`
still binds the centre line to the parent, and `setVerticalCentered(false)` removes it
again. -/
theorem C26_centering_binds_to_parent_witness :
    hasNodeParent scenarioVerticalTarget.model scenarioVerticalTarget.m_qmlItemNode = true
      ∧ scenarioVerticalTarget.m_verticalTarget = some 2
      ∧ scenarioVerticalTarget.verticalCentered = false
      ∧ instanceAnchor (setVerticalCentered true scenarioVerticalTarget).model (some 1)
          .VerticalCenter = some ⟨some 0, .VerticalCenter⟩
      ∧ (setVerticalCentered true scenarioVerticalTarget).verticalCentered = true
      ∧ instanceAnchor (setVerticalCentered false
          (setVerticalCentered true scenarioVerticalTarget)).model (some 1) .VerticalCenter
        = none := by
  have h1 := (C26_centering_binds_to_parent scenarioVerticalTarget (by decide)).1 (by decide)
  have h2 := ((C26_centering_binds_to_parent (setVerticalCentered true scenarioVerticalTarget)
    (by decide)).2.1 (by decide)).1
  exact ⟨by decide, by decide, by decide, h1, by decide, h2⟩

/-- C27: `verticalOverlap` and `horizontalOverlap` are symmetric in their two rectangles,
and each equals its first test alone: `a.top < b.bottom` and `a.bottom > b.top`,
respectively `a.left < b.right` and `a.right > b.left`. -/
theorem C27_overlap_symmetric_single_test (a b : QRectF) :
    verticalOverlap a b = verticalOverlap b a
      ∧ horizontalOverlap a b = horizontalOverlap b a
      ∧ verticalOverlap a b = decide (a.top < b.bottom ∧ a.bottom > b.top)
      ∧ horizontalOverlap a b = decide (a.left < b.right ∧ a.right > b.left) := by
  have hv : ∀ c d : QRectF,
      verticalOverlap c d = decide (c.top < d.bottom ∧ c.bottom > d.top) := by
    intro c d
    unfold verticalOverlap
    simp only [QRectF.top, QRectF.bottom, QRectF.height, gt_iff_lt]
    by_cases h1 : c.yp < d.yp + d.h ∧ d.yp < c.yp + c.h
    · simp [h1]
    · have h2 : ¬ (d.yp < c.yp + c.h ∧ c.yp < d.yp + d.h) := fun h => h1 ⟨h.2, h.1⟩
      simp [h1, h2]
  have hh : ∀ c d : QRectF,
      horizontalOverlap c d = decide (c.left < d.right ∧ c.right > d.left) := by
    intro c d
    unfold horizontalOverlap
    simp only [QRectF.left, QRectF.right, QRectF.width, gt_iff_lt]
    by_cases h1 : c.xp < d.xp + d.w ∧ d.xp < c.xp + c.w
    · simp [h1]
    · have h2 : ¬ (d.xp < c.xp + c.w ∧ c.xp < d.xp + d.w) := fun h => h1 ⟨h.2, h.1⟩
      simp [h1, h2]
  refine ⟨?_, ?_, hv a b, hh a b⟩
  · rw [hv a b, hv b a]
    simp only [QRectF.top, QRectF.bottom, gt_iff_lt]
    exact decide_eq_decide.2 ⟨fun h => ⟨h.2, h.1⟩, fun h => ⟨h.2, h.1⟩⟩
  · rw [hh a b, hh b a]
    simp only [QRectF.left, QRectF.right, gt_iff_lt]
    exact decide_eq_decide.2 ⟨fun h => ⟨h.2, h.1⟩, fun h => ⟨h.2, h.1⟩⟩

end QmlDesigner
